import Mathlib

/-!
Shallow embedding of the `agent_log_ontology` package (enhanced ontology):
the pydantic data model of `ontology/enhanced_run.py` and `ontology/layers/*.py`,
its pydantic-v1 serialization (`.dict()` dump and re-validation), the step-tree
operations `get_timeline` and `calculate_metrics`, and the connector
`connectors/enhanced_openai_traces.py`.

Modelling conventions:
* A "JSON-like document" (a parsed Python value) is the inductive `Json`.
  Python `datetime` values are opaque instants (`DateTime`, an integer tag with
  its order); the standard library's `datetime.fromisoformat` is not repository
  code, so connector definitions take it as a parameter
  `fromIso : String → Option DateTime`, and `datetime.utcnow()` as `now`.
* Python `float` is modelled as `Rat` (exact arithmetic); `Dict[str, X]` as an
  association list `List (String × X)` (Python dicts are insertion ordered).
* pydantic models become structures; a model with `Config.extra = "allow"`
  carries an `extra : List (String × Json)` field holding the unrecognized
  input keys. Models without that config (pydantic v1 default "ignore") drop
  unknown keys and carry no such field.
* `toJson` is the pydantic v1 `.dict()` dump (every declared field emitted in
  declaration order, then the extras); `fromJson` is model validation of such a
  document (required / optional-null / defaulted fields, closed enumerations,
  v1 string coercion). Failure is `Except.error`.
-/

namespace ALO

/-- An opaque instant: stands for a Python `datetime` value. Only equality and
order on instants matter to the embedded code. -/
structure DateTime where
  t : Int
deriving DecidableEq, Repr

/-- Order on instants, as Python compares `datetime` values. -/
def DateTime.le (a b : DateTime) : Bool := a.t ≤ b.t

/-- A parsed Python/JSON value: the document type the connector reads and the
serializer writes. `time` holds a `datetime` object (pydantic `.dict()` keeps
datetimes as objects), `int`/`num` keep Python's int/float distinction. -/
inductive Json where
  | null : Json
  | bool (b : Bool) : Json
  | int (n : Int) : Json
  | num (q : Rat) : Json
  | str (s : String) : Json
  | time (d : DateTime) : Json
  | arr (items : List Json) : Json
  | obj (fields : List (String × Json)) : Json
deriving Repr

/-- Dictionary lookup (`d[k]` / `d.get(k)`), first match. -/
def dget? (fs : List (String × Json)) (k : String) : Option Json :=
  match fs with
  | [] => none
  | (k', v) :: rest => if k' = k then some v else dget? rest k

/-- Python `d.get(k, default)`. -/
def dgetD (fs : List (String × Json)) (k : String) (d : Json) : Json :=
  (dget? fs k).getD d

/-- Python attribute call `v.get(k)` on a value that must be a dict
(`AttributeError` otherwise). -/
def pyGet (v : Json) (k : String) : Except String (Option Json) :=
  match v with
  | .obj fs => .ok (dget? fs k)
  | _ => .error "AttributeError: object has no attribute get"

/-- Python `v.get(k, default)` on a value that must be a dict. -/
def pyGetD (v : Json) (k : String) (d : Json) : Except String Json :=
  match v with
  | .obj fs => .ok (dgetD fs k d)
  | _ => .error "AttributeError: object has no attribute get"

/-- Python truthiness of a value. -/
def pyTruthy : Json → Bool
  | .null => false
  | .bool b => b
  | .int n => n ≠ 0
  | .num q => q ≠ 0
  | .str s => s ≠ ""
  | .time _ => true
  | .arr items => !items.isEmpty
  | .obj fs => !fs.isEmpty

/-- Python `x or y` (value-returning). -/
def pyOr (x y : Json) : Json := if pyTruthy x then x else y

/-- Rendering of a value inside an f-string (`str(v)`). Strings render as
themselves; the rendering of containers and instants is abbreviated (no claim
depends on it, only on it being a fixed total function). -/
def pyStr : Json → String
  | .null => "None"
  | .bool b => if b then "True" else "False"
  | .int n => toString n
  | .num q => toString q
  | .str s => s
  | .time d => "datetime<" ++ toString d.t ++ ">"
  | .arr _ => "<list>"
  | .obj _ => "<dict>"

/-- Whether a value may enter a Python `set` (lists and dicts are unhashable). -/
def pyHashable : Json → Bool
  | .arr _ => false
  | .obj _ => false
  | _ => true

/-- Python `==` restricted to hashable scalars (numbers and booleans compare
across types by value; distinct kinds otherwise compare unequal). -/
def pyScalarEq (a b : Json) : Bool :=
  match a, b with
  | .null, .null => true
  | .bool x, .bool y => x = y
  | .bool x, .int n => (if x then (1 : Int) else 0) = n
  | .int n, .bool x => n = (if x then (1 : Int) else 0)
  | .bool x, .num q => ((if x then (1 : Int) else 0) : Rat) = q
  | .num q, .bool x => q = ((if x then (1 : Int) else 0) : Rat)
  | .int n, .int m => n = m
  | .int n, .num q => (n : Rat) = q
  | .num q, .int n => q = (n : Rat)
  | .num q, .num r => q = r
  | .str s, .str u => s = u
  | .time d, .time e => d = e
  | _, _ => false

/-- Python `v == s` against a string literal (equal only to that string). -/
def jeqStr (v : Json) (s : String) : Bool :=
  match v with
  | .str u => u = s
  | _ => false

/-- Python `v == s` for an optional lookup result (`None == s` is `False`). -/
def oeqStr (v : Option Json) (s : String) : Bool :=
  match v with
  | some u => jeqStr u s
  | none => false

/-! ### pydantic v1 field validation and dump primitives -/

/-- pydantic v1 validation of a `str` field: accepts `str` and coerces numbers
and booleans through `str(v)`; rejects `None`, containers and datetimes. -/
def asStr : Json → Except String String
  | .str s => .ok s
  | .int n => .ok (toString n)
  | .num q => .ok (toString q)
  | .bool b => .ok (if b then "True" else "False")
  | _ => .error "str type expected"

/-- Validation of a `bool` field. -/
def asBool : Json → Except String Bool
  | .bool b => .ok b
  | _ => .error "bool type expected"

/-- Validation of a `float` field (`int` input coerces). -/
def asRat : Json → Except String Rat
  | .num q => .ok q
  | .int n => .ok (n : Rat)
  | _ => .error "float type expected"

/-- Validation of an `int` field. -/
def asInt : Json → Except String Int
  | .int n => .ok n
  | .bool b => .ok (if b then 1 else 0)
  | _ => .error "int type expected"

/-- Validation of a `datetime` field: the dump holds datetime objects. -/
def asTime : Json → Except String DateTime
  | .time d => .ok d
  | _ => .error "datetime type expected"

/-- Validation of an `Any` field: any value, kept as is. -/
def asAny : Json → Except String Json := fun v => .ok v

/-- Validation of a `Dict[str, Any]` field. -/
def asDictAny : Json → Except String (List (String × Json))
  | .obj fs => .ok fs
  | _ => .error "dict type expected"

/-- Validation of a `List[X]` field, given the item validator. -/
def decListOf (dec : Json → Except String α) : Json → Except String (List α)
  | .arr items => items.mapM dec
  | _ => .error "list type expected"

/-- Validation of a `Dict[str, X]` field, given the value validator. -/
def decDictOf (dec : Json → Except String α) : Json → Except String (List (String × α))
  | .obj fs => fs.mapM (fun kv => do .ok (kv.1, ← dec kv.2))
  | _ => .error "dict type expected"

/-- Validation of an `Optional[X]` field that is present: `None` stays `None`. -/
def decOpt (dec : Json → Except String α) : Json → Except String (Option α)
  | .null => .ok none
  | v => (dec v).map some

/-- A required field: present key validated, absent key is a `ValidationError`. -/
def reqField (fs : List (String × Json)) (k : String)
    (dec : Json → Except String α) : Except String α :=
  match dget? fs k with
  | some v => dec v
  | none => .error (k ++ ": field required")

/-- An `Optional[X] = None` field: absent or `None` gives `none`. -/
def optField (fs : List (String × Json)) (k : String)
    (dec : Json → Except String α) : Except String (Option α) :=
  match dget? fs k with
  | some v => decOpt dec v
  | none => .ok none

/-- A field with a non-`None` default: absent key takes the default. -/
def defField (fs : List (String × Json)) (k : String)
    (dec : Json → Except String α) (d : α) : Except String α :=
  match dget? fs k with
  | some v => dec v
  | none => .ok d

/-- Dump encoders. -/
def encOpt (enc : α → Json) : Option α → Json
  | none => .null
  | some a => enc a

/-- Dump of a list field. -/
def encList (enc : α → Json) (l : List α) : Json := .arr (l.map enc)

/-- Dump of a dict field. -/
def encDict (enc : α → Json) (kvs : List (String × α)) : Json :=
  .obj (kvs.map (fun kv => (kv.1, enc kv.2)))

/-- Dump of a string list (`List[str]`). -/
def encStrList (l : List String) : Json := .arr (l.map Json.str)

/-- Validation of a `List[str]` field. -/
def asStrList : Json → Except String (List String) := decListOf asStr

/-- The unrecognized keys of an input document: everything that is not a
declared field name (pydantic `extra = "allow"` keeps them). -/
def stripKeys (fs : List (String × Json)) (known : List String) :
    List (String × Json) :=
  fs.filter (fun kv => !(known.contains kv.1))

/-- Invariant of an open model's stored extras: a Python dict cannot hold an
extra key that collides with a declared field name. -/
def extrasOk (extra : List (String × Json)) (known : List String) : Bool :=
  extra.all (fun kv => !(known.contains kv.1))

/-! ### Identity layer (`ontology/layers/identity.py`) -/

/-- `AgentType` enumeration. -/
inductive AgentType where
  | conversational | task_execution | reasoning | learning
  | hybrid | general | deliberative | reactive
deriving DecidableEq, Repr

/-- String tag of an `AgentType`. -/
def AgentType.toStr : AgentType → String
  | .conversational => "conversational"
  | .task_execution => "task-execution"
  | .reasoning => "reasoning"
  | .learning => "learning"
  | .hybrid => "hybrid"
  | .general => "general"
  | .deliberative => "deliberative"
  | .reactive => "reactive"

/-- Closed-set validation of an `AgentType` tag. -/
def AgentType.ofStr? : String → Option AgentType
  | "conversational" => some .conversational
  | "task-execution" => some .task_execution
  | "reasoning" => some .reasoning
  | "learning" => some .learning
  | "hybrid" => some .hybrid
  | "general" => some .general
  | "deliberative" => some .deliberative
  | "reactive" => some .reactive
  | _ => none

/-- `AgentDomain` enumeration. -/
inductive AgentDomain where
  | customer_support | finance | software_development | healthcare | education | general
deriving DecidableEq, Repr

/-- String tag of an `AgentDomain`. -/
def AgentDomain.toStr : AgentDomain → String
  | .customer_support => "customer-support"
  | .finance => "finance"
  | .software_development => "software-development"
  | .healthcare => "healthcare"
  | .education => "education"
  | .general => "general"

/-- Closed-set validation of an `AgentDomain` tag. -/
def AgentDomain.ofStr? : String → Option AgentDomain
  | "customer-support" => some .customer_support
  | "finance" => some .finance
  | "software-development" => some .software_development
  | "healthcare" => some .healthcare
  | "education" => some .education
  | "general" => some .general
  | _ => none

/-- Generic enum-field validation from a closed-set tag table. -/
def decEnum (ofStr? : String → Option α) : Json → Except String α
  | .str s =>
    match ofStr? s with
    | some e => .ok e
    | none => .error "value is not a valid enumeration member"
  | _ => .error "value is not a valid enumeration member"

/-- Enum-field dump: the member's string tag. -/
def encEnum (toStr : α → String) (e : α) : Json := .str (toStr e)

/-- `AgentCapability` (closed schema: no `Config`, pydantic v1 ignores extras). -/
structure AgentCapability where
  name : String
  version : String
  parameters : List (String × Json)
  constraints : List (String × Json)
  enabled : Bool
deriving Repr

/-- Dump of an `AgentCapability`. -/
def AgentCapability.toJson (c : AgentCapability) : Json :=
  .obj [("name", .str c.name), ("version", .str c.version),
        ("parameters", .obj c.parameters), ("constraints", .obj c.constraints),
        ("enabled", .bool c.enabled)]

/-- Validation of an `AgentCapability`. -/
def AgentCapability.fromJson (j : Json) : Except String AgentCapability := do
  match j with
  | .obj fs =>
    let name ← reqField fs "name" asStr
    let version ← defField fs "version" asStr "1.0.0"
    let parameters ← defField fs "parameters" asDictAny []
    let constraints ← defField fs "constraints" asDictAny []
    let enabled ← defField fs "enabled" asBool true
    .ok ⟨name, version, parameters, constraints, enabled⟩
  | _ => .error "value is not a valid dict"

/-- `AgentConfiguration` (closed schema). -/
structure AgentConfiguration where
  model_id : Option String
  model_version : Option String
  parameters : List (String × Json)
  resource_limits : List (String × Json)
  security_settings : List (String × Json)
  feature_flags : List (String × Bool)
deriving Repr

/-- Dump of an `AgentConfiguration`. -/
def AgentConfiguration.toJson (c : AgentConfiguration) : Json :=
  .obj [("model_id", encOpt Json.str c.model_id),
        ("model_version", encOpt Json.str c.model_version),
        ("parameters", .obj c.parameters),
        ("resource_limits", .obj c.resource_limits),
        ("security_settings", .obj c.security_settings),
        ("feature_flags", encDict Json.bool c.feature_flags)]

/-- Validation of an `AgentConfiguration`. -/
def AgentConfiguration.fromJson (j : Json) : Except String AgentConfiguration := do
  match j with
  | .obj fs =>
    let model_id ← optField fs "model_id" asStr
    let model_version ← optField fs "model_version" asStr
    let parameters ← defField fs "parameters" asDictAny []
    let resource_limits ← defField fs "resource_limits" asDictAny []
    let security_settings ← defField fs "security_settings" asDictAny []
    let feature_flags ← defField fs "feature_flags" (decDictOf asBool) []
    .ok ⟨model_id, model_version, parameters, resource_limits, security_settings, feature_flags⟩
  | _ => .error "value is not a valid dict"

/-- `AgentMetadata` (closed schema). -/
structure AgentMetadata where
  created_at : DateTime
  created_by : String
  version : String
  description : Option String
  tags : List String
  documentation_url : Option String
  license : Option String
  custom_metadata : List (String × Json)
deriving Repr

/-- Dump of an `AgentMetadata`. -/
def AgentMetadata.toJson (m : AgentMetadata) : Json :=
  .obj [("created_at", .time m.created_at), ("created_by", .str m.created_by),
        ("version", .str m.version), ("description", encOpt Json.str m.description),
        ("tags", encStrList m.tags),
        ("documentation_url", encOpt Json.str m.documentation_url),
        ("license", encOpt Json.str m.license),
        ("custom_metadata", .obj m.custom_metadata)]

/-- Validation of an `AgentMetadata`. -/
def AgentMetadata.fromJson (j : Json) : Except String AgentMetadata := do
  match j with
  | .obj fs =>
    let created_at ← reqField fs "created_at" asTime
    let created_by ← reqField fs "created_by" asStr
    let version ← reqField fs "version" asStr
    let description ← optField fs "description" asStr
    let tags ← defField fs "tags" asStrList []
    let documentation_url ← optField fs "documentation_url" asStr
    let license ← optField fs "license" asStr
    let custom_metadata ← defField fs "custom_metadata" asDictAny []
    .ok ⟨created_at, created_by, version, description, tags,
         documentation_url, license, custom_metadata⟩
  | _ => .error "value is not a valid dict"

/-- `AgentInstance` (open schema: `Config.extra = "allow"`). -/
structure AgentInstance where
  id : String
  name : String
  types : List AgentType
  domains : List AgentDomain
  capabilities : List AgentCapability
  configuration : AgentConfiguration
  metadata : AgentMetadata
  parent_agent_id : Option String
  child_agent_ids : List String
  extra : List (String × Json)
deriving Repr

/-- Declared field names of `AgentInstance`. -/
def AgentInstance.knownKeys : List String :=
  ["id", "name", "types", "domains", "capabilities", "configuration",
   "metadata", "parent_agent_id", "child_agent_ids"]

/-- Dump of an `AgentInstance`. -/
def AgentInstance.toJson (a : AgentInstance) : Json :=
  .obj ([("id", .str a.id), ("name", .str a.name),
         ("types", encList (encEnum AgentType.toStr) a.types),
         ("domains", encList (encEnum AgentDomain.toStr) a.domains),
         ("capabilities", encList AgentCapability.toJson a.capabilities),
         ("configuration", a.configuration.toJson),
         ("metadata", a.metadata.toJson),
         ("parent_agent_id", encOpt Json.str a.parent_agent_id),
         ("child_agent_ids", encStrList a.child_agent_ids)] ++ a.extra)

/-- Validation of an `AgentInstance`. -/
def AgentInstance.fromJson (j : Json) : Except String AgentInstance := do
  match j with
  | .obj fs =>
    let id ← reqField fs "id" asStr
    let name ← reqField fs "name" asStr
    let types ← reqField fs "types" (decListOf (decEnum AgentType.ofStr?))
    let domains ← defField fs "domains" (decListOf (decEnum AgentDomain.ofStr?)) []
    let capabilities ← defField fs "capabilities" (decListOf AgentCapability.fromJson) []
    let configuration ← reqField fs "configuration" AgentConfiguration.fromJson
    let metadata ← reqField fs "metadata" AgentMetadata.fromJson
    let parent_agent_id ← optField fs "parent_agent_id" asStr
    let child_agent_ids ← defField fs "child_agent_ids" asStrList []
    .ok ⟨id, name, types, domains, capabilities, configuration, metadata,
         parent_agent_id, child_agent_ids, stripKeys fs AgentInstance.knownKeys⟩
  | _ => .error "value is not a valid dict"

/-- Open-schema invariant of an `AgentInstance` (§3): stored extras do not
collide with declared field names. -/
def AgentInstance.wf (a : AgentInstance) : Bool :=
  extrasOk a.extra AgentInstance.knownKeys

/-- Invariant of an optional nested model: holds when present. -/
def optWf (p : α → Bool) : Option α → Bool
  | none => true
  | some a => p a

/-- `SensorType` enumeration. -/
inductive SensorType where
  | text_input | document_input | api_input | database_input | file_system_input | network_input | environment_state | agent_state | user_feedback | system_metrics
deriving DecidableEq, Repr

/-- String tag of a `SensorType`. -/
def SensorType.toStr : SensorType → String
  | .text_input => "text-input"
  | .document_input => "document-input"
  | .api_input => "api-input"
  | .database_input => "database-input"
  | .file_system_input => "file-system-input"
  | .network_input => "network-input"
  | .environment_state => "environment-state"
  | .agent_state => "agent-state"
  | .user_feedback => "user-feedback"
  | .system_metrics => "system-metrics"

/-- Closed-set validation of a `SensorType` tag. -/
def SensorType.ofStr? : String → Option SensorType
  | "text-input" => some .text_input
  | "document-input" => some .document_input
  | "api-input" => some .api_input
  | "database-input" => some .database_input
  | "file-system-input" => some .file_system_input
  | "network-input" => some .network_input
  | "environment-state" => some .environment_state
  | "agent-state" => some .agent_state
  | "user-feedback" => some .user_feedback
  | "system-metrics" => some .system_metrics
  | _ => none

/-- `SignalType` enumeration. -/
inductive SignalType where
  | text | numeric | binary | structured | unstructured | time_series | event
deriving DecidableEq, Repr

/-- String tag of a `SignalType`. -/
def SignalType.toStr : SignalType → String
  | .text => "text"
  | .numeric => "numeric"
  | .binary => "binary"
  | .structured => "structured"
  | .unstructured => "unstructured"
  | .time_series => "time-series"
  | .event => "event"

/-- Closed-set validation of a `SignalType` tag. -/
def SignalType.ofStr? : String → Option SignalType
  | "text" => some .text
  | "numeric" => some .numeric
  | "binary" => some .binary
  | "structured" => some .structured
  | "unstructured" => some .unstructured
  | "time-series" => some .time_series
  | "event" => some .event
  | _ => none

/-- `ReasoningType` enumeration. -/
inductive ReasoningType where
  | deductive | inductiveTag | abductive | probabilistic | fuzzy | rule_based | case_based | model_based
deriving DecidableEq, Repr

/-- String tag of a `ReasoningType`. -/
def ReasoningType.toStr : ReasoningType → String
  | .deductive => "deductive"
  | .inductiveTag => "inductive"
  | .abductive => "abductive"
  | .probabilistic => "probabilistic"
  | .fuzzy => "fuzzy"
  | .rule_based => "rule-based"
  | .case_based => "case-based"
  | .model_based => "model-based"

/-- Closed-set validation of a `ReasoningType` tag. -/
def ReasoningType.ofStr? : String → Option ReasoningType
  | "deductive" => some .deductive
  | "inductive" => some .inductiveTag
  | "abductive" => some .abductive
  | "probabilistic" => some .probabilistic
  | "fuzzy" => some .fuzzy
  | "rule-based" => some .rule_based
  | "case-based" => some .case_based
  | "model-based" => some .model_based
  | _ => none

/-- `DecisionStrategy` enumeration. -/
inductive DecisionStrategy where
  | optimization | satisficing | heuristic | multi_criteria | game_theoretic | consensus
deriving DecidableEq, Repr

/-- String tag of a `DecisionStrategy`. -/
def DecisionStrategy.toStr : DecisionStrategy → String
  | .optimization => "optimization"
  | .satisficing => "satisficing"
  | .heuristic => "heuristic"
  | .multi_criteria => "multi-criteria"
  | .game_theoretic => "game-theoretic"
  | .consensus => "consensus"

/-- Closed-set validation of a `DecisionStrategy` tag. -/
def DecisionStrategy.ofStr? : String → Option DecisionStrategy
  | "optimization" => some .optimization
  | "satisficing" => some .satisficing
  | "heuristic" => some .heuristic
  | "multi-criteria" => some .multi_criteria
  | "game-theoretic" => some .game_theoretic
  | "consensus" => some .consensus
  | _ => none

/-- `ActionType` enumeration. -/
inductive ActionType where
  | external | internal | social | meta
deriving DecidableEq, Repr

/-- String tag of a `ActionType`. -/
def ActionType.toStr : ActionType → String
  | .external => "external"
  | .internal => "internal"
  | .social => "social"
  | .meta => "meta"

/-- Closed-set validation of a `ActionType` tag. -/
def ActionType.ofStr? : String → Option ActionType
  | "external" => some .external
  | "internal" => some .internal
  | "social" => some .social
  | "meta" => some .meta
  | _ => none

/-- `ActionCategory` enumeration. -/
inductive ActionCategory where
  | communication | computation | data_manipulation | resource_access | tool_use | decision_making | learning | monitoring
deriving DecidableEq, Repr

/-- String tag of a `ActionCategory`. -/
def ActionCategory.toStr : ActionCategory → String
  | .communication => "communication"
  | .computation => "computation"
  | .data_manipulation => "data-manipulation"
  | .resource_access => "resource-access"
  | .tool_use => "tool-use"
  | .decision_making => "decision-making"
  | .learning => "learning"
  | .monitoring => "monitoring"

/-- Closed-set validation of a `ActionCategory` tag. -/
def ActionCategory.ofStr? : String → Option ActionCategory
  | "communication" => some .communication
  | "computation" => some .computation
  | "data-manipulation" => some .data_manipulation
  | "resource-access" => some .resource_access
  | "tool-use" => some .tool_use
  | "decision-making" => some .decision_making
  | "learning" => some .learning
  | "monitoring" => some .monitoring
  | _ => none

/-- `ActionStatus` enumeration. -/
inductive ActionStatus where
  | planned | validated | executing | completed | failed | cancelled | suspended
deriving DecidableEq, Repr

/-- String tag of a `ActionStatus`. -/
def ActionStatus.toStr : ActionStatus → String
  | .planned => "planned"
  | .validated => "validated"
  | .executing => "executing"
  | .completed => "completed"
  | .failed => "failed"
  | .cancelled => "cancelled"
  | .suspended => "suspended"

/-- Closed-set validation of a `ActionStatus` tag. -/
def ActionStatus.ofStr? : String → Option ActionStatus
  | "planned" => some .planned
  | "validated" => some .validated
  | "executing" => some .executing
  | "completed" => some .completed
  | "failed" => some .failed
  | "cancelled" => some .cancelled
  | "suspended" => some .suspended
  | _ => none

/-- `AgentStatus` enumeration. -/
inductive AgentStatus where
  | initializing | ready | active | busy | paused | error | shutting_down | terminated
deriving DecidableEq, Repr

/-- String tag of a `AgentStatus`. -/
def AgentStatus.toStr : AgentStatus → String
  | .initializing => "initializing"
  | .ready => "ready"
  | .active => "active"
  | .busy => "busy"
  | .paused => "paused"
  | .error => "error"
  | .shutting_down => "shutting-down"
  | .terminated => "terminated"

/-- Closed-set validation of a `AgentStatus` tag. -/
def AgentStatus.ofStr? : String → Option AgentStatus
  | "initializing" => some .initializing
  | "ready" => some .ready
  | "active" => some .active
  | "busy" => some .busy
  | "paused" => some .paused
  | "error" => some .error
  | "shutting-down" => some .shutting_down
  | "terminated" => some .terminated
  | _ => none

/-- `ExecutionPhase` enumeration. -/
inductive ExecutionPhase where
  | perception | reasoning | planning | execution | monitoring | learning | idle
deriving DecidableEq, Repr

/-- String tag of a `ExecutionPhase`. -/
def ExecutionPhase.toStr : ExecutionPhase → String
  | .perception => "perception"
  | .reasoning => "reasoning"
  | .planning => "planning"
  | .execution => "execution"
  | .monitoring => "monitoring"
  | .learning => "learning"
  | .idle => "idle"

/-- Closed-set validation of a `ExecutionPhase` tag. -/
def ExecutionPhase.ofStr? : String → Option ExecutionPhase
  | "perception" => some .perception
  | "reasoning" => some .reasoning
  | "planning" => some .planning
  | "execution" => some .execution
  | "monitoring" => some .monitoring
  | "learning" => some .learning
  | "idle" => some .idle
  | _ => none

/-- `InterfaceType` enumeration. -/
inductive InterfaceType where
  | human | agent | system | environment
deriving DecidableEq, Repr

/-- String tag of a `InterfaceType`. -/
def InterfaceType.toStr : InterfaceType → String
  | .human => "human"
  | .agent => "agent"
  | .system => "system"
  | .environment => "environment"

/-- Closed-set validation of a `InterfaceType` tag. -/
def InterfaceType.ofStr? : String → Option InterfaceType
  | "human" => some .human
  | "agent" => some .agent
  | "system" => some .system
  | "environment" => some .environment
  | _ => none

/-- `CommunicationProtocol` enumeration. -/
inductive CommunicationProtocol where
  | http | websocket | grpc | message_queue | shared_memory | custom
deriving DecidableEq, Repr

/-- String tag of a `CommunicationProtocol`. -/
def CommunicationProtocol.toStr : CommunicationProtocol → String
  | .http => "http"
  | .websocket => "websocket"
  | .grpc => "grpc"
  | .message_queue => "message-queue"
  | .shared_memory => "shared-memory"
  | .custom => "custom"

/-- Closed-set validation of a `CommunicationProtocol` tag. -/
def CommunicationProtocol.ofStr? : String → Option CommunicationProtocol
  | "http" => some .http
  | "websocket" => some .websocket
  | "grpc" => some .grpc
  | "message-queue" => some .message_queue
  | "shared-memory" => some .shared_memory
  | "custom" => some .custom
  | _ => none

/-- `MessageType` enumeration. -/
inductive MessageType where
  | request | response | notification | command | query | update | error | acknowledgment
deriving DecidableEq, Repr

/-- String tag of a `MessageType`. -/
def MessageType.toStr : MessageType → String
  | .request => "request"
  | .response => "response"
  | .notification => "notification"
  | .command => "command"
  | .query => "query"
  | .update => "update"
  | .error => "error"
  | .acknowledgment => "acknowledgment"

/-- Closed-set validation of a `MessageType` tag. -/
def MessageType.ofStr? : String → Option MessageType
  | "request" => some .request
  | "response" => some .response
  | "notification" => some .notification
  | "command" => some .command
  | "query" => some .query
  | "update" => some .update
  | "error" => some .error
  | "acknowledgment" => some .acknowledgment
  | _ => none

/-- `AnomalyType` enumeration. -/
inductive AnomalyType where
  | behavioral | performance | resource | security | compliance | data_quality | system
deriving DecidableEq, Repr

/-- String tag of a `AnomalyType`. -/
def AnomalyType.toStr : AnomalyType → String
  | .behavioral => "behavioral"
  | .performance => "performance"
  | .resource => "resource"
  | .security => "security"
  | .compliance => "compliance"
  | .data_quality => "data-quality"
  | .system => "system"

/-- Closed-set validation of a `AnomalyType` tag. -/
def AnomalyType.ofStr? : String → Option AnomalyType
  | "behavioral" => some .behavioral
  | "performance" => some .performance
  | "resource" => some .resource
  | "security" => some .security
  | "compliance" => some .compliance
  | "data-quality" => some .data_quality
  | "system" => some .system
  | _ => none

/-- `RiskLevel` enumeration. -/
inductive RiskLevel where
  | critical | high | medium | low | minimal
deriving DecidableEq, Repr

/-- String tag of a `RiskLevel`. -/
def RiskLevel.toStr : RiskLevel → String
  | .critical => "critical"
  | .high => "high"
  | .medium => "medium"
  | .low => "low"
  | .minimal => "minimal"

/-- Closed-set validation of a `RiskLevel` tag. -/
def RiskLevel.ofStr? : String → Option RiskLevel
  | "critical" => some .critical
  | "high" => some .high
  | "medium" => some .medium
  | "low" => some .low
  | "minimal" => some .minimal
  | _ => none

/-- `InterventionType` enumeration. -/
inductive InterventionType where
  | human_review | automatic_correction | pause_execution | rollback | parameter_adjustment | capability_restriction | shutdown
deriving DecidableEq, Repr

/-- String tag of a `InterventionType`. -/
def InterventionType.toStr : InterventionType → String
  | .human_review => "human-review"
  | .automatic_correction => "automatic-correction"
  | .pause_execution => "pause-execution"
  | .rollback => "rollback"
  | .parameter_adjustment => "parameter-adjustment"
  | .capability_restriction => "capability-restriction"
  | .shutdown => "shutdown"

/-- Closed-set validation of a `InterventionType` tag. -/
def InterventionType.ofStr? : String → Option InterventionType
  | "human-review" => some .human_review
  | "automatic-correction" => some .automatic_correction
  | "pause-execution" => some .pause_execution
  | "rollback" => some .rollback
  | "parameter-adjustment" => some .parameter_adjustment
  | "capability-restriction" => some .capability_restriction
  | "shutdown" => some .shutdown
  | _ => none

/-- `Sensor` (`ontology/layers/perception.py`, open schema). -/
structure Sensor where
  id : String
  name : String
  type : SensorType
  configuration : List (String × Json)
  active : Bool
  sampling_rate : Option Rat
  filters : List String
  extra : List (String × Json)
deriving Repr

/-- Declared field names of `Sensor`. -/
def Sensor.knownKeys : List String :=
  ["id", "name", "type", "configuration", "active", "sampling_rate", "filters"]

/-- Dump of a `Sensor` (`.dict()`; declared fields then extras). -/
def Sensor.toJson (x : Sensor) : Json :=
  .obj ([("id", Json.str (x.id)),
        ("name", Json.str (x.name)),
        ("type", encEnum SensorType.toStr x.type),
        ("configuration", Json.obj x.configuration),
        ("active", Json.bool (x.active)),
        ("sampling_rate", encOpt Json.num x.sampling_rate),
        ("filters", encStrList x.filters)] ++ x.extra)

/-- Validation of a `Sensor`. -/
def Sensor.fromJson (j : Json) : Except String Sensor := do
  match j with
  | .obj fs =>
    let id ← reqField fs "id" (asStr)
    let name ← reqField fs "name" (asStr)
    let type ← reqField fs "type" (decEnum SensorType.ofStr?)
    let configuration ← defField fs "configuration" (asDictAny) []
    let active ← defField fs "active" (asBool) true
    let sampling_rate ← optField fs "sampling_rate" (asRat)
    let filters ← defField fs "filters" (asStrList) []
    .ok ⟨id, name, type, configuration, active, sampling_rate, filters, stripKeys fs Sensor.knownKeys⟩
  | _ => .error "value is not a valid dict"

/-- Open-schema invariant of a `Sensor` (§3), recursively. -/
def Sensor.wf (x : Sensor) : Bool :=
  extrasOk x.extra Sensor.knownKeys

/-- `RawSignal` (`ontology/layers/perception.py`, open schema). -/
structure RawSignal where
  id : String
  sensor_id : String
  type : SignalType
  data : Json
  timestamp : DateTime
  quality : Rat
  metadata : List (String × Json)
  extra : List (String × Json)
deriving Repr

/-- Declared field names of `RawSignal`. -/
def RawSignal.knownKeys : List String :=
  ["id", "sensor_id", "type", "data", "timestamp", "quality", "metadata"]

/-- Dump of a `RawSignal` (`.dict()`; declared fields then extras). -/
def RawSignal.toJson (x : RawSignal) : Json :=
  .obj ([("id", Json.str (x.id)),
        ("sensor_id", Json.str (x.sensor_id)),
        ("type", encEnum SignalType.toStr x.type),
        ("data", x.data),
        ("timestamp", Json.time (x.timestamp)),
        ("quality", Json.num (x.quality)),
        ("metadata", Json.obj x.metadata)] ++ x.extra)

/-- Validation of a `RawSignal`. -/
def RawSignal.fromJson (j : Json) : Except String RawSignal := do
  match j with
  | .obj fs =>
    let id ← reqField fs "id" (asStr)
    let sensor_id ← reqField fs "sensor_id" (asStr)
    let type ← reqField fs "type" (decEnum SignalType.ofStr?)
    let data ← reqField fs "data" (asAny)
    let timestamp ← reqField fs "timestamp" (asTime)
    let quality ← defField fs "quality" (asRat) (1 : Rat)
    let metadata ← defField fs "metadata" (asDictAny) []
    .ok ⟨id, sensor_id, type, data, timestamp, quality, metadata, stripKeys fs RawSignal.knownKeys⟩
  | _ => .error "value is not a valid dict"

/-- Open-schema invariant of a `RawSignal` (§3), recursively. -/
def RawSignal.wf (x : RawSignal) : Bool :=
  extrasOk x.extra RawSignal.knownKeys

/-- `Observation` (`ontology/layers/perception.py`, open schema). -/
structure Observation where
  id : String
  processor_id : String
  signal_ids : List String
  type : String
  content : Json
  confidence : Rat
  timestamp : DateTime
  metadata : List (String × Json)
  extra : List (String × Json)
deriving Repr

/-- Declared field names of `Observation`. -/
def Observation.knownKeys : List String :=
  ["id", "processor_id", "signal_ids", "type", "content", "confidence", "timestamp", "metadata"]

/-- Dump of a `Observation` (`.dict()`; declared fields then extras). -/
def Observation.toJson (x : Observation) : Json :=
  .obj ([("id", Json.str (x.id)),
        ("processor_id", Json.str (x.processor_id)),
        ("signal_ids", encStrList x.signal_ids),
        ("type", Json.str (x.type)),
        ("content", x.content),
        ("confidence", Json.num (x.confidence)),
        ("timestamp", Json.time (x.timestamp)),
        ("metadata", Json.obj x.metadata)] ++ x.extra)

/-- Validation of a `Observation`. -/
def Observation.fromJson (j : Json) : Except String Observation := do
  match j with
  | .obj fs =>
    let id ← reqField fs "id" (asStr)
    let processor_id ← reqField fs "processor_id" (asStr)
    let signal_ids ← reqField fs "signal_ids" (asStrList)
    let type ← reqField fs "type" (asStr)
    let content ← reqField fs "content" (asAny)
    let confidence ← defField fs "confidence" (asRat) (1 : Rat)
    let timestamp ← reqField fs "timestamp" (asTime)
    let metadata ← defField fs "metadata" (asDictAny) []
    .ok ⟨id, processor_id, signal_ids, type, content, confidence, timestamp, metadata, stripKeys fs Observation.knownKeys⟩
  | _ => .error "value is not a valid dict"

/-- Open-schema invariant of a `Observation` (§3), recursively. -/
def Observation.wf (x : Observation) : Bool :=
  extrasOk x.extra Observation.knownKeys

/-- `ContextFilter` (`ontology/layers/perception.py`, open schema). -/
structure ContextFilter where
  id : String
  name : String
  criteria : List (String × Json)
  priority : Int
  active : Bool
  extra : List (String × Json)
deriving Repr

/-- Declared field names of `ContextFilter`. -/
def ContextFilter.knownKeys : List String :=
  ["id", "name", "criteria", "priority", "active"]

/-- Dump of a `ContextFilter` (`.dict()`; declared fields then extras). -/
def ContextFilter.toJson (x : ContextFilter) : Json :=
  .obj ([("id", Json.str (x.id)),
        ("name", Json.str (x.name)),
        ("criteria", Json.obj x.criteria),
        ("priority", Json.int (x.priority)),
        ("active", Json.bool (x.active))] ++ x.extra)

/-- Validation of a `ContextFilter`. -/
def ContextFilter.fromJson (j : Json) : Except String ContextFilter := do
  match j with
  | .obj fs =>
    let id ← reqField fs "id" (asStr)
    let name ← reqField fs "name" (asStr)
    let criteria ← reqField fs "criteria" (asDictAny)
    let priority ← defField fs "priority" (asInt) (0 : Int)
    let active ← defField fs "active" (asBool) true
    .ok ⟨id, name, criteria, priority, active, stripKeys fs ContextFilter.knownKeys⟩
  | _ => .error "value is not a valid dict"

/-- Open-schema invariant of a `ContextFilter` (§3), recursively. -/
def ContextFilter.wf (x : ContextFilter) : Bool :=
  extrasOk x.extra ContextFilter.knownKeys

/-- `PerceptionSnapshot` (`ontology/layers/perception.py`, open schema). -/
structure PerceptionSnapshot where
  timestamp : DateTime
  active_sensors : List Sensor
  recent_signals : List RawSignal
  current_observations : List Observation
  active_filters : List ContextFilter
  processing_queue_size : Int
  extra : List (String × Json)
deriving Repr

/-- Declared field names of `PerceptionSnapshot`. -/
def PerceptionSnapshot.knownKeys : List String :=
  ["timestamp", "active_sensors", "recent_signals", "current_observations", "active_filters", "processing_queue_size"]

/-- Dump of a `PerceptionSnapshot` (`.dict()`; declared fields then extras). -/
def PerceptionSnapshot.toJson (x : PerceptionSnapshot) : Json :=
  .obj ([("timestamp", Json.time (x.timestamp)),
        ("active_sensors", encList Sensor.toJson x.active_sensors),
        ("recent_signals", encList RawSignal.toJson x.recent_signals),
        ("current_observations", encList Observation.toJson x.current_observations),
        ("active_filters", encList ContextFilter.toJson x.active_filters),
        ("processing_queue_size", Json.int (x.processing_queue_size))] ++ x.extra)

/-- Validation of a `PerceptionSnapshot`. -/
def PerceptionSnapshot.fromJson (j : Json) : Except String PerceptionSnapshot := do
  match j with
  | .obj fs =>
    let timestamp ← reqField fs "timestamp" (asTime)
    let active_sensors ← defField fs "active_sensors" (decListOf Sensor.fromJson) []
    let recent_signals ← defField fs "recent_signals" (decListOf RawSignal.fromJson) []
    let current_observations ← defField fs "current_observations" (decListOf Observation.fromJson) []
    let active_filters ← defField fs "active_filters" (decListOf ContextFilter.fromJson) []
    let processing_queue_size ← defField fs "processing_queue_size" (asInt) (0 : Int)
    .ok ⟨timestamp, active_sensors, recent_signals, current_observations, active_filters, processing_queue_size, stripKeys fs PerceptionSnapshot.knownKeys⟩
  | _ => .error "value is not a valid dict"

/-- Open-schema invariant of a `PerceptionSnapshot` (§3), recursively. -/
def PerceptionSnapshot.wf (x : PerceptionSnapshot) : Bool :=
  extrasOk x.extra PerceptionSnapshot.knownKeys &&
  x.active_sensors.all Sensor.wf &&
  x.recent_signals.all RawSignal.wf &&
  x.current_observations.all Observation.wf &&
  x.active_filters.all ContextFilter.wf

/-- `Reasoning` (`ontology/layers/cognition.py`, open schema). -/
structure Reasoning where
  id : String
  type : ReasoningType
  inputs : List String
  premises : List (List (String × Json))
  inference_steps : List (List (String × Json))
  conclusion : Json
  confidence : Rat
  timestamp : DateTime
  extra : List (String × Json)
deriving Repr

/-- Declared field names of `Reasoning`. -/
def Reasoning.knownKeys : List String :=
  ["id", "type", "inputs", "premises", "inference_steps", "conclusion", "confidence", "timestamp"]

/-- Dump of a `Reasoning` (`.dict()`; declared fields then extras). -/
def Reasoning.toJson (x : Reasoning) : Json :=
  .obj ([("id", Json.str (x.id)),
        ("type", encEnum ReasoningType.toStr x.type),
        ("inputs", encStrList x.inputs),
        ("premises", encList Json.obj x.premises),
        ("inference_steps", encList Json.obj x.inference_steps),
        ("conclusion", x.conclusion),
        ("confidence", Json.num (x.confidence)),
        ("timestamp", Json.time (x.timestamp))] ++ x.extra)

/-- Validation of a `Reasoning`. -/
def Reasoning.fromJson (j : Json) : Except String Reasoning := do
  match j with
  | .obj fs =>
    let id ← reqField fs "id" (asStr)
    let type ← reqField fs "type" (decEnum ReasoningType.ofStr?)
    let inputs ← reqField fs "inputs" (asStrList)
    let premises ← defField fs "premises" (decListOf asDictAny) []
    let inference_steps ← defField fs "inference_steps" (decListOf asDictAny) []
    let conclusion ← reqField fs "conclusion" (asAny)
    let confidence ← defField fs "confidence" (asRat) (1 : Rat)
    let timestamp ← reqField fs "timestamp" (asTime)
    .ok ⟨id, type, inputs, premises, inference_steps, conclusion, confidence, timestamp, stripKeys fs Reasoning.knownKeys⟩
  | _ => .error "value is not a valid dict"

/-- Open-schema invariant of a `Reasoning` (§3), recursively. -/
def Reasoning.wf (x : Reasoning) : Bool :=
  extrasOk x.extra Reasoning.knownKeys

/-- `Decision` (`ontology/layers/cognition.py`, open schema). -/
structure Decision where
  id : String
  reasoning_ids : List String
  strategy : DecisionStrategy
  options : List (List (String × Json))
  selected_option : List (String × Json)
  criteria : List (String × Rat)
  confidence : Rat
  timestamp : DateTime
  justification : Option String
  extra : List (String × Json)
deriving Repr

/-- Declared field names of `Decision`. -/
def Decision.knownKeys : List String :=
  ["id", "reasoning_ids", "strategy", "options", "selected_option", "criteria", "confidence", "timestamp", "justification"]

/-- Dump of a `Decision` (`.dict()`; declared fields then extras). -/
def Decision.toJson (x : Decision) : Json :=
  .obj ([("id", Json.str (x.id)),
        ("reasoning_ids", encStrList x.reasoning_ids),
        ("strategy", encEnum DecisionStrategy.toStr x.strategy),
        ("options", encList Json.obj x.options),
        ("selected_option", Json.obj x.selected_option),
        ("criteria", encDict Json.num x.criteria),
        ("confidence", Json.num (x.confidence)),
        ("timestamp", Json.time (x.timestamp)),
        ("justification", encOpt Json.str x.justification)] ++ x.extra)

/-- Validation of a `Decision`. -/
def Decision.fromJson (j : Json) : Except String Decision := do
  match j with
  | .obj fs =>
    let id ← reqField fs "id" (asStr)
    let reasoning_ids ← reqField fs "reasoning_ids" (asStrList)
    let strategy ← reqField fs "strategy" (decEnum DecisionStrategy.ofStr?)
    let options ← reqField fs "options" (decListOf asDictAny)
    let selected_option ← reqField fs "selected_option" (asDictAny)
    let criteria ← defField fs "criteria" (decDictOf asRat) []
    let confidence ← defField fs "confidence" (asRat) (1 : Rat)
    let timestamp ← reqField fs "timestamp" (asTime)
    let justification ← optField fs "justification" (asStr)
    .ok ⟨id, reasoning_ids, strategy, options, selected_option, criteria, confidence, timestamp, justification, stripKeys fs Decision.knownKeys⟩
  | _ => .error "value is not a valid dict"

/-- Open-schema invariant of a `Decision` (§3), recursively. -/
def Decision.wf (x : Decision) : Bool :=
  extrasOk x.extra Decision.knownKeys

/-- `Goal` (`ontology/layers/cognition.py`, open schema). -/
structure Goal where
  id : String
  name : String
  description : String
  priority : Int
  parent_goal_id : Option String
  sub_goal_ids : List String
  constraints : List (String × Json)
  success_criteria : List (String × Json)
  status : String
  progress : Rat
  extra : List (String × Json)
deriving Repr

/-- Declared field names of `Goal`. -/
def Goal.knownKeys : List String :=
  ["id", "name", "description", "priority", "parent_goal_id", "sub_goal_ids", "constraints", "success_criteria", "status", "progress"]

/-- Dump of a `Goal` (`.dict()`; declared fields then extras). -/
def Goal.toJson (x : Goal) : Json :=
  .obj ([("id", Json.str (x.id)),
        ("name", Json.str (x.name)),
        ("description", Json.str (x.description)),
        ("priority", Json.int (x.priority)),
        ("parent_goal_id", encOpt Json.str x.parent_goal_id),
        ("sub_goal_ids", encStrList x.sub_goal_ids),
        ("constraints", Json.obj x.constraints),
        ("success_criteria", Json.obj x.success_criteria),
        ("status", Json.str (x.status)),
        ("progress", Json.num (x.progress))] ++ x.extra)

/-- Validation of a `Goal`. -/
def Goal.fromJson (j : Json) : Except String Goal := do
  match j with
  | .obj fs =>
    let id ← reqField fs "id" (asStr)
    let name ← reqField fs "name" (asStr)
    let description ← reqField fs "description" (asStr)
    let priority ← defField fs "priority" (asInt) (0 : Int)
    let parent_goal_id ← optField fs "parent_goal_id" (asStr)
    let sub_goal_ids ← defField fs "sub_goal_ids" (asStrList) []
    let constraints ← defField fs "constraints" (asDictAny) []
    let success_criteria ← reqField fs "success_criteria" (asDictAny)
    let status ← defField fs "status" (asStr) "active"
    let progress ← defField fs "progress" (asRat) (0 : Rat)
    .ok ⟨id, name, description, priority, parent_goal_id, sub_goal_ids, constraints, success_criteria, status, progress, stripKeys fs Goal.knownKeys⟩
  | _ => .error "value is not a valid dict"

/-- Open-schema invariant of a `Goal` (§3), recursively. -/
def Goal.wf (x : Goal) : Bool :=
  extrasOk x.extra Goal.knownKeys

/-- `Plan` (`ontology/layers/cognition.py`, open schema). -/
structure Plan where
  id : String
  goal_ids : List String
  steps : List (List (String × Json))
  dependencies : List (String × List String)
  resources_required : List (String × Json)
  estimated_duration : Option Rat
  confidence : Rat
  alternatives : List String
  extra : List (String × Json)
deriving Repr

/-- Declared field names of `Plan`. -/
def Plan.knownKeys : List String :=
  ["id", "goal_ids", "steps", "dependencies", "resources_required", "estimated_duration", "confidence", "alternatives"]

/-- Dump of a `Plan` (`.dict()`; declared fields then extras). -/
def Plan.toJson (x : Plan) : Json :=
  .obj ([("id", Json.str (x.id)),
        ("goal_ids", encStrList x.goal_ids),
        ("steps", encList Json.obj x.steps),
        ("dependencies", encDict encStrList x.dependencies),
        ("resources_required", Json.obj x.resources_required),
        ("estimated_duration", encOpt Json.num x.estimated_duration),
        ("confidence", Json.num (x.confidence)),
        ("alternatives", encStrList x.alternatives)] ++ x.extra)

/-- Validation of a `Plan`. -/
def Plan.fromJson (j : Json) : Except String Plan := do
  match j with
  | .obj fs =>
    let id ← reqField fs "id" (asStr)
    let goal_ids ← reqField fs "goal_ids" (asStrList)
    let steps ← reqField fs "steps" (decListOf asDictAny)
    let dependencies ← defField fs "dependencies" (decDictOf asStrList) []
    let resources_required ← defField fs "resources_required" (asDictAny) []
    let estimated_duration ← optField fs "estimated_duration" (asRat)
    let confidence ← defField fs "confidence" (asRat) (1 : Rat)
    let alternatives ← defField fs "alternatives" (asStrList) []
    .ok ⟨id, goal_ids, steps, dependencies, resources_required, estimated_duration, confidence, alternatives, stripKeys fs Plan.knownKeys⟩
  | _ => .error "value is not a valid dict"

/-- Open-schema invariant of a `Plan` (§3), recursively. -/
def Plan.wf (x : Plan) : Bool :=
  extrasOk x.extra Plan.knownKeys

/-- `CognitionSnapshot` (`ontology/layers/cognition.py`, open schema). -/
structure CognitionSnapshot where
  timestamp : DateTime
  active_reasoning : List Reasoning
  recent_decisions : List Decision
  current_goals : List Goal
  active_plans : List Plan
  knowledge_stats : List (String × Int)
  learning_rate : Rat
  uncertainty_level : Rat
  extra : List (String × Json)
deriving Repr

/-- Declared field names of `CognitionSnapshot`. -/
def CognitionSnapshot.knownKeys : List String :=
  ["timestamp", "active_reasoning", "recent_decisions", "current_goals", "active_plans", "knowledge_stats", "learning_rate", "uncertainty_level"]

/-- Dump of a `CognitionSnapshot` (`.dict()`; declared fields then extras). -/
def CognitionSnapshot.toJson (x : CognitionSnapshot) : Json :=
  .obj ([("timestamp", Json.time (x.timestamp)),
        ("active_reasoning", encList Reasoning.toJson x.active_reasoning),
        ("recent_decisions", encList Decision.toJson x.recent_decisions),
        ("current_goals", encList Goal.toJson x.current_goals),
        ("active_plans", encList Plan.toJson x.active_plans),
        ("knowledge_stats", encDict Json.int x.knowledge_stats),
        ("learning_rate", Json.num (x.learning_rate)),
        ("uncertainty_level", Json.num (x.uncertainty_level))] ++ x.extra)

/-- Validation of a `CognitionSnapshot`. -/
def CognitionSnapshot.fromJson (j : Json) : Except String CognitionSnapshot := do
  match j with
  | .obj fs =>
    let timestamp ← reqField fs "timestamp" (asTime)
    let active_reasoning ← defField fs "active_reasoning" (decListOf Reasoning.fromJson) []
    let recent_decisions ← defField fs "recent_decisions" (decListOf Decision.fromJson) []
    let current_goals ← defField fs "current_goals" (decListOf Goal.fromJson) []
    let active_plans ← defField fs "active_plans" (decListOf Plan.fromJson) []
    let knowledge_stats ← defField fs "knowledge_stats" (decDictOf asInt) []
    let learning_rate ← defField fs "learning_rate" (asRat) (0 : Rat)
    let uncertainty_level ← defField fs "uncertainty_level" (asRat) (0 : Rat)
    .ok ⟨timestamp, active_reasoning, recent_decisions, current_goals, active_plans, knowledge_stats, learning_rate, uncertainty_level, stripKeys fs CognitionSnapshot.knownKeys⟩
  | _ => .error "value is not a valid dict"

/-- Open-schema invariant of a `CognitionSnapshot` (§3), recursively. -/
def CognitionSnapshot.wf (x : CognitionSnapshot) : Bool :=
  extrasOk x.extra CognitionSnapshot.knownKeys &&
  x.active_reasoning.all Reasoning.wf &&
  x.recent_decisions.all Decision.wf &&
  x.current_goals.all Goal.wf &&
  x.active_plans.all Plan.wf

/-- `ActionPlan` (`ontology/layers/action.py`, open schema). -/
structure ActionPlan where
  id : String
  name : String
  type : ActionType
  category : ActionCategory
  description : String
  goal_id : Option String
  plan_id : Option String
  parameters : List (String × Json)
  preconditions : List (List (String × Json))
  expected_effects : List (List (String × Json))
  priority : Int
  deadline : Option DateTime
  extra : List (String × Json)
deriving Repr

/-- Declared field names of `ActionPlan`. -/
def ActionPlan.knownKeys : List String :=
  ["id", "name", "type", "category", "description", "goal_id", "plan_id", "parameters", "preconditions", "expected_effects", "priority", "deadline"]

/-- Dump of a `ActionPlan` (`.dict()`; declared fields then extras). -/
def ActionPlan.toJson (x : ActionPlan) : Json :=
  .obj ([("id", Json.str (x.id)),
        ("name", Json.str (x.name)),
        ("type", encEnum ActionType.toStr x.type),
        ("category", encEnum ActionCategory.toStr x.category),
        ("description", Json.str (x.description)),
        ("goal_id", encOpt Json.str x.goal_id),
        ("plan_id", encOpt Json.str x.plan_id),
        ("parameters", Json.obj x.parameters),
        ("preconditions", encList Json.obj x.preconditions),
        ("expected_effects", encList Json.obj x.expected_effects),
        ("priority", Json.int (x.priority)),
        ("deadline", encOpt Json.time x.deadline)] ++ x.extra)

/-- Validation of a `ActionPlan`. -/
def ActionPlan.fromJson (j : Json) : Except String ActionPlan := do
  match j with
  | .obj fs =>
    let id ← reqField fs "id" (asStr)
    let name ← reqField fs "name" (asStr)
    let type ← reqField fs "type" (decEnum ActionType.ofStr?)
    let category ← reqField fs "category" (decEnum ActionCategory.ofStr?)
    let description ← reqField fs "description" (asStr)
    let goal_id ← optField fs "goal_id" (asStr)
    let plan_id ← optField fs "plan_id" (asStr)
    let parameters ← defField fs "parameters" (asDictAny) []
    let preconditions ← defField fs "preconditions" (decListOf asDictAny) []
    let expected_effects ← defField fs "expected_effects" (decListOf asDictAny) []
    let priority ← defField fs "priority" (asInt) (0 : Int)
    let deadline ← optField fs "deadline" (asTime)
    .ok ⟨id, name, type, category, description, goal_id, plan_id, parameters, preconditions, expected_effects, priority, deadline, stripKeys fs ActionPlan.knownKeys⟩
  | _ => .error "value is not a valid dict"

/-- Open-schema invariant of a `ActionPlan` (§3), recursively. -/
def ActionPlan.wf (x : ActionPlan) : Bool :=
  extrasOk x.extra ActionPlan.knownKeys

/-- `ActionExecution` (`ontology/layers/action.py`, open schema). -/
structure ActionExecution where
  id : String
  action_plan_id : String
  status : ActionStatus
  start_time : DateTime
  end_time : Option DateTime
  duration : Option Rat
  executor_id : String
  actual_parameters : List (String × Json)
  results : Json
  side_effects : List (List (String × Json))
  resource_usage : List (String × Json)
  extra : List (String × Json)
deriving Repr

/-- Declared field names of `ActionExecution`. -/
def ActionExecution.knownKeys : List String :=
  ["id", "action_plan_id", "status", "start_time", "end_time", "duration", "executor_id", "actual_parameters", "results", "side_effects", "resource_usage"]

/-- Dump of a `ActionExecution` (`.dict()`; declared fields then extras). -/
def ActionExecution.toJson (x : ActionExecution) : Json :=
  .obj ([("id", Json.str (x.id)),
        ("action_plan_id", Json.str (x.action_plan_id)),
        ("status", encEnum ActionStatus.toStr x.status),
        ("start_time", Json.time (x.start_time)),
        ("end_time", encOpt Json.time x.end_time),
        ("duration", encOpt Json.num x.duration),
        ("executor_id", Json.str (x.executor_id)),
        ("actual_parameters", Json.obj x.actual_parameters),
        ("results", x.results),
        ("side_effects", encList Json.obj x.side_effects),
        ("resource_usage", Json.obj x.resource_usage)] ++ x.extra)

/-- Validation of a `ActionExecution`. -/
def ActionExecution.fromJson (j : Json) : Except String ActionExecution := do
  match j with
  | .obj fs =>
    let id ← reqField fs "id" (asStr)
    let action_plan_id ← reqField fs "action_plan_id" (asStr)
    let status ← reqField fs "status" (decEnum ActionStatus.ofStr?)
    let start_time ← reqField fs "start_time" (asTime)
    let end_time ← optField fs "end_time" (asTime)
    let duration ← optField fs "duration" (asRat)
    let executor_id ← reqField fs "executor_id" (asStr)
    let actual_parameters ← defField fs "actual_parameters" (asDictAny) []
    let results ← defField fs "results" (asAny) Json.null
    let side_effects ← defField fs "side_effects" (decListOf asDictAny) []
    let resource_usage ← defField fs "resource_usage" (asDictAny) []
    .ok ⟨id, action_plan_id, status, start_time, end_time, duration, executor_id, actual_parameters, results, side_effects, resource_usage, stripKeys fs ActionExecution.knownKeys⟩
  | _ => .error "value is not a valid dict"

/-- Open-schema invariant of a `ActionExecution` (§3), recursively. -/
def ActionExecution.wf (x : ActionExecution) : Bool :=
  extrasOk x.extra ActionExecution.knownKeys

/-- `ActionSnapshot` (`ontology/layers/action.py`, open schema). -/
structure ActionSnapshot where
  timestamp : DateTime
  planned_actions : List ActionPlan
  executing_actions : List ActionExecution
  completed_actions : List ActionExecution
  failed_actions : List ActionExecution
  action_queue_size : Int
  resource_utilization : List (String × Rat)
  extra : List (String × Json)
deriving Repr

/-- Declared field names of `ActionSnapshot`. -/
def ActionSnapshot.knownKeys : List String :=
  ["timestamp", "planned_actions", "executing_actions", "completed_actions", "failed_actions", "action_queue_size", "resource_utilization"]

/-- Dump of a `ActionSnapshot` (`.dict()`; declared fields then extras). -/
def ActionSnapshot.toJson (x : ActionSnapshot) : Json :=
  .obj ([("timestamp", Json.time (x.timestamp)),
        ("planned_actions", encList ActionPlan.toJson x.planned_actions),
        ("executing_actions", encList ActionExecution.toJson x.executing_actions),
        ("completed_actions", encList ActionExecution.toJson x.completed_actions),
        ("failed_actions", encList ActionExecution.toJson x.failed_actions),
        ("action_queue_size", Json.int (x.action_queue_size)),
        ("resource_utilization", encDict Json.num x.resource_utilization)] ++ x.extra)

/-- Validation of a `ActionSnapshot`. -/
def ActionSnapshot.fromJson (j : Json) : Except String ActionSnapshot := do
  match j with
  | .obj fs =>
    let timestamp ← reqField fs "timestamp" (asTime)
    let planned_actions ← defField fs "planned_actions" (decListOf ActionPlan.fromJson) []
    let executing_actions ← defField fs "executing_actions" (decListOf ActionExecution.fromJson) []
    let completed_actions ← defField fs "completed_actions" (decListOf ActionExecution.fromJson) []
    let failed_actions ← defField fs "failed_actions" (decListOf ActionExecution.fromJson) []
    let action_queue_size ← defField fs "action_queue_size" (asInt) (0 : Int)
    let resource_utilization ← defField fs "resource_utilization" (decDictOf asRat) []
    .ok ⟨timestamp, planned_actions, executing_actions, completed_actions, failed_actions, action_queue_size, resource_utilization, stripKeys fs ActionSnapshot.knownKeys⟩
  | _ => .error "value is not a valid dict"

/-- Open-schema invariant of a `ActionSnapshot` (§3), recursively. -/
def ActionSnapshot.wf (x : ActionSnapshot) : Bool :=
  extrasOk x.extra ActionSnapshot.knownKeys &&
  x.planned_actions.all ActionPlan.wf &&
  x.executing_actions.all ActionExecution.wf &&
  x.completed_actions.all ActionExecution.wf &&
  x.failed_actions.all ActionExecution.wf

/-- `AgentState` (`ontology/layers/state.py`, open schema). -/
structure AgentState where
  id : String
  agent_id : String
  status : AgentStatus
  health_score : Rat
  uptime : Rat
  last_activity : DateTime
  active_capabilities : List String
  resource_allocation : List (String × Json)
  configuration_hash : String
  extra : List (String × Json)
deriving Repr

/-- Declared field names of `AgentState`. -/
def AgentState.knownKeys : List String :=
  ["id", "agent_id", "status", "health_score", "uptime", "last_activity", "active_capabilities", "resource_allocation", "configuration_hash"]

/-- Dump of a `AgentState` (`.dict()`; declared fields then extras). -/
def AgentState.toJson (x : AgentState) : Json :=
  .obj ([("id", Json.str (x.id)),
        ("agent_id", Json.str (x.agent_id)),
        ("status", encEnum AgentStatus.toStr x.status),
        ("health_score", Json.num (x.health_score)),
        ("uptime", Json.num (x.uptime)),
        ("last_activity", Json.time (x.last_activity)),
        ("active_capabilities", encStrList x.active_capabilities),
        ("resource_allocation", Json.obj x.resource_allocation),
        ("configuration_hash", Json.str (x.configuration_hash))] ++ x.extra)

/-- Validation of a `AgentState`. -/
def AgentState.fromJson (j : Json) : Except String AgentState := do
  match j with
  | .obj fs =>
    let id ← reqField fs "id" (asStr)
    let agent_id ← reqField fs "agent_id" (asStr)
    let status ← reqField fs "status" (decEnum AgentStatus.ofStr?)
    let health_score ← defField fs "health_score" (asRat) (1 : Rat)
    let uptime ← reqField fs "uptime" (asRat)
    let last_activity ← reqField fs "last_activity" (asTime)
    let active_capabilities ← defField fs "active_capabilities" (asStrList) []
    let resource_allocation ← defField fs "resource_allocation" (asDictAny) []
    let configuration_hash ← reqField fs "configuration_hash" (asStr)
    .ok ⟨id, agent_id, status, health_score, uptime, last_activity, active_capabilities, resource_allocation, configuration_hash, stripKeys fs AgentState.knownKeys⟩
  | _ => .error "value is not a valid dict"

/-- Open-schema invariant of a `AgentState` (§3), recursively. -/
def AgentState.wf (x : AgentState) : Bool :=
  extrasOk x.extra AgentState.knownKeys

/-- `ExecutionState` (`ontology/layers/state.py`, open schema). -/
structure ExecutionState where
  id : String
  phase : ExecutionPhase
  active_tasks : List String
  pending_actions : List String
  execution_stack : List (List (String × Json))
  resource_usage : List (String × Rat)
  performance_metrics : List (String × Rat)
  bottlenecks : List String
  extra : List (String × Json)
deriving Repr

/-- Declared field names of `ExecutionState`. -/
def ExecutionState.knownKeys : List String :=
  ["id", "phase", "active_tasks", "pending_actions", "execution_stack", "resource_usage", "performance_metrics", "bottlenecks"]

/-- Dump of a `ExecutionState` (`.dict()`; declared fields then extras). -/
def ExecutionState.toJson (x : ExecutionState) : Json :=
  .obj ([("id", Json.str (x.id)),
        ("phase", encEnum ExecutionPhase.toStr x.phase),
        ("active_tasks", encStrList x.active_tasks),
        ("pending_actions", encStrList x.pending_actions),
        ("execution_stack", encList Json.obj x.execution_stack),
        ("resource_usage", encDict Json.num x.resource_usage),
        ("performance_metrics", encDict Json.num x.performance_metrics),
        ("bottlenecks", encStrList x.bottlenecks)] ++ x.extra)

/-- Validation of a `ExecutionState`. -/
def ExecutionState.fromJson (j : Json) : Except String ExecutionState := do
  match j with
  | .obj fs =>
    let id ← reqField fs "id" (asStr)
    let phase ← reqField fs "phase" (decEnum ExecutionPhase.ofStr?)
    let active_tasks ← defField fs "active_tasks" (asStrList) []
    let pending_actions ← defField fs "pending_actions" (asStrList) []
    let execution_stack ← defField fs "execution_stack" (decListOf asDictAny) []
    let resource_usage ← defField fs "resource_usage" (decDictOf asRat) []
    let performance_metrics ← defField fs "performance_metrics" (decDictOf asRat) []
    let bottlenecks ← defField fs "bottlenecks" (asStrList) []
    .ok ⟨id, phase, active_tasks, pending_actions, execution_stack, resource_usage, performance_metrics, bottlenecks, stripKeys fs ExecutionState.knownKeys⟩
  | _ => .error "value is not a valid dict"

/-- Open-schema invariant of a `ExecutionState` (§3), recursively. -/
def ExecutionState.wf (x : ExecutionState) : Bool :=
  extrasOk x.extra ExecutionState.knownKeys

/-- `CognitiveState` (`ontology/layers/state.py`, open schema). -/
structure CognitiveState where
  id : String
  attention_focus : List String
  working_memory : List String
  active_goals : List String
  active_plans : List String
  reasoning_depth : Int
  cognitive_load : Rat
  learning_enabled : Bool
  exploration_rate : Rat
  extra : List (String × Json)
deriving Repr

/-- Declared field names of `CognitiveState`. -/
def CognitiveState.knownKeys : List String :=
  ["id", "attention_focus", "working_memory", "active_goals", "active_plans", "reasoning_depth", "cognitive_load", "learning_enabled", "exploration_rate"]

/-- Dump of a `CognitiveState` (`.dict()`; declared fields then extras). -/
def CognitiveState.toJson (x : CognitiveState) : Json :=
  .obj ([("id", Json.str (x.id)),
        ("attention_focus", encStrList x.attention_focus),
        ("working_memory", encStrList x.working_memory),
        ("active_goals", encStrList x.active_goals),
        ("active_plans", encStrList x.active_plans),
        ("reasoning_depth", Json.int (x.reasoning_depth)),
        ("cognitive_load", Json.num (x.cognitive_load)),
        ("learning_enabled", Json.bool (x.learning_enabled)),
        ("exploration_rate", Json.num (x.exploration_rate))] ++ x.extra)

/-- Validation of a `CognitiveState`. -/
def CognitiveState.fromJson (j : Json) : Except String CognitiveState := do
  match j with
  | .obj fs =>
    let id ← reqField fs "id" (asStr)
    let attention_focus ← defField fs "attention_focus" (asStrList) []
    let working_memory ← defField fs "working_memory" (asStrList) []
    let active_goals ← defField fs "active_goals" (asStrList) []
    let active_plans ← defField fs "active_plans" (asStrList) []
    let reasoning_depth ← defField fs "reasoning_depth" (asInt) (0 : Int)
    let cognitive_load ← defField fs "cognitive_load" (asRat) (0 : Rat)
    let learning_enabled ← defField fs "learning_enabled" (asBool) true
    let exploration_rate ← defField fs "exploration_rate" (asRat) (1/10 : Rat)
    .ok ⟨id, attention_focus, working_memory, active_goals, active_plans, reasoning_depth, cognitive_load, learning_enabled, exploration_rate, stripKeys fs CognitiveState.knownKeys⟩
  | _ => .error "value is not a valid dict"

/-- Open-schema invariant of a `CognitiveState` (§3), recursively. -/
def CognitiveState.wf (x : CognitiveState) : Bool :=
  extrasOk x.extra CognitiveState.knownKeys

/-- `PerceptualState` (`ontology/layers/state.py`, open schema). -/
structure PerceptualState where
  id : String
  active_sensors : List String
  sensor_readings : List (String × Json)
  observation_buffer : List String
  attention_filters : List String
  signal_quality : List (String × Rat)
  anomaly_detection_active : Bool
  extra : List (String × Json)
deriving Repr

/-- Declared field names of `PerceptualState`. -/
def PerceptualState.knownKeys : List String :=
  ["id", "active_sensors", "sensor_readings", "observation_buffer", "attention_filters", "signal_quality", "anomaly_detection_active"]

/-- Dump of a `PerceptualState` (`.dict()`; declared fields then extras). -/
def PerceptualState.toJson (x : PerceptualState) : Json :=
  .obj ([("id", Json.str (x.id)),
        ("active_sensors", encStrList x.active_sensors),
        ("sensor_readings", Json.obj x.sensor_readings),
        ("observation_buffer", encStrList x.observation_buffer),
        ("attention_filters", encStrList x.attention_filters),
        ("signal_quality", encDict Json.num x.signal_quality),
        ("anomaly_detection_active", Json.bool (x.anomaly_detection_active))] ++ x.extra)

/-- Validation of a `PerceptualState`. -/
def PerceptualState.fromJson (j : Json) : Except String PerceptualState := do
  match j with
  | .obj fs =>
    let id ← reqField fs "id" (asStr)
    let active_sensors ← defField fs "active_sensors" (asStrList) []
    let sensor_readings ← defField fs "sensor_readings" (asDictAny) []
    let observation_buffer ← defField fs "observation_buffer" (asStrList) []
    let attention_filters ← defField fs "attention_filters" (asStrList) []
    let signal_quality ← defField fs "signal_quality" (decDictOf asRat) []
    let anomaly_detection_active ← defField fs "anomaly_detection_active" (asBool) true
    .ok ⟨id, active_sensors, sensor_readings, observation_buffer, attention_filters, signal_quality, anomaly_detection_active, stripKeys fs PerceptualState.knownKeys⟩
  | _ => .error "value is not a valid dict"

/-- Open-schema invariant of a `PerceptualState` (§3), recursively. -/
def PerceptualState.wf (x : PerceptualState) : Bool :=
  extrasOk x.extra PerceptualState.knownKeys

/-- `StateConstraint` (`ontology/layers/state.py`, open schema). -/
structure StateConstraint where
  id : String
  name : String
  type : String
  expression : String
  severity : String
  active : Bool
  violation_count : Int
  last_violation : Option DateTime
  extra : List (String × Json)
deriving Repr

/-- Declared field names of `StateConstraint`. -/
def StateConstraint.knownKeys : List String :=
  ["id", "name", "type", "expression", "severity", "active", "violation_count", "last_violation"]

/-- Dump of a `StateConstraint` (`.dict()`; declared fields then extras). -/
def StateConstraint.toJson (x : StateConstraint) : Json :=
  .obj ([("id", Json.str (x.id)),
        ("name", Json.str (x.name)),
        ("type", Json.str (x.type)),
        ("expression", Json.str (x.expression)),
        ("severity", Json.str (x.severity)),
        ("active", Json.bool (x.active)),
        ("violation_count", Json.int (x.violation_count)),
        ("last_violation", encOpt Json.time x.last_violation)] ++ x.extra)

/-- Validation of a `StateConstraint`. -/
def StateConstraint.fromJson (j : Json) : Except String StateConstraint := do
  match j with
  | .obj fs =>
    let id ← reqField fs "id" (asStr)
    let name ← reqField fs "name" (asStr)
    let type ← reqField fs "type" (asStr)
    let expression ← reqField fs "expression" (asStr)
    let severity ← defField fs "severity" (asStr) "warning"
    let active ← defField fs "active" (asBool) true
    let violation_count ← defField fs "violation_count" (asInt) (0 : Int)
    let last_violation ← optField fs "last_violation" (asTime)
    .ok ⟨id, name, type, expression, severity, active, violation_count, last_violation, stripKeys fs StateConstraint.knownKeys⟩
  | _ => .error "value is not a valid dict"

/-- Open-schema invariant of a `StateConstraint` (§3), recursively. -/
def StateConstraint.wf (x : StateConstraint) : Bool :=
  extrasOk x.extra StateConstraint.knownKeys

/-- `CompleteState` (`ontology/layers/state.py`, open schema). -/
structure CompleteState where
  timestamp : DateTime
  agent_state : AgentState
  execution_state : ExecutionState
  cognitive_state : CognitiveState
  perceptual_state : PerceptualState
  historical_summary : List (String × Json)
  active_constraints : List StateConstraint
  health_indicators : List (String × Rat)
  extra : List (String × Json)
deriving Repr

/-- Declared field names of `CompleteState`. -/
def CompleteState.knownKeys : List String :=
  ["timestamp", "agent_state", "execution_state", "cognitive_state", "perceptual_state", "historical_summary", "active_constraints", "health_indicators"]

/-- Dump of a `CompleteState` (`.dict()`; declared fields then extras). -/
def CompleteState.toJson (x : CompleteState) : Json :=
  .obj ([("timestamp", Json.time (x.timestamp)),
        ("agent_state", AgentState.toJson x.agent_state),
        ("execution_state", ExecutionState.toJson x.execution_state),
        ("cognitive_state", CognitiveState.toJson x.cognitive_state),
        ("perceptual_state", PerceptualState.toJson x.perceptual_state),
        ("historical_summary", Json.obj x.historical_summary),
        ("active_constraints", encList StateConstraint.toJson x.active_constraints),
        ("health_indicators", encDict Json.num x.health_indicators)] ++ x.extra)

/-- Validation of a `CompleteState`. -/
def CompleteState.fromJson (j : Json) : Except String CompleteState := do
  match j with
  | .obj fs =>
    let timestamp ← reqField fs "timestamp" (asTime)
    let agent_state ← reqField fs "agent_state" (AgentState.fromJson)
    let execution_state ← reqField fs "execution_state" (ExecutionState.fromJson)
    let cognitive_state ← reqField fs "cognitive_state" (CognitiveState.fromJson)
    let perceptual_state ← reqField fs "perceptual_state" (PerceptualState.fromJson)
    let historical_summary ← defField fs "historical_summary" (asDictAny) []
    let active_constraints ← defField fs "active_constraints" (decListOf StateConstraint.fromJson) []
    let health_indicators ← defField fs "health_indicators" (decDictOf asRat) []
    .ok ⟨timestamp, agent_state, execution_state, cognitive_state, perceptual_state, historical_summary, active_constraints, health_indicators, stripKeys fs CompleteState.knownKeys⟩
  | _ => .error "value is not a valid dict"

/-- Open-schema invariant of a `CompleteState` (§3), recursively. -/
def CompleteState.wf (x : CompleteState) : Bool :=
  extrasOk x.extra CompleteState.knownKeys &&
  AgentState.wf x.agent_state &&
  ExecutionState.wf x.execution_state &&
  CognitiveState.wf x.cognitive_state &&
  PerceptualState.wf x.perceptual_state &&
  x.active_constraints.all StateConstraint.wf

/-- `Interface` (`ontology/layers/interaction.py`, open schema). -/
structure Interface where
  id : String
  name : String
  type : InterfaceType
  protocol : CommunicationProtocol
  endpoint : String
  capabilities : List String
  authentication_required : Bool
  rate_limits : List (String × Int)
  active : Bool
  extra : List (String × Json)
deriving Repr

/-- Declared field names of `Interface`. -/
def Interface.knownKeys : List String :=
  ["id", "name", "type", "protocol", "endpoint", "capabilities", "authentication_required", "rate_limits", "active"]

/-- Dump of a `Interface` (`.dict()`; declared fields then extras). -/
def Interface.toJson (x : Interface) : Json :=
  .obj ([("id", Json.str (x.id)),
        ("name", Json.str (x.name)),
        ("type", encEnum InterfaceType.toStr x.type),
        ("protocol", encEnum CommunicationProtocol.toStr x.protocol),
        ("endpoint", Json.str (x.endpoint)),
        ("capabilities", encStrList x.capabilities),
        ("authentication_required", Json.bool (x.authentication_required)),
        ("rate_limits", encDict Json.int x.rate_limits),
        ("active", Json.bool (x.active))] ++ x.extra)

/-- Validation of a `Interface`. -/
def Interface.fromJson (j : Json) : Except String Interface := do
  match j with
  | .obj fs =>
    let id ← reqField fs "id" (asStr)
    let name ← reqField fs "name" (asStr)
    let type ← reqField fs "type" (decEnum InterfaceType.ofStr?)
    let protocol ← reqField fs "protocol" (decEnum CommunicationProtocol.ofStr?)
    let endpoint ← reqField fs "endpoint" (asStr)
    let capabilities ← defField fs "capabilities" (asStrList) []
    let authentication_required ← defField fs "authentication_required" (asBool) false
    let rate_limits ← defField fs "rate_limits" (decDictOf asInt) []
    let active ← defField fs "active" (asBool) true
    .ok ⟨id, name, type, protocol, endpoint, capabilities, authentication_required, rate_limits, active, stripKeys fs Interface.knownKeys⟩
  | _ => .error "value is not a valid dict"

/-- Open-schema invariant of a `Interface` (§3), recursively. -/
def Interface.wf (x : Interface) : Bool :=
  extrasOk x.extra Interface.knownKeys

/-- `Conversation` (`ontology/layers/interaction.py`, open schema). -/
structure Conversation where
  id : String
  participant_ids : List String
  interface_ids : List String
  start_time : DateTime
  end_time : Option DateTime
  message_count : Int
  context : List (String × Json)
  status : String
  topic : Option String
  extra : List (String × Json)
deriving Repr

/-- Declared field names of `Conversation`. -/
def Conversation.knownKeys : List String :=
  ["id", "participant_ids", "interface_ids", "start_time", "end_time", "message_count", "context", "status", "topic"]

/-- Dump of a `Conversation` (`.dict()`; declared fields then extras). -/
def Conversation.toJson (x : Conversation) : Json :=
  .obj ([("id", Json.str (x.id)),
        ("participant_ids", encStrList x.participant_ids),
        ("interface_ids", encStrList x.interface_ids),
        ("start_time", Json.time (x.start_time)),
        ("end_time", encOpt Json.time x.end_time),
        ("message_count", Json.int (x.message_count)),
        ("context", Json.obj x.context),
        ("status", Json.str (x.status)),
        ("topic", encOpt Json.str x.topic)] ++ x.extra)

/-- Validation of a `Conversation`. -/
def Conversation.fromJson (j : Json) : Except String Conversation := do
  match j with
  | .obj fs =>
    let id ← reqField fs "id" (asStr)
    let participant_ids ← reqField fs "participant_ids" (asStrList)
    let interface_ids ← reqField fs "interface_ids" (asStrList)
    let start_time ← reqField fs "start_time" (asTime)
    let end_time ← optField fs "end_time" (asTime)
    let message_count ← defField fs "message_count" (asInt) (0 : Int)
    let context ← defField fs "context" (asDictAny) []
    let status ← defField fs "status" (asStr) "active"
    let topic ← optField fs "topic" (asStr)
    .ok ⟨id, participant_ids, interface_ids, start_time, end_time, message_count, context, status, topic, stripKeys fs Conversation.knownKeys⟩
  | _ => .error "value is not a valid dict"

/-- Open-schema invariant of a `Conversation` (§3), recursively. -/
def Conversation.wf (x : Conversation) : Bool :=
  extrasOk x.extra Conversation.knownKeys

/-- `Message` (`ontology/layers/interaction.py`, open schema). -/
structure Message where
  id : String
  type : MessageType
  sender_id : String
  recipient_id : String
  interface_id : String
  content : Json
  metadata : List (String × Json)
  timestamp : DateTime
  correlation_id : Option String
  reply_to : Option String
  expires_at : Option DateTime
  extra : List (String × Json)
deriving Repr

/-- Declared field names of `Message`. -/
def Message.knownKeys : List String :=
  ["id", "type", "sender_id", "recipient_id", "interface_id", "content", "metadata", "timestamp", "correlation_id", "reply_to", "expires_at"]

/-- Dump of a `Message` (`.dict()`; declared fields then extras). -/
def Message.toJson (x : Message) : Json :=
  .obj ([("id", Json.str (x.id)),
        ("type", encEnum MessageType.toStr x.type),
        ("sender_id", Json.str (x.sender_id)),
        ("recipient_id", Json.str (x.recipient_id)),
        ("interface_id", Json.str (x.interface_id)),
        ("content", x.content),
        ("metadata", Json.obj x.metadata),
        ("timestamp", Json.time (x.timestamp)),
        ("correlation_id", encOpt Json.str x.correlation_id),
        ("reply_to", encOpt Json.str x.reply_to),
        ("expires_at", encOpt Json.time x.expires_at)] ++ x.extra)

/-- Validation of a `Message`. -/
def Message.fromJson (j : Json) : Except String Message := do
  match j with
  | .obj fs =>
    let id ← reqField fs "id" (asStr)
    let type ← reqField fs "type" (decEnum MessageType.ofStr?)
    let sender_id ← reqField fs "sender_id" (asStr)
    let recipient_id ← reqField fs "recipient_id" (asStr)
    let interface_id ← reqField fs "interface_id" (asStr)
    let content ← reqField fs "content" (asAny)
    let metadata ← defField fs "metadata" (asDictAny) []
    let timestamp ← reqField fs "timestamp" (asTime)
    let correlation_id ← optField fs "correlation_id" (asStr)
    let reply_to ← optField fs "reply_to" (asStr)
    let expires_at ← optField fs "expires_at" (asTime)
    .ok ⟨id, type, sender_id, recipient_id, interface_id, content, metadata, timestamp, correlation_id, reply_to, expires_at, stripKeys fs Message.knownKeys⟩
  | _ => .error "value is not a valid dict"

/-- Open-schema invariant of a `Message` (§3), recursively. -/
def Message.wf (x : Message) : Bool :=
  extrasOk x.extra Message.knownKeys

/-- `InteractionMetrics` (`ontology/layers/interaction.py`, open schema). -/
structure InteractionMetrics where
  id : String
  interface_id : String
  time_window : Rat
  message_count : Int
  error_count : Int
  average_latency : Rat
  throughput : Rat
  success_rate : Rat
  active_conversations : Int
  extra : List (String × Json)
deriving Repr

/-- Declared field names of `InteractionMetrics`. -/
def InteractionMetrics.knownKeys : List String :=
  ["id", "interface_id", "time_window", "message_count", "error_count", "average_latency", "throughput", "success_rate", "active_conversations"]

/-- Dump of a `InteractionMetrics` (`.dict()`; declared fields then extras). -/
def InteractionMetrics.toJson (x : InteractionMetrics) : Json :=
  .obj ([("id", Json.str (x.id)),
        ("interface_id", Json.str (x.interface_id)),
        ("time_window", Json.num (x.time_window)),
        ("message_count", Json.int (x.message_count)),
        ("error_count", Json.int (x.error_count)),
        ("average_latency", Json.num (x.average_latency)),
        ("throughput", Json.num (x.throughput)),
        ("success_rate", Json.num (x.success_rate)),
        ("active_conversations", Json.int (x.active_conversations))] ++ x.extra)

/-- Validation of a `InteractionMetrics`. -/
def InteractionMetrics.fromJson (j : Json) : Except String InteractionMetrics := do
  match j with
  | .obj fs =>
    let id ← reqField fs "id" (asStr)
    let interface_id ← reqField fs "interface_id" (asStr)
    let time_window ← reqField fs "time_window" (asRat)
    let message_count ← defField fs "message_count" (asInt) (0 : Int)
    let error_count ← defField fs "error_count" (asInt) (0 : Int)
    let average_latency ← defField fs "average_latency" (asRat) (0 : Rat)
    let throughput ← defField fs "throughput" (asRat) (0 : Rat)
    let success_rate ← defField fs "success_rate" (asRat) (1 : Rat)
    let active_conversations ← defField fs "active_conversations" (asInt) (0 : Int)
    .ok ⟨id, interface_id, time_window, message_count, error_count, average_latency, throughput, success_rate, active_conversations, stripKeys fs InteractionMetrics.knownKeys⟩
  | _ => .error "value is not a valid dict"

/-- Open-schema invariant of a `InteractionMetrics` (§3), recursively. -/
def InteractionMetrics.wf (x : InteractionMetrics) : Bool :=
  extrasOk x.extra InteractionMetrics.knownKeys

/-- `InteractionPolicy` (`ontology/layers/interaction.py`, open schema). -/
structure InteractionPolicy where
  id : String
  name : String
  interface_types : List InterfaceType
  rules : List (List (String × Json))
  permissions : List (String × List String)
  restrictions : List (String × List String)
  priority : Int
  active : Bool
  extra : List (String × Json)
deriving Repr

/-- Declared field names of `InteractionPolicy`. -/
def InteractionPolicy.knownKeys : List String :=
  ["id", "name", "interface_types", "rules", "permissions", "restrictions", "priority", "active"]

/-- Dump of a `InteractionPolicy` (`.dict()`; declared fields then extras). -/
def InteractionPolicy.toJson (x : InteractionPolicy) : Json :=
  .obj ([("id", Json.str (x.id)),
        ("name", Json.str (x.name)),
        ("interface_types", encList (encEnum InterfaceType.toStr) x.interface_types),
        ("rules", encList Json.obj x.rules),
        ("permissions", encDict encStrList x.permissions),
        ("restrictions", encDict encStrList x.restrictions),
        ("priority", Json.int (x.priority)),
        ("active", Json.bool (x.active))] ++ x.extra)

/-- Validation of a `InteractionPolicy`. -/
def InteractionPolicy.fromJson (j : Json) : Except String InteractionPolicy := do
  match j with
  | .obj fs =>
    let id ← reqField fs "id" (asStr)
    let name ← reqField fs "name" (asStr)
    let interface_types ← reqField fs "interface_types" (decListOf (decEnum InterfaceType.ofStr?))
    let rules ← reqField fs "rules" (decListOf asDictAny)
    let permissions ← defField fs "permissions" (decDictOf asStrList) []
    let restrictions ← defField fs "restrictions" (decDictOf asStrList) []
    let priority ← defField fs "priority" (asInt) (0 : Int)
    let active ← defField fs "active" (asBool) true
    .ok ⟨id, name, interface_types, rules, permissions, restrictions, priority, active, stripKeys fs InteractionPolicy.knownKeys⟩
  | _ => .error "value is not a valid dict"

/-- Open-schema invariant of a `InteractionPolicy` (§3), recursively. -/
def InteractionPolicy.wf (x : InteractionPolicy) : Bool :=
  extrasOk x.extra InteractionPolicy.knownKeys

/-- `InteractionSnapshot` (`ontology/layers/interaction.py`, open schema). -/
structure InteractionSnapshot where
  timestamp : DateTime
  active_interfaces : List Interface
  ongoing_conversations : List Conversation
  recent_messages : List Message
  interface_metrics : List InteractionMetrics
  active_policies : List InteractionPolicy
  pending_messages : Int
  extra : List (String × Json)
deriving Repr

/-- Declared field names of `InteractionSnapshot`. -/
def InteractionSnapshot.knownKeys : List String :=
  ["timestamp", "active_interfaces", "ongoing_conversations", "recent_messages", "interface_metrics", "active_policies", "pending_messages"]

/-- Dump of a `InteractionSnapshot` (`.dict()`; declared fields then extras). -/
def InteractionSnapshot.toJson (x : InteractionSnapshot) : Json :=
  .obj ([("timestamp", Json.time (x.timestamp)),
        ("active_interfaces", encList Interface.toJson x.active_interfaces),
        ("ongoing_conversations", encList Conversation.toJson x.ongoing_conversations),
        ("recent_messages", encList Message.toJson x.recent_messages),
        ("interface_metrics", encList InteractionMetrics.toJson x.interface_metrics),
        ("active_policies", encList InteractionPolicy.toJson x.active_policies),
        ("pending_messages", Json.int (x.pending_messages))] ++ x.extra)

/-- Validation of a `InteractionSnapshot`. -/
def InteractionSnapshot.fromJson (j : Json) : Except String InteractionSnapshot := do
  match j with
  | .obj fs =>
    let timestamp ← reqField fs "timestamp" (asTime)
    let active_interfaces ← defField fs "active_interfaces" (decListOf Interface.fromJson) []
    let ongoing_conversations ← defField fs "ongoing_conversations" (decListOf Conversation.fromJson) []
    let recent_messages ← defField fs "recent_messages" (decListOf Message.fromJson) []
    let interface_metrics ← defField fs "interface_metrics" (decListOf InteractionMetrics.fromJson) []
    let active_policies ← defField fs "active_policies" (decListOf InteractionPolicy.fromJson) []
    let pending_messages ← defField fs "pending_messages" (asInt) (0 : Int)
    .ok ⟨timestamp, active_interfaces, ongoing_conversations, recent_messages, interface_metrics, active_policies, pending_messages, stripKeys fs InteractionSnapshot.knownKeys⟩
  | _ => .error "value is not a valid dict"

/-- Open-schema invariant of a `InteractionSnapshot` (§3), recursively. -/
def InteractionSnapshot.wf (x : InteractionSnapshot) : Bool :=
  extrasOk x.extra InteractionSnapshot.knownKeys &&
  x.active_interfaces.all Interface.wf &&
  x.ongoing_conversations.all Conversation.wf &&
  x.recent_messages.all Message.wf &&
  x.interface_metrics.all InteractionMetrics.wf &&
  x.active_policies.all InteractionPolicy.wf

/-- `Anomaly` (`ontology/layers/oversight.py`, open schema). -/
structure Anomaly where
  id : String
  type : AnomalyType
  severity : RiskLevel
  detected_at : DateTime
  component : String
  description : String
  evidence : List (List (String × Json))
  confidence : Rat
  false_positive_probability : Rat
  related_anomalies : List String
  extra : List (String × Json)
deriving Repr

/-- Declared field names of `Anomaly`. -/
def Anomaly.knownKeys : List String :=
  ["id", "type", "severity", "detected_at", "component", "description", "evidence", "confidence", "false_positive_probability", "related_anomalies"]

/-- Dump of a `Anomaly` (`.dict()`; declared fields then extras). -/
def Anomaly.toJson (x : Anomaly) : Json :=
  .obj ([("id", Json.str (x.id)),
        ("type", encEnum AnomalyType.toStr x.type),
        ("severity", encEnum RiskLevel.toStr x.severity),
        ("detected_at", Json.time (x.detected_at)),
        ("component", Json.str (x.component)),
        ("description", Json.str (x.description)),
        ("evidence", encList Json.obj x.evidence),
        ("confidence", Json.num (x.confidence)),
        ("false_positive_probability", Json.num (x.false_positive_probability)),
        ("related_anomalies", encStrList x.related_anomalies)] ++ x.extra)

/-- Validation of a `Anomaly`. -/
def Anomaly.fromJson (j : Json) : Except String Anomaly := do
  match j with
  | .obj fs =>
    let id ← reqField fs "id" (asStr)
    let type ← reqField fs "type" (decEnum AnomalyType.ofStr?)
    let severity ← reqField fs "severity" (decEnum RiskLevel.ofStr?)
    let detected_at ← reqField fs "detected_at" (asTime)
    let component ← reqField fs "component" (asStr)
    let description ← reqField fs "description" (asStr)
    let evidence ← reqField fs "evidence" (decListOf asDictAny)
    let confidence ← reqField fs "confidence" (asRat)
    let false_positive_probability ← defField fs "false_positive_probability" (asRat) (0 : Rat)
    let related_anomalies ← defField fs "related_anomalies" (asStrList) []
    .ok ⟨id, type, severity, detected_at, component, description, evidence, confidence, false_positive_probability, related_anomalies, stripKeys fs Anomaly.knownKeys⟩
  | _ => .error "value is not a valid dict"

/-- Open-schema invariant of a `Anomaly` (§3), recursively. -/
def Anomaly.wf (x : Anomaly) : Bool :=
  extrasOk x.extra Anomaly.knownKeys

/-- `Risk` (`ontology/layers/oversight.py`, open schema). -/
structure Risk where
  id : String
  name : String
  description : String
  level : RiskLevel
  probability : Rat
  impact : Rat
  risk_score : Rat
  affected_components : List String
  mitigation_options : List (List (String × Json))
  monitoring_required : Bool
  extra : List (String × Json)
deriving Repr

/-- Declared field names of `Risk`. -/
def Risk.knownKeys : List String :=
  ["id", "name", "description", "level", "probability", "impact", "risk_score", "affected_components", "mitigation_options", "monitoring_required"]

/-- Dump of a `Risk` (`.dict()`; declared fields then extras). -/
def Risk.toJson (x : Risk) : Json :=
  .obj ([("id", Json.str (x.id)),
        ("name", Json.str (x.name)),
        ("description", Json.str (x.description)),
        ("level", encEnum RiskLevel.toStr x.level),
        ("probability", Json.num (x.probability)),
        ("impact", Json.num (x.impact)),
        ("risk_score", Json.num (x.risk_score)),
        ("affected_components", encStrList x.affected_components),
        ("mitigation_options", encList Json.obj x.mitigation_options),
        ("monitoring_required", Json.bool (x.monitoring_required))] ++ x.extra)

/-- Validation of a `Risk`. -/
def Risk.fromJson (j : Json) : Except String Risk := do
  match j with
  | .obj fs =>
    let id ← reqField fs "id" (asStr)
    let name ← reqField fs "name" (asStr)
    let description ← reqField fs "description" (asStr)
    let level ← reqField fs "level" (decEnum RiskLevel.ofStr?)
    let probability ← reqField fs "probability" (asRat)
    let impact ← reqField fs "impact" (asRat)
    let risk_score ← reqField fs "risk_score" (asRat)
    let affected_components ← reqField fs "affected_components" (asStrList)
    let mitigation_options ← defField fs "mitigation_options" (decListOf asDictAny) []
    let monitoring_required ← defField fs "monitoring_required" (asBool) true
    .ok ⟨id, name, description, level, probability, impact, risk_score, affected_components, mitigation_options, monitoring_required, stripKeys fs Risk.knownKeys⟩
  | _ => .error "value is not a valid dict"

/-- Open-schema invariant of a `Risk` (§3), recursively. -/
def Risk.wf (x : Risk) : Bool :=
  extrasOk x.extra Risk.knownKeys

/-- `HumanReviewRequest` (`ontology/layers/oversight.py`, open schema). -/
structure HumanReviewRequest where
  id : String
  timestamp : DateTime
  urgency : RiskLevel
  reason : String
  context : List (String × Json)
  decision_options : List (List (String × Json))
  timeout : Option Rat
  assigned_to : Option String
  status : String
  extra : List (String × Json)
deriving Repr

/-- Declared field names of `HumanReviewRequest`. -/
def HumanReviewRequest.knownKeys : List String :=
  ["id", "timestamp", "urgency", "reason", "context", "decision_options", "timeout", "assigned_to", "status"]

/-- Dump of a `HumanReviewRequest` (`.dict()`; declared fields then extras). -/
def HumanReviewRequest.toJson (x : HumanReviewRequest) : Json :=
  .obj ([("id", Json.str (x.id)),
        ("timestamp", Json.time (x.timestamp)),
        ("urgency", encEnum RiskLevel.toStr x.urgency),
        ("reason", Json.str (x.reason)),
        ("context", Json.obj x.context),
        ("decision_options", encList Json.obj x.decision_options),
        ("timeout", encOpt Json.num x.timeout),
        ("assigned_to", encOpt Json.str x.assigned_to),
        ("status", Json.str (x.status))] ++ x.extra)

/-- Validation of a `HumanReviewRequest`. -/
def HumanReviewRequest.fromJson (j : Json) : Except String HumanReviewRequest := do
  match j with
  | .obj fs =>
    let id ← reqField fs "id" (asStr)
    let timestamp ← reqField fs "timestamp" (asTime)
    let urgency ← reqField fs "urgency" (decEnum RiskLevel.ofStr?)
    let reason ← reqField fs "reason" (asStr)
    let context ← reqField fs "context" (asDictAny)
    let decision_options ← reqField fs "decision_options" (decListOf asDictAny)
    let timeout ← optField fs "timeout" (asRat)
    let assigned_to ← optField fs "assigned_to" (asStr)
    let status ← defField fs "status" (asStr) "pending"
    .ok ⟨id, timestamp, urgency, reason, context, decision_options, timeout, assigned_to, status, stripKeys fs HumanReviewRequest.knownKeys⟩
  | _ => .error "value is not a valid dict"

/-- Open-schema invariant of a `HumanReviewRequest` (§3), recursively. -/
def HumanReviewRequest.wf (x : HumanReviewRequest) : Bool :=
  extrasOk x.extra HumanReviewRequest.knownKeys

/-- `InterventionAction` (`ontology/layers/oversight.py`, open schema). -/
structure InterventionAction where
  id : String
  type : InterventionType
  trigger : String
  timestamp : DateTime
  target_component : String
  parameters : List (String × Json)
  expected_outcome : String
  actual_outcome : Option String
  success : Option Bool
  rollback_available : Bool
  extra : List (String × Json)
deriving Repr

/-- Declared field names of `InterventionAction`. -/
def InterventionAction.knownKeys : List String :=
  ["id", "type", "trigger", "timestamp", "target_component", "parameters", "expected_outcome", "actual_outcome", "success", "rollback_available"]

/-- Dump of a `InterventionAction` (`.dict()`; declared fields then extras). -/
def InterventionAction.toJson (x : InterventionAction) : Json :=
  .obj ([("id", Json.str (x.id)),
        ("type", encEnum InterventionType.toStr x.type),
        ("trigger", Json.str (x.trigger)),
        ("timestamp", Json.time (x.timestamp)),
        ("target_component", Json.str (x.target_component)),
        ("parameters", Json.obj x.parameters),
        ("expected_outcome", Json.str (x.expected_outcome)),
        ("actual_outcome", encOpt Json.str x.actual_outcome),
        ("success", encOpt Json.bool x.success),
        ("rollback_available", Json.bool (x.rollback_available))] ++ x.extra)

/-- Validation of a `InterventionAction`. -/
def InterventionAction.fromJson (j : Json) : Except String InterventionAction := do
  match j with
  | .obj fs =>
    let id ← reqField fs "id" (asStr)
    let type ← reqField fs "type" (decEnum InterventionType.ofStr?)
    let trigger ← reqField fs "trigger" (asStr)
    let timestamp ← reqField fs "timestamp" (asTime)
    let target_component ← reqField fs "target_component" (asStr)
    let parameters ← reqField fs "parameters" (asDictAny)
    let expected_outcome ← reqField fs "expected_outcome" (asStr)
    let actual_outcome ← optField fs "actual_outcome" (asStr)
    let success ← optField fs "success" (asBool)
    let rollback_available ← defField fs "rollback_available" (asBool) false
    .ok ⟨id, type, trigger, timestamp, target_component, parameters, expected_outcome, actual_outcome, success, rollback_available, stripKeys fs InterventionAction.knownKeys⟩
  | _ => .error "value is not a valid dict"

/-- Open-schema invariant of a `InterventionAction` (§3), recursively. -/
def InterventionAction.wf (x : InterventionAction) : Bool :=
  extrasOk x.extra InterventionAction.knownKeys

/-- `OversightSnapshot` (`ontology/layers/oversight.py`, open schema). -/
structure OversightSnapshot where
  timestamp : DateTime
  active_anomalies : List Anomaly
  current_risks : List Risk
  performance_summary : List (String × Rat)
  pending_reviews : List HumanReviewRequest
  recent_interventions : List InterventionAction
  compliance_status : List (String × Bool)
  oversight_health : Rat
  recommendations : List String
  extra : List (String × Json)
deriving Repr

/-- Declared field names of `OversightSnapshot`. -/
def OversightSnapshot.knownKeys : List String :=
  ["timestamp", "active_anomalies", "current_risks", "performance_summary", "pending_reviews", "recent_interventions", "compliance_status", "oversight_health", "recommendations"]

/-- Dump of a `OversightSnapshot` (`.dict()`; declared fields then extras). -/
def OversightSnapshot.toJson (x : OversightSnapshot) : Json :=
  .obj ([("timestamp", Json.time (x.timestamp)),
        ("active_anomalies", encList Anomaly.toJson x.active_anomalies),
        ("current_risks", encList Risk.toJson x.current_risks),
        ("performance_summary", encDict Json.num x.performance_summary),
        ("pending_reviews", encList HumanReviewRequest.toJson x.pending_reviews),
        ("recent_interventions", encList InterventionAction.toJson x.recent_interventions),
        ("compliance_status", encDict Json.bool x.compliance_status),
        ("oversight_health", Json.num (x.oversight_health)),
        ("recommendations", encStrList x.recommendations)] ++ x.extra)

/-- Validation of a `OversightSnapshot`. -/
def OversightSnapshot.fromJson (j : Json) : Except String OversightSnapshot := do
  match j with
  | .obj fs =>
    let timestamp ← reqField fs "timestamp" (asTime)
    let active_anomalies ← defField fs "active_anomalies" (decListOf Anomaly.fromJson) []
    let current_risks ← defField fs "current_risks" (decListOf Risk.fromJson) []
    let performance_summary ← defField fs "performance_summary" (decDictOf asRat) []
    let pending_reviews ← defField fs "pending_reviews" (decListOf HumanReviewRequest.fromJson) []
    let recent_interventions ← defField fs "recent_interventions" (decListOf InterventionAction.fromJson) []
    let compliance_status ← defField fs "compliance_status" (decDictOf asBool) []
    let oversight_health ← reqField fs "oversight_health" (asRat)
    let recommendations ← defField fs "recommendations" (asStrList) []
    .ok ⟨timestamp, active_anomalies, current_risks, performance_summary, pending_reviews, recent_interventions, compliance_status, oversight_health, recommendations, stripKeys fs OversightSnapshot.knownKeys⟩
  | _ => .error "value is not a valid dict"

/-- Open-schema invariant of a `OversightSnapshot` (§3), recursively. -/
def OversightSnapshot.wf (x : OversightSnapshot) : Bool :=
  extrasOk x.extra OversightSnapshot.knownKeys &&
  x.active_anomalies.all Anomaly.wf &&
  x.current_risks.all Risk.wf &&
  x.pending_reviews.all HumanReviewRequest.wf &&
  x.recent_interventions.all InterventionAction.wf

/-- `ToolInvocation` (`ontology/layers/action.py`, open schema). The connector
constructs one per tool step (and discards it), so its validation matters even
though no reachable snapshot embeds it. -/
structure ToolInvocation where
  id : String
  tool_name : String
  tool_version : Option String
  action_execution_id : String
  input_parameters : List (String × Json)
  output_data : Json
  status_code : Option Int
  error_message : Option String
  start_time : DateTime
  end_time : Option DateTime
  extra : List (String × Json)
deriving Repr

/-! ### Enhanced run (`ontology/enhanced_run.py`) -/

/-- The non-recursive fields of an `EnhancedAgentStep`, in declaration order.
(Lean structures cannot nest recursively, so the step is the inductive
`EnhancedAgentStep` below, wrapping this record plus its `sub_steps`.) -/
structure EnhancedAgentStepData where
  id : String
  name : String
  step_number : Int
  parent_step_id : Option String
  start_time : DateTime
  end_time : Option DateTime
  duration : Option Rat
  perception_state : Option PerceptionSnapshot
  cognition_state : Option CognitionSnapshot
  action_state : Option ActionSnapshot
  complete_state : Option CompleteState
  interaction_state : Option InteractionSnapshot
  oversight_state : Option OversightSnapshot
  inputs : List (String × Json)
  outputs : List (String × Json)
  metadata : List (String × Json)
deriving Repr

/-- `EnhancedAgentStep` (open schema): a step with ordered owned sub-steps. -/
inductive EnhancedAgentStep where
  | mk (data : EnhancedAgentStepData) (sub_steps : List EnhancedAgentStep)
       (extra : List (String × Json))

/-- The non-recursive fields of a step. -/
def EnhancedAgentStep.data : EnhancedAgentStep → EnhancedAgentStepData
  | .mk d _ _ => d

/-- The owned sub-steps of a step. -/
def EnhancedAgentStep.sub_steps : EnhancedAgentStep → List EnhancedAgentStep
  | .mk _ subs _ => subs

/-- The stored extras of a step. -/
def EnhancedAgentStep.extra : EnhancedAgentStep → List (String × Json)
  | .mk _ _ ex => ex

/-- Field accessor. -/
def EnhancedAgentStep.id (s : EnhancedAgentStep) : String := s.data.id

/-- Field accessor. -/
def EnhancedAgentStep.name (s : EnhancedAgentStep) : String := s.data.name

/-- Field accessor. -/
def EnhancedAgentStep.step_number (s : EnhancedAgentStep) : Int := s.data.step_number

/-- Field accessor. -/
def EnhancedAgentStep.start_time (s : EnhancedAgentStep) : DateTime := s.data.start_time

/-- Field accessor. -/
def EnhancedAgentStep.end_time (s : EnhancedAgentStep) : Option DateTime := s.data.end_time

/-- Field accessor. -/
def EnhancedAgentStep.duration (s : EnhancedAgentStep) : Option Rat := s.data.duration

/-- Field accessor. -/
def EnhancedAgentStep.perception_state (s : EnhancedAgentStep) :
    Option PerceptionSnapshot := s.data.perception_state

/-- Field accessor. -/
def EnhancedAgentStep.action_state (s : EnhancedAgentStep) :
    Option ActionSnapshot := s.data.action_state

/-- Field accessor. -/
def EnhancedAgentStep.complete_state (s : EnhancedAgentStep) :
    Option CompleteState := s.data.complete_state

/-- Field accessor. -/
def EnhancedAgentStep.interaction_state (s : EnhancedAgentStep) :
    Option InteractionSnapshot := s.data.interaction_state

/-- Declared field names of `EnhancedAgentStep`. -/
def EnhancedAgentStep.knownKeys : List String :=
  ["id", "name", "step_number", "parent_step_id", "start_time", "end_time",
   "duration", "perception_state", "cognition_state", "action_state",
   "complete_state", "interaction_state", "oversight_state", "inputs",
   "outputs", "metadata", "sub_steps"]

mutual

/-- Dump of an `EnhancedAgentStep` (`.dict()`; declared fields then extras). -/
def EnhancedAgentStep.toJson : EnhancedAgentStep → Json
  | .mk d subs extra =>
    .obj ([("id", .str d.id), ("name", .str d.name),
           ("step_number", .int d.step_number),
           ("parent_step_id", encOpt Json.str d.parent_step_id),
           ("start_time", .time d.start_time),
           ("end_time", encOpt Json.time d.end_time),
           ("duration", encOpt Json.num d.duration),
           ("perception_state", encOpt PerceptionSnapshot.toJson d.perception_state),
           ("cognition_state", encOpt CognitionSnapshot.toJson d.cognition_state),
           ("action_state", encOpt ActionSnapshot.toJson d.action_state),
           ("complete_state", encOpt CompleteState.toJson d.complete_state),
           ("interaction_state", encOpt InteractionSnapshot.toJson d.interaction_state),
           ("oversight_state", encOpt OversightSnapshot.toJson d.oversight_state),
           ("inputs", .obj d.inputs), ("outputs", .obj d.outputs),
           ("metadata", .obj d.metadata),
           ("sub_steps", .arr (EnhancedAgentStep.toJsonList subs))] ++ extra)

/-- Dump of a list of steps, in order. -/
def EnhancedAgentStep.toJsonList : List EnhancedAgentStep → List Json
  | [] => []
  | s :: rest => s.toJson :: EnhancedAgentStep.toJsonList rest

end

mutual

/-- Validation of an `EnhancedAgentStep`. -/
def EnhancedAgentStep.fromJson : Json → Except String EnhancedAgentStep
  | .obj fs => do
    let id ← reqField fs "id" asStr
    let name ← reqField fs "name" asStr
    let step_number ← reqField fs "step_number" asInt
    let parent_step_id ← optField fs "parent_step_id" asStr
    let start_time ← reqField fs "start_time" asTime
    let end_time ← optField fs "end_time" asTime
    let duration ← optField fs "duration" asRat
    let perception_state ← optField fs "perception_state" PerceptionSnapshot.fromJson
    let cognition_state ← optField fs "cognition_state" CognitionSnapshot.fromJson
    let action_state ← optField fs "action_state" ActionSnapshot.fromJson
    let complete_state ← optField fs "complete_state" CompleteState.fromJson
    let interaction_state ← optField fs "interaction_state" InteractionSnapshot.fromJson
    let oversight_state ← optField fs "oversight_state" OversightSnapshot.fromJson
    let inputs ← defField fs "inputs" asDictAny []
    let outputs ← defField fs "outputs" asDictAny []
    let metadata ← defField fs "metadata" asDictAny []
    let sub_steps ← EnhancedAgentStep.decSubsField (dget? fs "sub_steps")
    .ok (.mk ⟨id, name, step_number, parent_step_id, start_time, end_time,
              duration, perception_state, cognition_state, action_state,
              complete_state, interaction_state, oversight_state, inputs,
              outputs, metadata⟩
          sub_steps (stripKeys fs EnhancedAgentStep.knownKeys))
  | _ => .error "value is not a valid dict"
termination_by j => sizeOf j
decreasing_by
  have key : ∀ (l : List (String × Json)) (k : String),
      sizeOf (dget? l k) < 1 + sizeOf l := by
    intro l k
    induction l with
    | nil => simp [dget?]
    | cons kv rest ih =>
      rw [dget?]
      split
      · cases kv
        simp
        omega
      · simp only [List.cons.sizeOf_spec]
        omega
  have := key fs "sub_steps"
  simp
  omega

/-- Validation of the `sub_steps` field (absent defaults to the empty list). -/
def EnhancedAgentStep.decSubsField : Option Json → Except String (List EnhancedAgentStep)
  | some (.arr items) => EnhancedAgentStep.fromJsonList items
  | some _ => .error "sub_steps: list type expected"
  | none => .ok []
termination_by v => sizeOf v
decreasing_by
  simp
  omega

/-- Validation of a list of steps, in order. -/
def EnhancedAgentStep.fromJsonList : List Json → Except String (List EnhancedAgentStep)
  | [] => .ok []
  | j :: rest => do
    let s ← EnhancedAgentStep.fromJson j
    let r ← EnhancedAgentStep.fromJsonList rest
    .ok (s :: r)
termination_by l => sizeOf l
decreasing_by
  all_goals simp
  all_goals omega

end

mutual

/-- Open-schema invariant of an `EnhancedAgentStep` (§3), recursively. -/
def EnhancedAgentStep.wf : EnhancedAgentStep → Bool
  | .mk d subs extra =>
    extrasOk extra EnhancedAgentStep.knownKeys &&
    optWf PerceptionSnapshot.wf d.perception_state &&
    optWf CognitionSnapshot.wf d.cognition_state &&
    optWf ActionSnapshot.wf d.action_state &&
    optWf CompleteState.wf d.complete_state &&
    optWf InteractionSnapshot.wf d.interaction_state &&
    optWf OversightSnapshot.wf d.oversight_state &&
    EnhancedAgentStep.wfList subs

/-- Invariant of a list of steps. -/
def EnhancedAgentStep.wfList : List EnhancedAgentStep → Bool
  | [] => true
  | s :: rest => s.wf && EnhancedAgentStep.wfList rest

end

/-- `EnhancedAgentRun` (open schema): the top-level aggregate. -/
structure EnhancedAgentRun where
  id : String
  name : String
  description : Option String
  agent : AgentInstance
  start_time : DateTime
  end_time : Option DateTime
  duration : Option Rat
  status : String
  success : Option Bool
  error_message : Option String
  initial_state : Option CompleteState
  initial_goals : List String
  initial_context : List (String × Json)
  final_state : Option CompleteState
  achieved_goals : List String
  final_context : List (String × Json)
  steps : List EnhancedAgentStep
  total_observations : Int
  total_decisions : Int
  total_actions : Int
  total_messages : Int
  total_anomalies : Int
  total_interventions : Int
  performance_metrics : List (String × Rat)
  resource_usage : List (String × Json)
  risk_events : List String
  compliance_checks : List String
  human_reviews : List String
  tags : List String
  metadata : List (String × Json)
  extra : List (String × Json)

/-- Declared field names of `EnhancedAgentRun`. -/
def EnhancedAgentRun.knownKeys : List String :=
  ["id", "name", "description", "agent", "start_time", "end_time", "duration",
   "status", "success", "error_message", "initial_state", "initial_goals",
   "initial_context", "final_state", "achieved_goals", "final_context",
   "steps", "total_observations", "total_decisions", "total_actions",
   "total_messages", "total_anomalies", "total_interventions",
   "performance_metrics", "resource_usage", "risk_events", "compliance_checks",
   "human_reviews", "tags", "metadata"]

/-- Dump of an `EnhancedAgentRun` (`.dict()`; declared fields then extras).
This is the serializer direction `toDocument`. -/
def EnhancedAgentRun.toJson (x : EnhancedAgentRun) : Json :=
  .obj ([("id", .str x.id), ("name", .str x.name),
         ("description", encOpt Json.str x.description),
         ("agent", x.agent.toJson),
         ("start_time", .time x.start_time),
         ("end_time", encOpt Json.time x.end_time),
         ("duration", encOpt Json.num x.duration),
         ("status", .str x.status),
         ("success", encOpt Json.bool x.success),
         ("error_message", encOpt Json.str x.error_message),
         ("initial_state", encOpt CompleteState.toJson x.initial_state),
         ("initial_goals", encStrList x.initial_goals),
         ("initial_context", .obj x.initial_context),
         ("final_state", encOpt CompleteState.toJson x.final_state),
         ("achieved_goals", encStrList x.achieved_goals),
         ("final_context", .obj x.final_context),
         ("steps", .arr (EnhancedAgentStep.toJsonList x.steps)),
         ("total_observations", .int x.total_observations),
         ("total_decisions", .int x.total_decisions),
         ("total_actions", .int x.total_actions),
         ("total_messages", .int x.total_messages),
         ("total_anomalies", .int x.total_anomalies),
         ("total_interventions", .int x.total_interventions),
         ("performance_metrics", encDict Json.num x.performance_metrics),
         ("resource_usage", .obj x.resource_usage),
         ("risk_events", encStrList x.risk_events),
         ("compliance_checks", encStrList x.compliance_checks),
         ("human_reviews", encStrList x.human_reviews),
         ("tags", encStrList x.tags),
         ("metadata", .obj x.metadata)] ++ x.extra)

/-- Validation of the run `steps` field (absent defaults to the empty list). -/
def decStepsField : Option Json → Except String (List EnhancedAgentStep)
  | some (.arr items) => EnhancedAgentStep.fromJsonList items
  | some _ => .error "steps: list type expected"
  | none => .ok []

/-- Validation of an `EnhancedAgentRun`: the serializer direction
`fromDocument`. -/
def EnhancedAgentRun.fromJson (j : Json) : Except String EnhancedAgentRun := do
  match j with
  | .obj fs =>
    let id ← reqField fs "id" asStr
    let name ← reqField fs "name" asStr
    let description ← optField fs "description" asStr
    let agent ← reqField fs "agent" AgentInstance.fromJson
    let start_time ← reqField fs "start_time" asTime
    let end_time ← optField fs "end_time" asTime
    let duration ← optField fs "duration" asRat
    let status ← defField fs "status" asStr "running"
    let success ← optField fs "success" asBool
    let error_message ← optField fs "error_message" asStr
    let initial_state ← optField fs "initial_state" CompleteState.fromJson
    let initial_goals ← defField fs "initial_goals" asStrList []
    let initial_context ← defField fs "initial_context" asDictAny []
    let final_state ← optField fs "final_state" CompleteState.fromJson
    let achieved_goals ← defField fs "achieved_goals" asStrList []
    let final_context ← defField fs "final_context" asDictAny []
    let steps ← decStepsField (dget? fs "steps")
    let total_observations ← defField fs "total_observations" asInt (0 : Int)
    let total_decisions ← defField fs "total_decisions" asInt (0 : Int)
    let total_actions ← defField fs "total_actions" asInt (0 : Int)
    let total_messages ← defField fs "total_messages" asInt (0 : Int)
    let total_anomalies ← defField fs "total_anomalies" asInt (0 : Int)
    let total_interventions ← defField fs "total_interventions" asInt (0 : Int)
    let performance_metrics ← defField fs "performance_metrics" (decDictOf asRat) []
    let resource_usage ← defField fs "resource_usage" asDictAny []
    let risk_events ← defField fs "risk_events" asStrList []
    let compliance_checks ← defField fs "compliance_checks" asStrList []
    let human_reviews ← defField fs "human_reviews" asStrList []
    let tags ← defField fs "tags" asStrList []
    let metadata ← defField fs "metadata" asDictAny []
    .ok ⟨id, name, description, agent, start_time, end_time, duration, status,
         success, error_message, initial_state, initial_goals, initial_context,
         final_state, achieved_goals, final_context, steps, total_observations,
         total_decisions, total_actions, total_messages, total_anomalies,
         total_interventions, performance_metrics, resource_usage, risk_events,
         compliance_checks, human_reviews, tags, metadata,
         stripKeys fs EnhancedAgentRun.knownKeys⟩
  | _ => .error "value is not a valid dict"

/-- Open-schema invariant of an `EnhancedAgentRun` (§3), recursively. -/
def EnhancedAgentRun.wf (x : EnhancedAgentRun) : Bool :=
  extrasOk x.extra EnhancedAgentRun.knownKeys &&
  AgentInstance.wf x.agent &&
  optWf CompleteState.wf x.initial_state &&
  optWf CompleteState.wf x.final_state &&
  EnhancedAgentStep.wfList x.steps

/-! ### Step-tree operations (`ontology/enhanced_run.py`) -/

/-- One timeline event dict emitted by `get_timeline`. -/
structure TimelineEvent where
  timestamp : DateTime
  type : String
  step_id : String
  step_name : String
  depth : Nat
deriving DecidableEq, Repr

mutual

/-- `extract_events`: the events of one step (start, optional end, then the
sub-steps depth-first at depth + 1), in emission order. -/
def EnhancedAgentStep.extractEvents : EnhancedAgentStep → Nat → List TimelineEvent
  | .mk d subs _, depth =>
    ⟨d.start_time, "step_start", d.id, d.name, depth⟩ ::
    ((match d.end_time with
      | some t => [⟨t, "step_end", d.id, d.name, depth⟩]
      | none => []) ++
     EnhancedAgentStep.extractEventsList subs (depth + 1))

/-- Events of a list of steps at one depth, in order. -/
def EnhancedAgentStep.extractEventsList : List EnhancedAgentStep → Nat → List TimelineEvent
  | [], _ => []
  | s :: rest, depth =>
    EnhancedAgentStep.extractEvents s depth ++
    EnhancedAgentStep.extractEventsList rest depth

end

/-- Stable insertion into a timestamp-sorted event list: the new event goes
before the first strictly-later event and after earlier-or-equal ones. -/
def insertByTime (e : TimelineEvent) : List TimelineEvent → List TimelineEvent
  | [] => [e]
  | x :: xs =>
    if DateTime.le e.timestamp x.timestamp then e :: x :: xs
    else x :: insertByTime e xs

/-- Stable sort by timestamp (Python `sorted` with `key=timestamp` is stable;
insertion sort realizes the same function). -/
def sortByTime : List TimelineEvent → List TimelineEvent
  | [] => []
  | x :: xs => insertByTime x (sortByTime xs)

/-- `EnhancedAgentRun.get_timeline`: depth-first events over all steps (root
depth 0), returned sorted ascending by timestamp. -/
def EnhancedAgentRun.get_timeline (run : EnhancedAgentRun) : List TimelineEvent :=
  sortByTime (EnhancedAgentStep.extractEventsList run.steps 0)

mutual

/-- `collect_durations` of `calculate_metrics`: `if step.duration:` keeps only
truthy durations (`None` and `0.0` are both falsy in Python). -/
def EnhancedAgentStep.collectDurations : EnhancedAgentStep → List Rat
  | .mk d subs _ =>
    (match d.duration with
     | some q => if q = 0 then [] else [q]
     | none => []) ++
    (if subs.isEmpty then [] else EnhancedAgentStep.collectDurationsList subs)

/-- Durations of a list of steps, in order. -/
def EnhancedAgentStep.collectDurationsList : List EnhancedAgentStep → List Rat
  | [] => []
  | s :: rest =>
    EnhancedAgentStep.collectDurations s ++
    EnhancedAgentStep.collectDurationsList rest

end

mutual

/-- `get_max_depth` of `calculate_metrics` (recursion into non-empty
`sub_steps` with depth + 1; an empty list returns `current_depth`). -/
def EnhancedAgentStep.getMaxDepth (steps : List EnhancedAgentStep) (current_depth : Nat) : Nat :=
  if steps.isEmpty then current_depth
  else EnhancedAgentStep.getMaxDepthFold steps current_depth current_depth
termination_by (sizeOf steps, 1)

/-- The loop of `get_max_depth`: fold `max` over steps that own sub-steps. -/
def EnhancedAgentStep.getMaxDepthFold :
    List EnhancedAgentStep → Nat → Nat → Nat
  | [], _, max_depth => max_depth
  | s :: rest, current_depth, max_depth =>
    EnhancedAgentStep.getMaxDepthFold rest current_depth
      (if s.sub_steps.isEmpty then max_depth
       else max max_depth (EnhancedAgentStep.getMaxDepth s.sub_steps (current_depth + 1)))
termination_by l _ _ => (sizeOf l, 0)
decreasing_by
  · cases s
    simp [EnhancedAgentStep.sub_steps]
    omega
  · simp
    omega

end

/-- Python dict assignment `d[k] = v`: replace in place or append. -/
def dictSet (l : List (String × Rat)) (k : String) (v : Rat) : List (String × Rat) :=
  match l with
  | [] => [(k, v)]
  | (k', v') :: rest => if k' = k then (k, v) :: rest else (k', v') :: dictSet rest k v

/-- Python `d.update(other)`. -/
def dictUpdate (base upd : List (String × Rat)) : List (String × Rat) :=
  upd.foldl (fun acc kv => dictSet acc kv.1 kv.2) base

/-- Lookup in the metrics dict. -/
def dictFind? (l : List (String × Rat)) (k : String) : Option Rat :=
  match l with
  | [] => none
  | (k', v) :: rest => if k' = k then some v else dictFind? rest k

/-- Python `self.duration or 0` (a `0.0` duration is falsy). -/
def pyOrZero : Option Rat → Rat
  | some q => if q = 0 then 0 else q
  | none => 0

/-- `EnhancedAgentRun.calculate_metrics`: the metrics dict (numeric values
modelled in `Rat`), assembled exactly as the method does: the literal dict,
then the average (only when some truthy duration exists), then the maximal
nesting depth starting from 1, then `update(self.performance_metrics)`. -/
def EnhancedAgentRun.calculate_metrics (run : EnhancedAgentRun) : List (String × Rat) :=
  let metrics : List (String × Rat) :=
    [("total_steps", (run.steps.length : Rat)),
     ("total_duration", pyOrZero run.duration),
     ("average_step_duration", 0),
     ("max_nesting_depth", 0),
     ("success_rate", 0)]
  let step_durations := EnhancedAgentStep.collectDurationsList run.steps
  let metrics :=
    if step_durations.isEmpty then metrics
    else dictSet metrics "average_step_duration"
      (step_durations.sum / (step_durations.length : Rat))
  let metrics := dictSet metrics "max_nesting_depth"
    ((EnhancedAgentStep.getMaxDepth run.steps 1 : Nat) : Rat)
  dictUpdate metrics run.performance_metrics

/-! ### Connector (`connectors/enhanced_openai_traces.py`)

The connector is parameterized by `fromIso : String → Option DateTime`
(the standard library `datetime.fromisoformat`, not repository code) and
`now : DateTime` (`datetime.utcnow()`, frozen). A raised Python exception is
`Except.error`. -/

/-- Whether a value is a Python dict. -/
def Json.isObj : Json → Bool
  | .obj _ => true
  | _ => false

/-- Attribute access `v.get` requires a dict. -/
def pyFields : Json → Except String (List (String × Json))
  | .obj fs => .ok fs
  | _ => .error "AttributeError: object has no attribute get"

/-- `_map_status`: the fixed table lookup with fallback `"unknown"`
(`status_map.get(status, "unknown")`; dict keys compare by `==`). `dict.get`
hashes its key first, so an unhashable status (a list or dict) raises
`TypeError` instead of falling back. -/
def mapStatus (status : Json) : Except String String :=
  if pyHashable status then
    .ok (if jeqStr status "completed" then "completed"
         else if jeqStr status "failed" then "failed"
         else if jeqStr status "cancelled" then "cancelled"
         else if jeqStr status "running" then "running"
         else "unknown")
  else .error "TypeError: unhashable type"

/-- `value.replace("Z", "+00:00")`: with the one-character pattern `"Z"`,
Python replaces every occurrence of the character independently. -/
def zNormalize (s : String) : String :=
  String.mk ((s.toList.map
    (fun c => if c = 'Z' then "+00:00".toList else [c])).flatten)

/-- `_parse_time`: `None` passes through, datetimes are returned, strings are
parsed after replacing every `"Z"` with `"+00:00"` (parse failure raises), and
any other value has no `.replace` (raises `AttributeError`). -/
def parseTime (fromIso : String → Option DateTime) : Json → Except String (Option DateTime)
  | .null => .ok none
  | .time d => .ok (some d)
  | .str s =>
    match fromIso (zNormalize s) with
    | some d => .ok (some d)
    | none => .error "ValueError: invalid isoformat string"
  | _ => .error "AttributeError: object has no attribute replace"

/-- Python iteration over `trace_json.get("steps", [])`: lists yield their
items, strings their characters, dicts their keys; other values raise. -/
def stepsIter : Json → Except String (List Json)
  | .arr items => .ok items
  | .str s => .ok (s.toList.map (fun c => Json.str (String.mk [c])))
  | .obj fs => .ok (fs.map (fun kv => Json.str kv.1))
  | _ => .error "TypeError: object is not iterable"

/-- `any(s.get("type") == "tool" for s in steps)` (short-circuiting). -/
def anyToolE : List Json → Except String Bool
  | [] => .ok false
  | s :: rest => do
    let t ← pyGet s "type"
    if oeqStr t "tool" then .ok true else anyToolE rest

/-- The capability loop of `_create_agent_instance`: one capability
`tool:<name>` per distinct truthy `tool_name` of tool-typed steps, in
first-seen order (`tools_used` is a set: membership needs hashability). -/
def collectCaps : List Json → List Json → List AgentCapability →
    Except String (List Json × List AgentCapability)
  | [], seen, caps => .ok (seen, caps)
  | s :: rest, seen, caps => do
    let t ← pyGet s "type"
    if oeqStr t "tool" then
      let tn ← pyGetD s "tool_name" (.str "")
      if pyTruthy tn then
        if !pyHashable tn then .error "TypeError: unhashable type"
        else if seen.any (fun x => pyScalarEq x tn) then collectCaps rest seen caps
        else
          let cap : AgentCapability :=
            { name := "tool:" ++ pyStr tn, version := "1.0.0",
              parameters := [], constraints := [], enabled := true }
          collectCaps rest (seen ++ [tn]) (caps ++ [cap])
      else collectCaps rest seen caps
    else collectCaps rest seen caps

/-- `_create_agent_instance`. -/
def createAgentInstance (fromIso : String → Option DateTime) (now : DateTime)
    (doc : List (String × Json)) : Except String AgentInstance := do
  let steps ← stepsIter (dgetD doc "steps" (.arr []))
  let hasTool ← anyToolE steps
  let sc ← collectCaps steps [] []
  let idStr ← asStr (dgetD doc "agent_id" (dgetD doc "id" (.str "unknown")))
  let model_id ← decOpt asStr (dgetD doc "model" (.str "gpt-4"))
  let parameters ← asDictAny (dgetD doc "config" (.obj []))
  let st ← parseTime fromIso (dgetD doc "started_at" .null)
  .ok ⟨idStr,
       "OpenAI Agent " ++ pyStr (dgetD doc "agent_id" (dgetD doc "id" (.str "unknown"))),
       [AgentType.conversational] ++ (if hasTool then [AgentType.task_execution] else []),
       [AgentDomain.general],
       sc.2,
       ⟨model_id, none, parameters, [], [], []⟩,
       ⟨st.getD now, "openai", "1.0.0", none, ["openai", "trace-import"], none, none, []⟩,
       none, [], []⟩

/-- `_create_initial_state`. -/
def createInitialState (fromIso : String → Option DateTime) (now : DateTime)
    (agentId : String) (doc : List (String × Json)) : Except String CompleteState := do
  let st ← parseTime fromIso (dgetD doc "started_at" .null)
  let timestamp := st.getD now
  .ok ⟨timestamp,
    ⟨agentId ++ "-state-initial", agentId, .initializing, 1, 0, timestamp, [], [], "initial", []⟩,
    ⟨agentId ++ "-exec-initial", .idle, [], [], [], [], [], [], []⟩,
    ⟨agentId ++ "-cog-initial", [], [], [], [], 0, 0, true, 1/10, []⟩,
    ⟨agentId ++ "-percept-initial", [], [], [], [], [], true, []⟩,
    [], [], [], []⟩

/-- `_create_step_state` (the per-step `CompleteState`). -/
def createStepState (stepFs : List (String × Json)) (agentId : String)
    (timestamp : DateTime) : Except String CompleteState := do
  let active_task ← asStr (dgetD stepFs "id" (.str ""))
  let attention ← asStr (dgetD stepFs "type" (.str ""))
  let idF := pyStr (dgetD stepFs "id" .null)
  .ok ⟨timestamp,
    ⟨agentId ++ "-state-" ++ idF, agentId, .active, 1, 0, timestamp, [], [], "active", []⟩,
    ⟨agentId ++ "-exec-" ++ idF,
     (if oeqStr (dget? stepFs "type") "tool" then .execution else .perception),
     [active_task], [], [], [], [], [], []⟩,
    ⟨agentId ++ "-cog-" ++ idF, [attention], [], [], [], 0, 0, true, 1/10, []⟩,
    ⟨agentId ++ "-percept-" ++ idF, ["openai-api"],
     [("last_input", pyOr (dgetD stepFs "content" .null) (dgetD stepFs "input" .null))],
     [], [], [], true, []⟩,
    [], [], [], []⟩

/-- `_create_perception_snapshot_for_message`. -/
def createPerceptionSnapshotForMessage (fromIso : String → Option DateTime)
    (now : DateTime) (stepFs : List (String × Json)) (agentId : String) :
    Except String PerceptionSnapshot := do
  let st ← parseTime fromIso (dgetD stepFs "timestamp" .null)
  let timestamp := st.getD now
  let observation : Observation :=
    ⟨pyStr (dgetD stepFs "id" .null) ++ "-obs",
     agentId ++ "-nlp-processor",
     [pyStr (dgetD stepFs "id" .null) ++ "-signal"],
     "text-message",
     dgetD stepFs "content" (.str ""),
     1,
     timestamp,
     [("role", dgetD stepFs "role" (.str "assistant"))],
     []⟩
  .ok ⟨timestamp, [], [], [observation], [], 0, []⟩

/-- `_create_interaction_snapshot_for_message`. -/
def createInteractionSnapshotForMessage (fromIso : String → Option DateTime)
    (now : DateTime) (stepFs : List (String × Json)) (agentId : String) :
    Except String InteractionSnapshot := do
  let st ← parseTime fromIso (dgetD stepFs "timestamp" .null)
  let msgId ← asStr (dgetD stepFs "id" (.str ""))
  let timestamp := st.getD now
  let isAssistant := oeqStr (dget? stepFs "role") "assistant"
  let message : Message :=
    ⟨msgId,
     (if isAssistant then .response else .request),
     (if isAssistant then agentId else "user"),
     (if isAssistant then "user" else agentId),
     "openai-api",
     dgetD stepFs "content" (.str ""),
     [],
     timestamp,
     none, none, none, []⟩
  .ok ⟨timestamp, [], [], [message], [], [], 0, []⟩

/-- `_create_action_snapshot_for_tool` (it builds a `ToolInvocation`, whose
validation can raise, and then drops it from the snapshot). -/
def createActionSnapshotForTool (fromIso : String → Option DateTime)
    (now : DateTime) (stepFs : List (String × Json)) (agentId : String) :
    Except String ActionSnapshot := do
  let st ← parseTime fromIso (dgetD stepFs "timestamp" .null)
  let toolName ← asStr (dgetD stepFs "tool_name" (.str ""))
  let execId ← asStr (dgetD stepFs "id" (.str ""))
  let inputParams ← asDictAny (dgetD stepFs "input" (.obj []))
  let timestamp := st.getD now
  let _tool_invocation : ToolInvocation :=
    ⟨pyStr (dgetD stepFs "id" .null) ++ "-tool", toolName, none, execId,
     inputParams, dgetD stepFs "output" .null, none, none, timestamp,
     some timestamp, []⟩
  let action_execution : ActionExecution :=
    ⟨execId, pyStr (dgetD stepFs "id" .null) ++ "-plan", .completed, timestamp,
     some timestamp, none, agentId, inputParams, dgetD stepFs "output" .null,
     [], [], []⟩
  .ok ⟨timestamp, [], [], [action_execution], [], 0, [], []⟩

/-- The type dispatch of `_parse_enhanced_step`: the layer snapshots and the
`outputs` dict set by the `message` / `tool` branches (both empty otherwise). -/
def parseStepLayers (fromIso : String → Option DateTime) (now : DateTime)
    (stepFs : List (String × Json)) (agentId : String) :
    Except String (Option PerceptionSnapshot × Option ActionSnapshot ×
      Option InteractionSnapshot × List (String × Json)) :=
  if oeqStr (dget? stepFs "type") "message" then do
    let ps ← createPerceptionSnapshotForMessage fromIso now stepFs agentId
    let is9 ← createInteractionSnapshotForMessage fromIso now stepFs agentId
    .ok (some ps, (none : Option ActionSnapshot), some is9,
         [("message_content", dgetD stepFs "content" (.str ""))])
  else if oeqStr (dget? stepFs "type") "tool" then do
    let as9 ← createActionSnapshotForTool fromIso now stepFs agentId
    .ok ((none : Option PerceptionSnapshot), some as9,
         (none : Option InteractionSnapshot),
         [("tool_output", dgetD stepFs "output" .null)])
  else
    .ok (none, none, none, [])

/-- `_parse_enhanced_step`. -/
def parseEnhancedStep (fromIso : String → Option DateTime) (now : DateTime)
    (stepJ : Json) (step_number : Nat) (agentId : String) :
    Except String EnhancedAgentStep := do
  let stepFs ← pyFields stepJ
  let st ← parseTime fromIso (dgetD stepFs "timestamp" .null)
  let idStr ← asStr (dgetD stepFs "id" (.str ("step-" ++ toString step_number)))
  let nameStr ← asStr (dgetD stepFs "type" (.str "unknown"))
  let branch ← parseStepLayers fromIso now stepFs agentId
  let complete ← createStepState stepFs agentId (st.getD now)
  .ok (.mk ⟨idStr, nameStr, (step_number : Int), none, st.getD now, none, none,
            branch.1, none, branch.2.1, some complete, branch.2.2.1, none,
            [("original_step", stepJ)], branch.2.2.2, []⟩
        [] [])

/-- The step loop of `from_openai_trace_enhanced` (`enumerate` + `add_step`). -/
def parseStepsLoop (fromIso : String → Option DateTime) (now : DateTime) :
    List Json → Nat → String → Except String (List EnhancedAgentStep)
  | [], _, _ => .ok []
  | s :: rest, idx, agentId => do
    let e ← parseEnhancedStep fromIso now s idx agentId
    let r ← parseStepsLoop fromIso now rest (idx + 1) agentId
    .ok (e :: r)

/-- One aggregate count: `len([s for s in steps if s.get("type") in tags])`
(for a single tag the list is `[tag]`). -/
def countWhereTypeIn : List Json → List String → Except String Nat
  | [], _ => .ok 0
  | s :: rest, tags => do
    let t ← pyGet s "type"
    let n ← countWhereTypeIn rest tags
    .ok (n + (if tags.any (fun g => oeqStr t g) then 1 else 0))

/-- `from_openai_trace_enhanced`: one trace document to one populated Run. -/
def from_openai_trace_enhanced (fromIso : String → Option DateTime)
    (now : DateTime) (doc : List (String × Json)) :
    Except String EnhancedAgentRun := do
  let agent ← createAgentInstance fromIso now doc
  let initial_state ← createInitialState fromIso now agent.id doc
  let runId ← asStr (dgetD doc "id" (.str ""))
  let stOpt ← parseTime fromIso (dgetD doc "started_at" .null)
  let start_time ←
    (match stOpt with
     | some t => Except.ok t
     | none => Except.error "ValidationError: none is not an allowed value (start_time)")
  let end_time ← parseTime fromIso (dgetD doc "ended_at" .null)
  let status ← mapStatus (dgetD doc "status" (.str "completed"))
  let steps ← stepsIter (dgetD doc "steps" (.arr []))
  let parsedSteps ← parseStepsLoop fromIso now steps 0 agent.id
  let tot_obs ← countWhereTypeIn steps ["message", "tool"]
  let tot_act ← countWhereTypeIn steps ["tool"]
  let tot_msg ← countWhereTypeIn steps ["message"]
  let final_state :=
    match parsedSteps.getLast? with
    | some last => if last.complete_state.isSome then last.complete_state else none
    | none => none
  .ok ⟨runId, "OpenAI Agent Run " ++ pyStr (dgetD doc "id" (.str "")), none, agent, start_time,
       end_time, none, status, none, none, some initial_state, [], [],
       final_state, [], [], parsedSteps, (tot_obs : Int), 0, (tot_act : Int),
       (tot_msg : Int), 0, 0, [], [], [], [], [], [], [], []⟩

/-! ### Derived notions used by the verification statements -/

/-- Whether an `Except` computation raised. -/
def exIsError : Except String α → Bool
  | .error _ => true
  | .ok _ => false

mutual

/-- The step tree flattened depth-first (each step before its sub-steps):
the "all steps, recursively" universe of §4.2. -/
def EnhancedAgentStep.flatten : EnhancedAgentStep → List EnhancedAgentStep
  | .mk d subs ex => .mk d subs ex :: EnhancedAgentStep.flattenList subs

/-- Depth-first flattening of a step list. -/
def EnhancedAgentStep.flattenList : List EnhancedAgentStep → List EnhancedAgentStep
  | [] => []
  | s :: rest => EnhancedAgentStep.flatten s ++ EnhancedAgentStep.flattenList rest

end

/-- The truthy duration of a step, if any (`if step.duration:`). -/
def truthyDuration (s : EnhancedAgentStep) : Option Rat :=
  match s.duration with
  | some q => if q = 0 then none else some q
  | none => none

/-- Indexing of a list from a starting index (emission order tags). -/
def indexFrom (n : Nat) : List TimelineEvent → List (TimelineEvent × Nat)
  | [] => []
  | x :: xs => (x, n) :: indexFrom (n + 1) xs

/-- Insertion by the strict lexicographic order (timestamp, emission index). -/
def insertLex (p : TimelineEvent × Nat) :
    List (TimelineEvent × Nat) → List (TimelineEvent × Nat)
  | [] => [p]
  | q :: qs =>
    if p.1.timestamp.t < q.1.timestamp.t ∨
       (p.1.timestamp.t = q.1.timestamp.t ∧ p.2 ≤ q.2) then p :: q :: qs
    else q :: insertLex p qs

/-- Sort of indexed events by (timestamp, emission index): the canonical
"ascending by timestamp, ties broken by emission order" sequence. -/
def lexSort : List (TimelineEvent × Nat) → List (TimelineEvent × Nat)
  | [] => []
  | p :: ps => insertLex p (lexSort ps)

/-! ### Failure conditions of the connector (for the raises-iff statement) -/

/-- A step entry on which the connector's per-step validation raises: not a
dict, an unparseable timestamp, a present `id` or `type` that is not
string-coercible, or (for a tool step) a bad `tool_name` or non-dict `input`. -/
def stepParseFail (fromIso : String → Option DateTime) (s : Json) : Bool :=
  match s with
  | .obj fs =>
    exIsError (parseTime fromIso (dgetD fs "timestamp" .null)) ||
    (match dget? fs "id" with
     | some v => exIsError (asStr v)
     | none => false) ||
    (match dget? fs "type" with
     | some v => exIsError (asStr v)
     | none => false) ||
    (oeqStr (dget? fs "type") "tool" &&
      (exIsError (asStr (dgetD fs "tool_name" (.str ""))) ||
       exIsError (asDictAny (dgetD fs "input" (.obj [])))))
  | _ => true

/-- A step entry on which the capability loop raises: not a dict, or a
tool step whose truthy `tool_name` is unhashable. -/
def capFail (s : Json) : Bool :=
  match s with
  | .obj fs =>
    oeqStr (dget? fs "type") "tool" &&
    pyTruthy (dgetD fs "tool_name" (.str "")) &&
    !pyHashable (dgetD fs "tool_name" (.str ""))
  | _ => true

/-- `started_at` parses to `None` (absent or explicit null): the Run model
then rejects the required `start_time`. -/
def startedAtNone (fromIso : String → Option DateTime)
    (doc : List (String × Json)) : Bool :=
  match parseTime fromIso (dgetD doc "started_at" .null) with
  | .ok none => true
  | _ => false

/-- Exactly when `from_openai_trace_enhanced` raises: a non-iterable `steps`
value, a failing step entry, a non-coercible `agent_id`/`id`/`model`, a
non-dict `config`, an unparseable `started_at`/`ended_at` timestamp, a
missing/null `started_at`, or an unhashable (list/dict) `status` value
(`dict.get` hashes its key). The current-time source plays no role. -/
def connectorFails (fromIso : String → Option DateTime)
    (doc : List (String × Json)) : Bool :=
  match stepsIter (dgetD doc "steps" (.arr [])) with
  | .error _ => true
  | .ok steps =>
    steps.any (fun s => stepParseFail fromIso s || capFail s) ||
    exIsError (asStr (dgetD doc "agent_id" (dgetD doc "id" (.str "unknown")))) ||
    exIsError (decOpt asStr (dgetD doc "model" (.str "gpt-4"))) ||
    exIsError (asDictAny (dgetD doc "config" (.obj []))) ||
    exIsError (parseTime fromIso (dgetD doc "started_at" .null)) ||
    exIsError (asStr (dgetD doc "id" (.str ""))) ||
    startedAtNone fromIso doc ||
    exIsError (parseTime fromIso (dgetD doc "ended_at" .null)) ||
    !pyHashable (dgetD doc "status" (.str "completed"))

/-! ### Concrete test fixtures -/

/-- A concrete instant. -/
def dtv (n : Int) : DateTime := ⟨n⟩

/-- A parse function for the fixtures: parses exactly the normalized form of
the sample timestamp. -/
def testIso : String → Option DateTime :=
  fun s => if s = "2024-01-01T00:00:00+00:00" then some (dtv 1704067200) else none

/-- A minimal concrete agent. -/
def testAgent : AgentInstance :=
  ⟨"agent-1", "Agent", [.conversational], [], [],
   ⟨none, none, [], [], [], []⟩,
   ⟨dtv 0, "test", "1.0.0", none, [], none, none, []⟩,
   none, [], []⟩

/-- A flat concrete step. -/
def flatStep (i : String) (t : Int) (dur : Option Rat) : EnhancedAgentStep :=
  .mk ⟨i, "step", 0, none, dtv t, none, dur, none, none, none, none, none,
       none, [], [], []⟩ [] []

/-- A step with explicit end time. -/
def timedStep (i : String) (t0 t1 : Int) : EnhancedAgentStep :=
  .mk ⟨i, "step", 0, none, dtv t0, some (dtv t1), none, none, none, none, none,
       none, none, [], [], []⟩ [] []

/-- A step owning the given sub-steps. -/
def nestedStep (i : String) (t : Int) (subs : List EnhancedAgentStep) :
    EnhancedAgentStep :=
  .mk ⟨i, "step", 0, none, dtv t, none, none, none, none, none, none, none,
       none, [], [], []⟩ subs []

/-- A run over the given steps (all other fields default-like). -/
def mkTestRun (steps : List EnhancedAgentStep) : EnhancedAgentRun :=
  ⟨"run-1", "Run", none, testAgent, dtv 0, none, none, "running", none, none,
   none, [], [], none, [], [], steps, 0, 0, 0, 0, 0, 0, [], [], [], [], [],
   [], [], []⟩

/-- A run whose two steps carry durations `0.0` and `2.0`. -/
def c7run : EnhancedAgentRun :=
  mkTestRun [flatStep "s1" 0 (some 0), flatStep "s2" 1 (some 2)]

/-- The timeline-ordering scenario: steps with (start, end) = (T0, T1) and
(T2, T3), T0 < T1 < T2 < T3. -/
def c6run : EnhancedAgentRun :=
  mkTestRun [timedStep "s1" 0 1, timedStep "s2" 2 3]

/-- The message-step scenario document of §8.5. -/
def c8doc : List (String × Json) :=
  [("id", .str "r1"),
   ("steps", .arr [.obj [("id", .str "s1"), ("type", .str "message"),
                         ("role", .str "user"), ("content", .str "hi"),
                         ("timestamp", .str "2024-01-01T00:00:00Z")]])]

/-- The scenario document amended with a parseable `started_at`. -/
def c8docFixed : List (String × Json) :=
  c8doc ++ [("started_at", .str "2024-01-01T00:00:00Z")]

/-- The run produced from the amended scenario document. -/
def c8run : EnhancedAgentRun :=
  match from_openai_trace_enhanced testIso (dtv 0) c8docFixed with
  | .ok r => r
  | .error _ => mkTestRun []

/-- A document with no `status` field (and a datetime `started_at`, so the
conversion succeeds independently of the parse function). -/
def c3doc : List (String × Json) :=
  [("id", .str "r1"), ("started_at", .time (dtv 0))]

/-- A trace document with 2 message steps and 1 tool step. -/
def c5doc : List (String × Json) :=
  [("id", .str "r5"), ("started_at", .time (dtv 0)),
   ("steps", .arr
     [.obj [("id", .str "m1"), ("type", .str "message"), ("role", .str "user"),
            ("content", .str "a"), ("timestamp", .time (dtv 1))],
      .obj [("id", .str "t1"), ("type", .str "tool"),
            ("tool_name", .str "search"), ("input", .obj [("q", .str "x")]),
            ("output", .obj [("r", .int 1)]), ("timestamp", .time (dtv 2))],
      .obj [("id", .str "m2"), ("type", .str "message"),
            ("role", .str "assistant"), ("content", .str "b"),
            ("timestamp", .time (dtv 3))]])]

/-- The run produced from `c5doc`. -/
def c5run : EnhancedAgentRun :=
  match from_openai_trace_enhanced testIso (dtv 0) c5doc with
  | .ok r => r
  | .error _ => mkTestRun []

/-- A document with a valid `started_at` and an unhashable `status`: no
timestamp in it is malformed, yet `_map_status` raises `TypeError`. -/
def c4statusDoc : List (String × Json) :=
  [("id", .str "r"), ("started_at", .time (dtv 0)), ("status", .arr [])]

/-- The steps list of `c5doc`. -/
def c5steps : List Json :=
  match stepsIter (dgetD c5doc "steps" (.arr [])) with
  | .ok l => l
  | .error _ => []

/-- Whether a raw step's `type` equals one of the tags (`s.get("type") in tags`). -/
def typeMatches (tags : List String) (s : Json) : Bool :=
  match s with
  | .obj fs => tags.any (fun g => oeqStr (dget? fs "type") g)
  | _ => false

/-- A document with no `status` field but a `"paused"` status. -/
def c3docPaused : List (String × Json) :=
  [("id", .str "r1"), ("started_at", .time (dtv 0)), ("status", .str "paused")]

/-- The run produced from `c3doc` (no `status` field). -/
def c3run : EnhancedAgentRun :=
  match from_openai_trace_enhanced testIso (dtv 0) c3doc with
  | .ok r => r
  | .error _ => mkTestRun []

/-- The run produced from `c3docPaused`. -/
def c3runPaused : EnhancedAgentRun :=
  match from_openai_trace_enhanced testIso (dtv 0) c3docPaused with
  | .ok r => r
  | .error _ => mkTestRun []

/-- The message the §8.5 scenario (with `started_at` added) must produce. -/
def c8msg : Message :=
  ⟨"s1", .request, "user", "r1", "openai-api", .str "hi", [],
   dtv 1704067200, none, none, none, []⟩

/-- The raw fields of the scenario's message step. -/
def c8stepFs : List (String × Json) :=
  [("id", .str "s1"), ("type", .str "message"), ("role", .str "user"),
   ("content", .str "hi"), ("timestamp", .str "2024-01-01T00:00:00Z")]

/-- The interaction snapshot built for the scenario's message step. -/
def c8snap : InteractionSnapshot :=
  match createInteractionSnapshotForMessage testIso (dtv 0) c8stepFs "r1" with
  | .ok snap => snap
  | .error _ => ⟨dtv 0, [], [], [], [], [], 0, []⟩

-- DEFINITIONS ABOVE THIS LINE, THEOREMS BELOW

/-! ### Round-trip infrastructure lemmas -/

theorem ok_bind (a : α) (f : α → Except String β) : (Except.ok a >>= f) = f a := rfl

theorem mapM_map_ok (dec : Json → Except String α) (enc : α → Json) (l : List α)
    (h : ∀ a ∈ l, dec (enc a) = .ok a) : (l.map enc).mapM dec = .ok l := by
  induction l with
  | nil => rfl
  | cons a as ih =>
    simp only [List.map_cons, List.mapM_cons, h a (by simp), ok_bind,
      ih (fun b hb => h b (by simp [hb]))]
    rfl

theorem decListOf_roundtrip (dec : Json → Except String α) (enc : α → Json) (l : List α)
    (h : ∀ a ∈ l, dec (enc a) = .ok a) : decListOf dec (encList enc l) = .ok l := by
  simp only [decListOf, encList, mapM_map_ok dec enc l h]

theorem decDictOf_roundtrip (dec : Json → Except String α) (enc : α → Json)
    (kvs : List (String × α)) (h : ∀ kv ∈ kvs, dec (enc kv.2) = .ok kv.2) :
    decDictOf dec (encDict enc kvs) = .ok kvs := by
  simp only [decDictOf, encDict]
  induction kvs with
  | nil => rfl
  | cons kv rest ih =>
    simp only [List.map_cons, List.mapM_cons, h kv (by simp), ok_bind,
      ih (fun b hb => h b (by simp [hb]))]
    rfl

theorem asStrList_roundtrip (l : List String) : asStrList (encStrList l) = .ok l :=
  decListOf_roundtrip asStr Json.str l (fun _ _ => rfl)

theorem decOpt_str_roundtrip (o : Option String) :
    decOpt asStr (encOpt Json.str o) = .ok o := by
  cases o <;> rfl

theorem decOpt_rat_roundtrip (o : Option Rat) :
    decOpt asRat (encOpt Json.num o) = .ok o := by
  cases o <;> rfl

theorem decOpt_bool_roundtrip (o : Option Bool) :
    decOpt asBool (encOpt Json.bool o) = .ok o := by
  cases o <;> rfl

theorem decOpt_time_roundtrip (o : Option DateTime) :
    decOpt asTime (encOpt Json.time o) = .ok o := by
  cases o <;> rfl

theorem stripKeys_append (l1 l2 : List (String × Json)) (known : List String) :
    stripKeys (l1 ++ l2) known = stripKeys l1 known ++ stripKeys l2 known := by
  simp [stripKeys, List.filter_append]

theorem stripKeys_of_extrasOk (extra : List (String × Json)) (known : List String)
    (h : extrasOk extra known = true) : stripKeys extra known = extra := by
  unfold stripKeys
  unfold extrasOk at h
  exact List.filter_eq_self.mpr (List.all_eq_true.mp h)

theorem AgentCapability_roundtrip (c : AgentCapability) :
    AgentCapability.fromJson c.toJson = .ok c := rfl

theorem AgentConfiguration_roundtrip (c : AgentConfiguration) :
    AgentConfiguration.fromJson c.toJson = .ok c := by
  obtain ⟨mi, mv, p, r, s, f⟩ := c
  simp only [AgentConfiguration.toJson, AgentConfiguration.fromJson, reqField,
    optField, defField, dget?, String.reduceEq, reduceIte, decOpt_str_roundtrip, ok_bind,
    decDictOf_roundtrip asBool Json.bool f (fun _ _ => rfl), asDictAny]

theorem AgentMetadata_roundtrip (m : AgentMetadata) :
    AgentMetadata.fromJson m.toJson = .ok m := by
  obtain ⟨ca, cb, v, d, t, du, l, cm⟩ := m
  simp only [AgentMetadata.toJson, AgentMetadata.fromJson, reqField, optField,
    defField, dget?, String.reduceEq, reduceIte, decOpt_str_roundtrip, ok_bind, asTime, asStr,
    asStrList_roundtrip, asDictAny]

theorem decEnum_AgentType (e : AgentType) :
    decEnum AgentType.ofStr? (encEnum AgentType.toStr e) = .ok e := by
  cases e <;> rfl

theorem decEnum_AgentDomain (e : AgentDomain) :
    decEnum AgentDomain.ofStr? (encEnum AgentDomain.toStr e) = .ok e := by
  cases e <;> rfl

theorem AgentInstance_roundtrip (a : AgentInstance) (h : a.wf = true) :
    AgentInstance.fromJson a.toJson = .ok a := by
  obtain ⟨i, n, t, d, c, cf, m, p, ch, ex⟩ := a
  simp only [AgentInstance.wf] at h
  simp only [AgentInstance.toJson, AgentInstance.fromJson, reqField, optField,
    defField, dget?, String.reduceEq, reduceIte, List.cons_append, List.nil_append, ok_bind,
    asStr, decOpt_str_roundtrip, asStrList_roundtrip,
    decListOf_roundtrip _ _ t (fun e _ => decEnum_AgentType e),
    decListOf_roundtrip _ _ d (fun e _ => decEnum_AgentDomain e),
    decListOf_roundtrip _ _ c (fun x _ => AgentCapability_roundtrip x),
    AgentConfiguration_roundtrip, AgentMetadata_roundtrip]
  exact congrArg
    (fun z => (Except.ok (⟨i, n, t, d, c, cf, m, p, ch, z⟩ : AgentInstance) :
      Except String AgentInstance))
    (stripKeys_of_extrasOk ex _ h)

theorem decEnum_SensorType (e : SensorType) :
    decEnum SensorType.ofStr? (encEnum SensorType.toStr e) = .ok e := by
  cases e <;> rfl

theorem decEnum_SignalType (e : SignalType) :
    decEnum SignalType.ofStr? (encEnum SignalType.toStr e) = .ok e := by
  cases e <;> rfl

theorem decEnum_ReasoningType (e : ReasoningType) :
    decEnum ReasoningType.ofStr? (encEnum ReasoningType.toStr e) = .ok e := by
  cases e <;> rfl

theorem decEnum_DecisionStrategy (e : DecisionStrategy) :
    decEnum DecisionStrategy.ofStr? (encEnum DecisionStrategy.toStr e) = .ok e := by
  cases e <;> rfl

theorem decEnum_ActionType (e : ActionType) :
    decEnum ActionType.ofStr? (encEnum ActionType.toStr e) = .ok e := by
  cases e <;> rfl

theorem decEnum_ActionCategory (e : ActionCategory) :
    decEnum ActionCategory.ofStr? (encEnum ActionCategory.toStr e) = .ok e := by
  cases e <;> rfl

theorem decEnum_ActionStatus (e : ActionStatus) :
    decEnum ActionStatus.ofStr? (encEnum ActionStatus.toStr e) = .ok e := by
  cases e <;> rfl

theorem decEnum_AgentStatus (e : AgentStatus) :
    decEnum AgentStatus.ofStr? (encEnum AgentStatus.toStr e) = .ok e := by
  cases e <;> rfl

theorem decEnum_ExecutionPhase (e : ExecutionPhase) :
    decEnum ExecutionPhase.ofStr? (encEnum ExecutionPhase.toStr e) = .ok e := by
  cases e <;> rfl

theorem decEnum_InterfaceType (e : InterfaceType) :
    decEnum InterfaceType.ofStr? (encEnum InterfaceType.toStr e) = .ok e := by
  cases e <;> rfl

theorem decEnum_CommunicationProtocol (e : CommunicationProtocol) :
    decEnum CommunicationProtocol.ofStr? (encEnum CommunicationProtocol.toStr e) = .ok e := by
  cases e <;> rfl

theorem decEnum_MessageType (e : MessageType) :
    decEnum MessageType.ofStr? (encEnum MessageType.toStr e) = .ok e := by
  cases e <;> rfl

theorem decEnum_AnomalyType (e : AnomalyType) :
    decEnum AnomalyType.ofStr? (encEnum AnomalyType.toStr e) = .ok e := by
  cases e <;> rfl

theorem decEnum_RiskLevel (e : RiskLevel) :
    decEnum RiskLevel.ofStr? (encEnum RiskLevel.toStr e) = .ok e := by
  cases e <;> rfl

theorem decEnum_InterventionType (e : InterventionType) :
    decEnum InterventionType.ofStr? (encEnum InterventionType.toStr e) = .ok e := by
  cases e <;> rfl

theorem Sensor_roundtrip (x : Sensor) (h : x.wf = true) :
    Sensor.fromJson x.toJson = .ok x := by
  obtain ⟨f0, f1, f2, f3, f4, f5, f6, ex⟩ := x
  simp only [Sensor.wf] at h
  simp only [Sensor.toJson, Sensor.fromJson, reqField, optField, defField, dget?,
    String.reduceEq, reduceIte, ok_bind, asStr, asBool, asRat, asInt, asTime,
    asAny, asDictAny,
    decEnum_SensorType,
    decOpt_rat_roundtrip,
    asStrList_roundtrip]
  exact congrArg
    (fun z => (Except.ok (⟨f0, f1, f2, f3, f4, f5, f6, z⟩ : Sensor) : Except String Sensor))
    (stripKeys_of_extrasOk ex _ (h))

theorem Sensor_decOpt_roundtrip (o : Option Sensor) (h : optWf Sensor.wf o = true) :
    decOpt Sensor.fromJson (encOpt Sensor.toJson o) = .ok o := by
  cases o with
  | none => rfl
  | some y =>
    show (Sensor.fromJson y.toJson).map some = .ok (some y)
    rw [Sensor_roundtrip y h]
    rfl

theorem RawSignal_roundtrip (x : RawSignal) (h : x.wf = true) :
    RawSignal.fromJson x.toJson = .ok x := by
  obtain ⟨f0, f1, f2, f3, f4, f5, f6, ex⟩ := x
  simp only [RawSignal.wf] at h
  simp only [RawSignal.toJson, RawSignal.fromJson, reqField, optField, defField, dget?,
    String.reduceEq, reduceIte, ok_bind, asStr, asBool, asRat, asInt, asTime,
    asAny, asDictAny,
    decEnum_SignalType]
  exact congrArg
    (fun z => (Except.ok (⟨f0, f1, f2, f3, f4, f5, f6, z⟩ : RawSignal) : Except String RawSignal))
    (stripKeys_of_extrasOk ex _ (h))

theorem RawSignal_decOpt_roundtrip (o : Option RawSignal) (h : optWf RawSignal.wf o = true) :
    decOpt RawSignal.fromJson (encOpt RawSignal.toJson o) = .ok o := by
  cases o with
  | none => rfl
  | some y =>
    show (RawSignal.fromJson y.toJson).map some = .ok (some y)
    rw [RawSignal_roundtrip y h]
    rfl

theorem Observation_roundtrip (x : Observation) (h : x.wf = true) :
    Observation.fromJson x.toJson = .ok x := by
  obtain ⟨f0, f1, f2, f3, f4, f5, f6, f7, ex⟩ := x
  simp only [Observation.wf] at h
  simp only [Observation.toJson, Observation.fromJson, reqField, optField, defField, dget?,
    String.reduceEq, reduceIte, ok_bind, asStr, asBool, asRat, asInt, asTime,
    asAny, asDictAny,
    asStrList_roundtrip]
  exact congrArg
    (fun z => (Except.ok (⟨f0, f1, f2, f3, f4, f5, f6, f7, z⟩ : Observation) : Except String Observation))
    (stripKeys_of_extrasOk ex _ (h))

theorem Observation_decOpt_roundtrip (o : Option Observation) (h : optWf Observation.wf o = true) :
    decOpt Observation.fromJson (encOpt Observation.toJson o) = .ok o := by
  cases o with
  | none => rfl
  | some y =>
    show (Observation.fromJson y.toJson).map some = .ok (some y)
    rw [Observation_roundtrip y h]
    rfl

theorem ContextFilter_roundtrip (x : ContextFilter) (h : x.wf = true) :
    ContextFilter.fromJson x.toJson = .ok x := by
  obtain ⟨f0, f1, f2, f3, f4, ex⟩ := x
  simp only [ContextFilter.wf] at h
  simp only [ContextFilter.toJson, ContextFilter.fromJson, reqField, optField, defField, dget?,
    String.reduceEq, reduceIte, ok_bind, asStr, asBool, asRat, asInt, asTime,
    asAny, asDictAny]
  exact congrArg
    (fun z => (Except.ok (⟨f0, f1, f2, f3, f4, z⟩ : ContextFilter) : Except String ContextFilter))
    (stripKeys_of_extrasOk ex _ (h))

theorem ContextFilter_decOpt_roundtrip (o : Option ContextFilter) (h : optWf ContextFilter.wf o = true) :
    decOpt ContextFilter.fromJson (encOpt ContextFilter.toJson o) = .ok o := by
  cases o with
  | none => rfl
  | some y =>
    show (ContextFilter.fromJson y.toJson).map some = .ok (some y)
    rw [ContextFilter_roundtrip y h]
    rfl

theorem PerceptionSnapshot_roundtrip (x : PerceptionSnapshot) (h : x.wf = true) :
    PerceptionSnapshot.fromJson x.toJson = .ok x := by
  obtain ⟨f0, f1, f2, f3, f4, f5, ex⟩ := x
  simp only [PerceptionSnapshot.wf, Bool.and_eq_true] at h
  simp only [PerceptionSnapshot.toJson, PerceptionSnapshot.fromJson, reqField, optField, defField, dget?,
    String.reduceEq, reduceIte, ok_bind, asStr, asBool, asRat, asInt, asTime,
    asAny, asDictAny,
    decListOf_roundtrip _ _ f1
      (fun y hy => Sensor_roundtrip y (List.all_eq_true.mp (h.1.1.1.2) y hy)),
    decListOf_roundtrip _ _ f2
      (fun y hy => RawSignal_roundtrip y (List.all_eq_true.mp (h.1.1.2) y hy)),
    decListOf_roundtrip _ _ f3
      (fun y hy => Observation_roundtrip y (List.all_eq_true.mp (h.1.2) y hy)),
    decListOf_roundtrip _ _ f4
      (fun y hy => ContextFilter_roundtrip y (List.all_eq_true.mp (h.2) y hy))]
  exact congrArg
    (fun z => (Except.ok (⟨f0, f1, f2, f3, f4, f5, z⟩ : PerceptionSnapshot) : Except String PerceptionSnapshot))
    (stripKeys_of_extrasOk ex _ (h.1.1.1.1))

theorem PerceptionSnapshot_decOpt_roundtrip (o : Option PerceptionSnapshot) (h : optWf PerceptionSnapshot.wf o = true) :
    decOpt PerceptionSnapshot.fromJson (encOpt PerceptionSnapshot.toJson o) = .ok o := by
  cases o with
  | none => rfl
  | some y =>
    show (PerceptionSnapshot.fromJson y.toJson).map some = .ok (some y)
    rw [PerceptionSnapshot_roundtrip y h]
    rfl

theorem Reasoning_roundtrip (x : Reasoning) (h : x.wf = true) :
    Reasoning.fromJson x.toJson = .ok x := by
  obtain ⟨f0, f1, f2, f3, f4, f5, f6, f7, ex⟩ := x
  simp only [Reasoning.wf] at h
  simp only [Reasoning.toJson, Reasoning.fromJson, reqField, optField, defField, dget?,
    String.reduceEq, reduceIte, ok_bind, asStr, asBool, asRat, asInt, asTime,
    asAny, asDictAny,
    decEnum_ReasoningType,
    asStrList_roundtrip,
    decListOf_roundtrip asDictAny Json.obj f3 (fun _ _ => rfl),
    decListOf_roundtrip asDictAny Json.obj f4 (fun _ _ => rfl)]
  exact congrArg
    (fun z => (Except.ok (⟨f0, f1, f2, f3, f4, f5, f6, f7, z⟩ : Reasoning) : Except String Reasoning))
    (stripKeys_of_extrasOk ex _ (h))

theorem Reasoning_decOpt_roundtrip (o : Option Reasoning) (h : optWf Reasoning.wf o = true) :
    decOpt Reasoning.fromJson (encOpt Reasoning.toJson o) = .ok o := by
  cases o with
  | none => rfl
  | some y =>
    show (Reasoning.fromJson y.toJson).map some = .ok (some y)
    rw [Reasoning_roundtrip y h]
    rfl

theorem Decision_roundtrip (x : Decision) (h : x.wf = true) :
    Decision.fromJson x.toJson = .ok x := by
  obtain ⟨f0, f1, f2, f3, f4, f5, f6, f7, f8, ex⟩ := x
  simp only [Decision.wf] at h
  simp only [Decision.toJson, Decision.fromJson, reqField, optField, defField, dget?,
    String.reduceEq, reduceIte, ok_bind, asStr, asBool, asRat, asInt, asTime,
    asAny, asDictAny,
    asStrList_roundtrip,
    decEnum_DecisionStrategy,
    decListOf_roundtrip asDictAny Json.obj f3 (fun _ _ => rfl),
    decDictOf_roundtrip asRat Json.num f5 (fun _ _ => rfl),
    decOpt_str_roundtrip]
  exact congrArg
    (fun z => (Except.ok (⟨f0, f1, f2, f3, f4, f5, f6, f7, f8, z⟩ : Decision) : Except String Decision))
    (stripKeys_of_extrasOk ex _ (h))

theorem Decision_decOpt_roundtrip (o : Option Decision) (h : optWf Decision.wf o = true) :
    decOpt Decision.fromJson (encOpt Decision.toJson o) = .ok o := by
  cases o with
  | none => rfl
  | some y =>
    show (Decision.fromJson y.toJson).map some = .ok (some y)
    rw [Decision_roundtrip y h]
    rfl

theorem Goal_roundtrip (x : Goal) (h : x.wf = true) :
    Goal.fromJson x.toJson = .ok x := by
  obtain ⟨f0, f1, f2, f3, f4, f5, f6, f7, f8, f9, ex⟩ := x
  simp only [Goal.wf] at h
  simp only [Goal.toJson, Goal.fromJson, reqField, optField, defField, dget?,
    String.reduceEq, reduceIte, ok_bind, asStr, asBool, asRat, asInt, asTime,
    asAny, asDictAny,
    decOpt_str_roundtrip,
    asStrList_roundtrip]
  exact congrArg
    (fun z => (Except.ok (⟨f0, f1, f2, f3, f4, f5, f6, f7, f8, f9, z⟩ : Goal) : Except String Goal))
    (stripKeys_of_extrasOk ex _ (h))

theorem Goal_decOpt_roundtrip (o : Option Goal) (h : optWf Goal.wf o = true) :
    decOpt Goal.fromJson (encOpt Goal.toJson o) = .ok o := by
  cases o with
  | none => rfl
  | some y =>
    show (Goal.fromJson y.toJson).map some = .ok (some y)
    rw [Goal_roundtrip y h]
    rfl

theorem Plan_roundtrip (x : Plan) (h : x.wf = true) :
    Plan.fromJson x.toJson = .ok x := by
  obtain ⟨f0, f1, f2, f3, f4, f5, f6, f7, ex⟩ := x
  simp only [Plan.wf] at h
  simp only [Plan.toJson, Plan.fromJson, reqField, optField, defField, dget?,
    String.reduceEq, reduceIte, ok_bind, asStr, asBool, asRat, asInt, asTime,
    asAny, asDictAny,
    asStrList_roundtrip,
    decListOf_roundtrip asDictAny Json.obj f2 (fun _ _ => rfl),
    decDictOf_roundtrip asStrList encStrList f3 (fun kv _ => asStrList_roundtrip kv.2),
    decOpt_rat_roundtrip]
  exact congrArg
    (fun z => (Except.ok (⟨f0, f1, f2, f3, f4, f5, f6, f7, z⟩ : Plan) : Except String Plan))
    (stripKeys_of_extrasOk ex _ (h))

theorem Plan_decOpt_roundtrip (o : Option Plan) (h : optWf Plan.wf o = true) :
    decOpt Plan.fromJson (encOpt Plan.toJson o) = .ok o := by
  cases o with
  | none => rfl
  | some y =>
    show (Plan.fromJson y.toJson).map some = .ok (some y)
    rw [Plan_roundtrip y h]
    rfl

theorem CognitionSnapshot_roundtrip (x : CognitionSnapshot) (h : x.wf = true) :
    CognitionSnapshot.fromJson x.toJson = .ok x := by
  obtain ⟨f0, f1, f2, f3, f4, f5, f6, f7, ex⟩ := x
  simp only [CognitionSnapshot.wf, Bool.and_eq_true] at h
  simp only [CognitionSnapshot.toJson, CognitionSnapshot.fromJson, reqField, optField, defField, dget?,
    String.reduceEq, reduceIte, ok_bind, asStr, asBool, asRat, asInt, asTime,
    asAny, asDictAny,
    decListOf_roundtrip _ _ f1
      (fun y hy => Reasoning_roundtrip y (List.all_eq_true.mp (h.1.1.1.2) y hy)),
    decListOf_roundtrip _ _ f2
      (fun y hy => Decision_roundtrip y (List.all_eq_true.mp (h.1.1.2) y hy)),
    decListOf_roundtrip _ _ f3
      (fun y hy => Goal_roundtrip y (List.all_eq_true.mp (h.1.2) y hy)),
    decListOf_roundtrip _ _ f4
      (fun y hy => Plan_roundtrip y (List.all_eq_true.mp (h.2) y hy)),
    decDictOf_roundtrip asInt Json.int f5 (fun _ _ => rfl)]
  exact congrArg
    (fun z => (Except.ok (⟨f0, f1, f2, f3, f4, f5, f6, f7, z⟩ : CognitionSnapshot) : Except String CognitionSnapshot))
    (stripKeys_of_extrasOk ex _ (h.1.1.1.1))

theorem CognitionSnapshot_decOpt_roundtrip (o : Option CognitionSnapshot) (h : optWf CognitionSnapshot.wf o = true) :
    decOpt CognitionSnapshot.fromJson (encOpt CognitionSnapshot.toJson o) = .ok o := by
  cases o with
  | none => rfl
  | some y =>
    show (CognitionSnapshot.fromJson y.toJson).map some = .ok (some y)
    rw [CognitionSnapshot_roundtrip y h]
    rfl

theorem ActionPlan_roundtrip (x : ActionPlan) (h : x.wf = true) :
    ActionPlan.fromJson x.toJson = .ok x := by
  obtain ⟨f0, f1, f2, f3, f4, f5, f6, f7, f8, f9, f10, f11, ex⟩ := x
  simp only [ActionPlan.wf] at h
  simp only [ActionPlan.toJson, ActionPlan.fromJson, reqField, optField, defField, dget?,
    String.reduceEq, reduceIte, ok_bind, asStr, asBool, asRat, asInt, asTime,
    asAny, asDictAny,
    decEnum_ActionType,
    decEnum_ActionCategory,
    decOpt_str_roundtrip,
    decListOf_roundtrip asDictAny Json.obj f8 (fun _ _ => rfl),
    decListOf_roundtrip asDictAny Json.obj f9 (fun _ _ => rfl),
    decOpt_time_roundtrip]
  exact congrArg
    (fun z => (Except.ok (⟨f0, f1, f2, f3, f4, f5, f6, f7, f8, f9, f10, f11, z⟩ : ActionPlan) : Except String ActionPlan))
    (stripKeys_of_extrasOk ex _ (h))

theorem ActionPlan_decOpt_roundtrip (o : Option ActionPlan) (h : optWf ActionPlan.wf o = true) :
    decOpt ActionPlan.fromJson (encOpt ActionPlan.toJson o) = .ok o := by
  cases o with
  | none => rfl
  | some y =>
    show (ActionPlan.fromJson y.toJson).map some = .ok (some y)
    rw [ActionPlan_roundtrip y h]
    rfl

theorem ActionExecution_roundtrip (x : ActionExecution) (h : x.wf = true) :
    ActionExecution.fromJson x.toJson = .ok x := by
  obtain ⟨f0, f1, f2, f3, f4, f5, f6, f7, f8, f9, f10, ex⟩ := x
  simp only [ActionExecution.wf] at h
  simp only [ActionExecution.toJson, ActionExecution.fromJson, reqField, optField, defField, dget?,
    String.reduceEq, reduceIte, ok_bind, asStr, asBool, asRat, asInt, asTime,
    asAny, asDictAny,
    decEnum_ActionStatus,
    decOpt_time_roundtrip,
    decOpt_rat_roundtrip,
    decListOf_roundtrip asDictAny Json.obj f9 (fun _ _ => rfl)]
  exact congrArg
    (fun z => (Except.ok (⟨f0, f1, f2, f3, f4, f5, f6, f7, f8, f9, f10, z⟩ : ActionExecution) : Except String ActionExecution))
    (stripKeys_of_extrasOk ex _ (h))

theorem ActionExecution_decOpt_roundtrip (o : Option ActionExecution) (h : optWf ActionExecution.wf o = true) :
    decOpt ActionExecution.fromJson (encOpt ActionExecution.toJson o) = .ok o := by
  cases o with
  | none => rfl
  | some y =>
    show (ActionExecution.fromJson y.toJson).map some = .ok (some y)
    rw [ActionExecution_roundtrip y h]
    rfl

theorem ActionSnapshot_roundtrip (x : ActionSnapshot) (h : x.wf = true) :
    ActionSnapshot.fromJson x.toJson = .ok x := by
  obtain ⟨f0, f1, f2, f3, f4, f5, f6, ex⟩ := x
  simp only [ActionSnapshot.wf, Bool.and_eq_true] at h
  simp only [ActionSnapshot.toJson, ActionSnapshot.fromJson, reqField, optField, defField, dget?,
    String.reduceEq, reduceIte, ok_bind, asStr, asBool, asRat, asInt, asTime,
    asAny, asDictAny,
    decListOf_roundtrip _ _ f1
      (fun y hy => ActionPlan_roundtrip y (List.all_eq_true.mp (h.1.1.1.2) y hy)),
    decListOf_roundtrip _ _ f2
      (fun y hy => ActionExecution_roundtrip y (List.all_eq_true.mp (h.1.1.2) y hy)),
    decListOf_roundtrip _ _ f3
      (fun y hy => ActionExecution_roundtrip y (List.all_eq_true.mp (h.1.2) y hy)),
    decListOf_roundtrip _ _ f4
      (fun y hy => ActionExecution_roundtrip y (List.all_eq_true.mp (h.2) y hy)),
    decDictOf_roundtrip asRat Json.num f6 (fun _ _ => rfl)]
  exact congrArg
    (fun z => (Except.ok (⟨f0, f1, f2, f3, f4, f5, f6, z⟩ : ActionSnapshot) : Except String ActionSnapshot))
    (stripKeys_of_extrasOk ex _ (h.1.1.1.1))

theorem ActionSnapshot_decOpt_roundtrip (o : Option ActionSnapshot) (h : optWf ActionSnapshot.wf o = true) :
    decOpt ActionSnapshot.fromJson (encOpt ActionSnapshot.toJson o) = .ok o := by
  cases o with
  | none => rfl
  | some y =>
    show (ActionSnapshot.fromJson y.toJson).map some = .ok (some y)
    rw [ActionSnapshot_roundtrip y h]
    rfl

theorem AgentState_roundtrip (x : AgentState) (h : x.wf = true) :
    AgentState.fromJson x.toJson = .ok x := by
  obtain ⟨f0, f1, f2, f3, f4, f5, f6, f7, f8, ex⟩ := x
  simp only [AgentState.wf] at h
  simp only [AgentState.toJson, AgentState.fromJson, reqField, optField, defField, dget?,
    String.reduceEq, reduceIte, ok_bind, asStr, asBool, asRat, asInt, asTime,
    asAny, asDictAny,
    decEnum_AgentStatus,
    asStrList_roundtrip]
  exact congrArg
    (fun z => (Except.ok (⟨f0, f1, f2, f3, f4, f5, f6, f7, f8, z⟩ : AgentState) : Except String AgentState))
    (stripKeys_of_extrasOk ex _ (h))

theorem AgentState_decOpt_roundtrip (o : Option AgentState) (h : optWf AgentState.wf o = true) :
    decOpt AgentState.fromJson (encOpt AgentState.toJson o) = .ok o := by
  cases o with
  | none => rfl
  | some y =>
    show (AgentState.fromJson y.toJson).map some = .ok (some y)
    rw [AgentState_roundtrip y h]
    rfl

theorem ExecutionState_roundtrip (x : ExecutionState) (h : x.wf = true) :
    ExecutionState.fromJson x.toJson = .ok x := by
  obtain ⟨f0, f1, f2, f3, f4, f5, f6, f7, ex⟩ := x
  simp only [ExecutionState.wf] at h
  simp only [ExecutionState.toJson, ExecutionState.fromJson, reqField, optField, defField, dget?,
    String.reduceEq, reduceIte, ok_bind, asStr, asBool, asRat, asInt, asTime,
    asAny, asDictAny,
    decEnum_ExecutionPhase,
    asStrList_roundtrip,
    decListOf_roundtrip asDictAny Json.obj f4 (fun _ _ => rfl),
    decDictOf_roundtrip asRat Json.num f5 (fun _ _ => rfl),
    decDictOf_roundtrip asRat Json.num f6 (fun _ _ => rfl)]
  exact congrArg
    (fun z => (Except.ok (⟨f0, f1, f2, f3, f4, f5, f6, f7, z⟩ : ExecutionState) : Except String ExecutionState))
    (stripKeys_of_extrasOk ex _ (h))

theorem ExecutionState_decOpt_roundtrip (o : Option ExecutionState) (h : optWf ExecutionState.wf o = true) :
    decOpt ExecutionState.fromJson (encOpt ExecutionState.toJson o) = .ok o := by
  cases o with
  | none => rfl
  | some y =>
    show (ExecutionState.fromJson y.toJson).map some = .ok (some y)
    rw [ExecutionState_roundtrip y h]
    rfl

theorem CognitiveState_roundtrip (x : CognitiveState) (h : x.wf = true) :
    CognitiveState.fromJson x.toJson = .ok x := by
  obtain ⟨f0, f1, f2, f3, f4, f5, f6, f7, f8, ex⟩ := x
  simp only [CognitiveState.wf] at h
  simp only [CognitiveState.toJson, CognitiveState.fromJson, reqField, optField, defField, dget?,
    String.reduceEq, reduceIte, ok_bind, asStr, asBool, asRat, asInt, asTime,
    asAny, asDictAny,
    asStrList_roundtrip]
  exact congrArg
    (fun z => (Except.ok (⟨f0, f1, f2, f3, f4, f5, f6, f7, f8, z⟩ : CognitiveState) : Except String CognitiveState))
    (stripKeys_of_extrasOk ex _ (h))

theorem CognitiveState_decOpt_roundtrip (o : Option CognitiveState) (h : optWf CognitiveState.wf o = true) :
    decOpt CognitiveState.fromJson (encOpt CognitiveState.toJson o) = .ok o := by
  cases o with
  | none => rfl
  | some y =>
    show (CognitiveState.fromJson y.toJson).map some = .ok (some y)
    rw [CognitiveState_roundtrip y h]
    rfl

theorem PerceptualState_roundtrip (x : PerceptualState) (h : x.wf = true) :
    PerceptualState.fromJson x.toJson = .ok x := by
  obtain ⟨f0, f1, f2, f3, f4, f5, f6, ex⟩ := x
  simp only [PerceptualState.wf] at h
  simp only [PerceptualState.toJson, PerceptualState.fromJson, reqField, optField, defField, dget?,
    String.reduceEq, reduceIte, ok_bind, asStr, asBool, asRat, asInt, asTime,
    asAny, asDictAny,
    asStrList_roundtrip,
    decDictOf_roundtrip asRat Json.num f5 (fun _ _ => rfl)]
  exact congrArg
    (fun z => (Except.ok (⟨f0, f1, f2, f3, f4, f5, f6, z⟩ : PerceptualState) : Except String PerceptualState))
    (stripKeys_of_extrasOk ex _ (h))

theorem PerceptualState_decOpt_roundtrip (o : Option PerceptualState) (h : optWf PerceptualState.wf o = true) :
    decOpt PerceptualState.fromJson (encOpt PerceptualState.toJson o) = .ok o := by
  cases o with
  | none => rfl
  | some y =>
    show (PerceptualState.fromJson y.toJson).map some = .ok (some y)
    rw [PerceptualState_roundtrip y h]
    rfl

theorem StateConstraint_roundtrip (x : StateConstraint) (h : x.wf = true) :
    StateConstraint.fromJson x.toJson = .ok x := by
  obtain ⟨f0, f1, f2, f3, f4, f5, f6, f7, ex⟩ := x
  simp only [StateConstraint.wf] at h
  simp only [StateConstraint.toJson, StateConstraint.fromJson, reqField, optField, defField, dget?,
    String.reduceEq, reduceIte, ok_bind, asStr, asBool, asRat, asInt, asTime,
    asAny, asDictAny,
    decOpt_time_roundtrip]
  exact congrArg
    (fun z => (Except.ok (⟨f0, f1, f2, f3, f4, f5, f6, f7, z⟩ : StateConstraint) : Except String StateConstraint))
    (stripKeys_of_extrasOk ex _ (h))

theorem StateConstraint_decOpt_roundtrip (o : Option StateConstraint) (h : optWf StateConstraint.wf o = true) :
    decOpt StateConstraint.fromJson (encOpt StateConstraint.toJson o) = .ok o := by
  cases o with
  | none => rfl
  | some y =>
    show (StateConstraint.fromJson y.toJson).map some = .ok (some y)
    rw [StateConstraint_roundtrip y h]
    rfl

theorem CompleteState_roundtrip (x : CompleteState) (h : x.wf = true) :
    CompleteState.fromJson x.toJson = .ok x := by
  obtain ⟨f0, f1, f2, f3, f4, f5, f6, f7, ex⟩ := x
  simp only [CompleteState.wf, Bool.and_eq_true] at h
  simp only [CompleteState.toJson, CompleteState.fromJson, reqField, optField, defField, dget?,
    String.reduceEq, reduceIte, ok_bind, asStr, asBool, asRat, asInt, asTime,
    asAny, asDictAny,
    AgentState_roundtrip f1 (h.1.1.1.1.2),
    ExecutionState_roundtrip f2 (h.1.1.1.2),
    CognitiveState_roundtrip f3 (h.1.1.2),
    PerceptualState_roundtrip f4 (h.1.2),
    decListOf_roundtrip _ _ f6
      (fun y hy => StateConstraint_roundtrip y (List.all_eq_true.mp (h.2) y hy)),
    decDictOf_roundtrip asRat Json.num f7 (fun _ _ => rfl)]
  exact congrArg
    (fun z => (Except.ok (⟨f0, f1, f2, f3, f4, f5, f6, f7, z⟩ : CompleteState) : Except String CompleteState))
    (stripKeys_of_extrasOk ex _ (h.1.1.1.1.1))

theorem CompleteState_decOpt_roundtrip (o : Option CompleteState) (h : optWf CompleteState.wf o = true) :
    decOpt CompleteState.fromJson (encOpt CompleteState.toJson o) = .ok o := by
  cases o with
  | none => rfl
  | some y =>
    show (CompleteState.fromJson y.toJson).map some = .ok (some y)
    rw [CompleteState_roundtrip y h]
    rfl

theorem Interface_roundtrip (x : Interface) (h : x.wf = true) :
    Interface.fromJson x.toJson = .ok x := by
  obtain ⟨f0, f1, f2, f3, f4, f5, f6, f7, f8, ex⟩ := x
  simp only [Interface.wf] at h
  simp only [Interface.toJson, Interface.fromJson, reqField, optField, defField, dget?,
    String.reduceEq, reduceIte, ok_bind, asStr, asBool, asRat, asInt, asTime,
    asAny, asDictAny,
    decEnum_InterfaceType,
    decEnum_CommunicationProtocol,
    asStrList_roundtrip,
    decDictOf_roundtrip asInt Json.int f7 (fun _ _ => rfl)]
  exact congrArg
    (fun z => (Except.ok (⟨f0, f1, f2, f3, f4, f5, f6, f7, f8, z⟩ : Interface) : Except String Interface))
    (stripKeys_of_extrasOk ex _ (h))

theorem Interface_decOpt_roundtrip (o : Option Interface) (h : optWf Interface.wf o = true) :
    decOpt Interface.fromJson (encOpt Interface.toJson o) = .ok o := by
  cases o with
  | none => rfl
  | some y =>
    show (Interface.fromJson y.toJson).map some = .ok (some y)
    rw [Interface_roundtrip y h]
    rfl

theorem Conversation_roundtrip (x : Conversation) (h : x.wf = true) :
    Conversation.fromJson x.toJson = .ok x := by
  obtain ⟨f0, f1, f2, f3, f4, f5, f6, f7, f8, ex⟩ := x
  simp only [Conversation.wf] at h
  simp only [Conversation.toJson, Conversation.fromJson, reqField, optField, defField, dget?,
    String.reduceEq, reduceIte, ok_bind, asStr, asBool, asRat, asInt, asTime,
    asAny, asDictAny,
    asStrList_roundtrip,
    decOpt_time_roundtrip,
    decOpt_str_roundtrip]
  exact congrArg
    (fun z => (Except.ok (⟨f0, f1, f2, f3, f4, f5, f6, f7, f8, z⟩ : Conversation) : Except String Conversation))
    (stripKeys_of_extrasOk ex _ (h))

theorem Conversation_decOpt_roundtrip (o : Option Conversation) (h : optWf Conversation.wf o = true) :
    decOpt Conversation.fromJson (encOpt Conversation.toJson o) = .ok o := by
  cases o with
  | none => rfl
  | some y =>
    show (Conversation.fromJson y.toJson).map some = .ok (some y)
    rw [Conversation_roundtrip y h]
    rfl

theorem Message_roundtrip (x : Message) (h : x.wf = true) :
    Message.fromJson x.toJson = .ok x := by
  obtain ⟨f0, f1, f2, f3, f4, f5, f6, f7, f8, f9, f10, ex⟩ := x
  simp only [Message.wf] at h
  simp only [Message.toJson, Message.fromJson, reqField, optField, defField, dget?,
    String.reduceEq, reduceIte, ok_bind, asStr, asBool, asRat, asInt, asTime,
    asAny, asDictAny,
    decEnum_MessageType,
    decOpt_str_roundtrip,
    decOpt_time_roundtrip]
  exact congrArg
    (fun z => (Except.ok (⟨f0, f1, f2, f3, f4, f5, f6, f7, f8, f9, f10, z⟩ : Message) : Except String Message))
    (stripKeys_of_extrasOk ex _ (h))

theorem Message_decOpt_roundtrip (o : Option Message) (h : optWf Message.wf o = true) :
    decOpt Message.fromJson (encOpt Message.toJson o) = .ok o := by
  cases o with
  | none => rfl
  | some y =>
    show (Message.fromJson y.toJson).map some = .ok (some y)
    rw [Message_roundtrip y h]
    rfl

theorem InteractionMetrics_roundtrip (x : InteractionMetrics) (h : x.wf = true) :
    InteractionMetrics.fromJson x.toJson = .ok x := by
  obtain ⟨f0, f1, f2, f3, f4, f5, f6, f7, f8, ex⟩ := x
  simp only [InteractionMetrics.wf] at h
  simp only [InteractionMetrics.toJson, InteractionMetrics.fromJson, reqField, optField, defField, dget?,
    String.reduceEq, reduceIte, ok_bind, asStr, asBool, asRat, asInt, asTime,
    asAny, asDictAny]
  exact congrArg
    (fun z => (Except.ok (⟨f0, f1, f2, f3, f4, f5, f6, f7, f8, z⟩ : InteractionMetrics) : Except String InteractionMetrics))
    (stripKeys_of_extrasOk ex _ (h))

theorem InteractionMetrics_decOpt_roundtrip (o : Option InteractionMetrics) (h : optWf InteractionMetrics.wf o = true) :
    decOpt InteractionMetrics.fromJson (encOpt InteractionMetrics.toJson o) = .ok o := by
  cases o with
  | none => rfl
  | some y =>
    show (InteractionMetrics.fromJson y.toJson).map some = .ok (some y)
    rw [InteractionMetrics_roundtrip y h]
    rfl

theorem InteractionPolicy_roundtrip (x : InteractionPolicy) (h : x.wf = true) :
    InteractionPolicy.fromJson x.toJson = .ok x := by
  obtain ⟨f0, f1, f2, f3, f4, f5, f6, f7, ex⟩ := x
  simp only [InteractionPolicy.wf] at h
  simp only [InteractionPolicy.toJson, InteractionPolicy.fromJson, reqField, optField, defField, dget?,
    String.reduceEq, reduceIte, ok_bind, asStr, asBool, asRat, asInt, asTime,
    asAny, asDictAny,
    decListOf_roundtrip _ _ f2 (fun e _ => decEnum_InterfaceType e),
    decListOf_roundtrip asDictAny Json.obj f3 (fun _ _ => rfl),
    decDictOf_roundtrip asStrList encStrList f4 (fun kv _ => asStrList_roundtrip kv.2),
    decDictOf_roundtrip asStrList encStrList f5 (fun kv _ => asStrList_roundtrip kv.2)]
  exact congrArg
    (fun z => (Except.ok (⟨f0, f1, f2, f3, f4, f5, f6, f7, z⟩ : InteractionPolicy) : Except String InteractionPolicy))
    (stripKeys_of_extrasOk ex _ (h))

theorem InteractionPolicy_decOpt_roundtrip (o : Option InteractionPolicy) (h : optWf InteractionPolicy.wf o = true) :
    decOpt InteractionPolicy.fromJson (encOpt InteractionPolicy.toJson o) = .ok o := by
  cases o with
  | none => rfl
  | some y =>
    show (InteractionPolicy.fromJson y.toJson).map some = .ok (some y)
    rw [InteractionPolicy_roundtrip y h]
    rfl

theorem InteractionSnapshot_roundtrip (x : InteractionSnapshot) (h : x.wf = true) :
    InteractionSnapshot.fromJson x.toJson = .ok x := by
  obtain ⟨f0, f1, f2, f3, f4, f5, f6, ex⟩ := x
  simp only [InteractionSnapshot.wf, Bool.and_eq_true] at h
  simp only [InteractionSnapshot.toJson, InteractionSnapshot.fromJson, reqField, optField, defField, dget?,
    String.reduceEq, reduceIte, ok_bind, asStr, asBool, asRat, asInt, asTime,
    asAny, asDictAny,
    decListOf_roundtrip _ _ f1
      (fun y hy => Interface_roundtrip y (List.all_eq_true.mp (h.1.1.1.1.2) y hy)),
    decListOf_roundtrip _ _ f2
      (fun y hy => Conversation_roundtrip y (List.all_eq_true.mp (h.1.1.1.2) y hy)),
    decListOf_roundtrip _ _ f3
      (fun y hy => Message_roundtrip y (List.all_eq_true.mp (h.1.1.2) y hy)),
    decListOf_roundtrip _ _ f4
      (fun y hy => InteractionMetrics_roundtrip y (List.all_eq_true.mp (h.1.2) y hy)),
    decListOf_roundtrip _ _ f5
      (fun y hy => InteractionPolicy_roundtrip y (List.all_eq_true.mp (h.2) y hy))]
  exact congrArg
    (fun z => (Except.ok (⟨f0, f1, f2, f3, f4, f5, f6, z⟩ : InteractionSnapshot) : Except String InteractionSnapshot))
    (stripKeys_of_extrasOk ex _ (h.1.1.1.1.1))

theorem InteractionSnapshot_decOpt_roundtrip (o : Option InteractionSnapshot) (h : optWf InteractionSnapshot.wf o = true) :
    decOpt InteractionSnapshot.fromJson (encOpt InteractionSnapshot.toJson o) = .ok o := by
  cases o with
  | none => rfl
  | some y =>
    show (InteractionSnapshot.fromJson y.toJson).map some = .ok (some y)
    rw [InteractionSnapshot_roundtrip y h]
    rfl

theorem Anomaly_roundtrip (x : Anomaly) (h : x.wf = true) :
    Anomaly.fromJson x.toJson = .ok x := by
  obtain ⟨f0, f1, f2, f3, f4, f5, f6, f7, f8, f9, ex⟩ := x
  simp only [Anomaly.wf] at h
  simp only [Anomaly.toJson, Anomaly.fromJson, reqField, optField, defField, dget?,
    String.reduceEq, reduceIte, ok_bind, asStr, asBool, asRat, asInt, asTime,
    asAny, asDictAny,
    decEnum_AnomalyType,
    decEnum_RiskLevel,
    decListOf_roundtrip asDictAny Json.obj f6 (fun _ _ => rfl),
    asStrList_roundtrip]
  exact congrArg
    (fun z => (Except.ok (⟨f0, f1, f2, f3, f4, f5, f6, f7, f8, f9, z⟩ : Anomaly) : Except String Anomaly))
    (stripKeys_of_extrasOk ex _ (h))

theorem Anomaly_decOpt_roundtrip (o : Option Anomaly) (h : optWf Anomaly.wf o = true) :
    decOpt Anomaly.fromJson (encOpt Anomaly.toJson o) = .ok o := by
  cases o with
  | none => rfl
  | some y =>
    show (Anomaly.fromJson y.toJson).map some = .ok (some y)
    rw [Anomaly_roundtrip y h]
    rfl

theorem Risk_roundtrip (x : Risk) (h : x.wf = true) :
    Risk.fromJson x.toJson = .ok x := by
  obtain ⟨f0, f1, f2, f3, f4, f5, f6, f7, f8, f9, ex⟩ := x
  simp only [Risk.wf] at h
  simp only [Risk.toJson, Risk.fromJson, reqField, optField, defField, dget?,
    String.reduceEq, reduceIte, ok_bind, asStr, asBool, asRat, asInt, asTime,
    asAny, asDictAny,
    decEnum_RiskLevel,
    asStrList_roundtrip,
    decListOf_roundtrip asDictAny Json.obj f8 (fun _ _ => rfl)]
  exact congrArg
    (fun z => (Except.ok (⟨f0, f1, f2, f3, f4, f5, f6, f7, f8, f9, z⟩ : Risk) : Except String Risk))
    (stripKeys_of_extrasOk ex _ (h))

theorem Risk_decOpt_roundtrip (o : Option Risk) (h : optWf Risk.wf o = true) :
    decOpt Risk.fromJson (encOpt Risk.toJson o) = .ok o := by
  cases o with
  | none => rfl
  | some y =>
    show (Risk.fromJson y.toJson).map some = .ok (some y)
    rw [Risk_roundtrip y h]
    rfl

theorem HumanReviewRequest_roundtrip (x : HumanReviewRequest) (h : x.wf = true) :
    HumanReviewRequest.fromJson x.toJson = .ok x := by
  obtain ⟨f0, f1, f2, f3, f4, f5, f6, f7, f8, ex⟩ := x
  simp only [HumanReviewRequest.wf] at h
  simp only [HumanReviewRequest.toJson, HumanReviewRequest.fromJson, reqField, optField, defField, dget?,
    String.reduceEq, reduceIte, ok_bind, asStr, asBool, asRat, asInt, asTime,
    asAny, asDictAny,
    decEnum_RiskLevel,
    decListOf_roundtrip asDictAny Json.obj f5 (fun _ _ => rfl),
    decOpt_rat_roundtrip,
    decOpt_str_roundtrip]
  exact congrArg
    (fun z => (Except.ok (⟨f0, f1, f2, f3, f4, f5, f6, f7, f8, z⟩ : HumanReviewRequest) : Except String HumanReviewRequest))
    (stripKeys_of_extrasOk ex _ (h))

theorem HumanReviewRequest_decOpt_roundtrip (o : Option HumanReviewRequest) (h : optWf HumanReviewRequest.wf o = true) :
    decOpt HumanReviewRequest.fromJson (encOpt HumanReviewRequest.toJson o) = .ok o := by
  cases o with
  | none => rfl
  | some y =>
    show (HumanReviewRequest.fromJson y.toJson).map some = .ok (some y)
    rw [HumanReviewRequest_roundtrip y h]
    rfl

theorem InterventionAction_roundtrip (x : InterventionAction) (h : x.wf = true) :
    InterventionAction.fromJson x.toJson = .ok x := by
  obtain ⟨f0, f1, f2, f3, f4, f5, f6, f7, f8, f9, ex⟩ := x
  simp only [InterventionAction.wf] at h
  simp only [InterventionAction.toJson, InterventionAction.fromJson, reqField, optField, defField, dget?,
    String.reduceEq, reduceIte, ok_bind, asStr, asBool, asRat, asInt, asTime,
    asAny, asDictAny,
    decEnum_InterventionType,
    decOpt_str_roundtrip,
    decOpt_bool_roundtrip]
  exact congrArg
    (fun z => (Except.ok (⟨f0, f1, f2, f3, f4, f5, f6, f7, f8, f9, z⟩ : InterventionAction) : Except String InterventionAction))
    (stripKeys_of_extrasOk ex _ (h))

theorem InterventionAction_decOpt_roundtrip (o : Option InterventionAction) (h : optWf InterventionAction.wf o = true) :
    decOpt InterventionAction.fromJson (encOpt InterventionAction.toJson o) = .ok o := by
  cases o with
  | none => rfl
  | some y =>
    show (InterventionAction.fromJson y.toJson).map some = .ok (some y)
    rw [InterventionAction_roundtrip y h]
    rfl

theorem OversightSnapshot_roundtrip (x : OversightSnapshot) (h : x.wf = true) :
    OversightSnapshot.fromJson x.toJson = .ok x := by
  obtain ⟨f0, f1, f2, f3, f4, f5, f6, f7, f8, ex⟩ := x
  simp only [OversightSnapshot.wf, Bool.and_eq_true] at h
  simp only [OversightSnapshot.toJson, OversightSnapshot.fromJson, reqField, optField, defField, dget?,
    String.reduceEq, reduceIte, ok_bind, asStr, asBool, asRat, asInt, asTime,
    asAny, asDictAny,
    decListOf_roundtrip _ _ f1
      (fun y hy => Anomaly_roundtrip y (List.all_eq_true.mp (h.1.1.1.2) y hy)),
    decListOf_roundtrip _ _ f2
      (fun y hy => Risk_roundtrip y (List.all_eq_true.mp (h.1.1.2) y hy)),
    decDictOf_roundtrip asRat Json.num f3 (fun _ _ => rfl),
    decListOf_roundtrip _ _ f4
      (fun y hy => HumanReviewRequest_roundtrip y (List.all_eq_true.mp (h.1.2) y hy)),
    decListOf_roundtrip _ _ f5
      (fun y hy => InterventionAction_roundtrip y (List.all_eq_true.mp (h.2) y hy)),
    decDictOf_roundtrip asBool Json.bool f6 (fun _ _ => rfl),
    asStrList_roundtrip]
  exact congrArg
    (fun z => (Except.ok (⟨f0, f1, f2, f3, f4, f5, f6, f7, f8, z⟩ : OversightSnapshot) : Except String OversightSnapshot))
    (stripKeys_of_extrasOk ex _ (h.1.1.1.1))

theorem OversightSnapshot_decOpt_roundtrip (o : Option OversightSnapshot) (h : optWf OversightSnapshot.wf o = true) :
    decOpt OversightSnapshot.fromJson (encOpt OversightSnapshot.toJson o) = .ok o := by
  cases o with
  | none => rfl
  | some y =>
    show (OversightSnapshot.fromJson y.toJson).map some = .ok (some y)
    rw [OversightSnapshot_roundtrip y h]
    rfl

/-- Structural induction over the step tree (a step may own sub-steps). -/
theorem EnhancedAgentStep.strongInd (P : EnhancedAgentStep → Prop)
    (h : ∀ d subs extra, (∀ s ∈ subs, P s) → P (.mk d subs extra)) :
    ∀ s, P s
  | .mk d subs extra => h d subs extra (fun s hs => EnhancedAgentStep.strongInd P h s)
termination_by s => sizeOf s
decreasing_by
  have := List.sizeOf_lt_of_mem hs
  simp_wf
  omega

theorem EnhancedAgentStep.wfList_eq (l : List EnhancedAgentStep) :
    EnhancedAgentStep.wfList l = l.all EnhancedAgentStep.wf := by
  induction l with
  | nil => rfl
  | cons a rest ih => simp [EnhancedAgentStep.wfList, ih]

theorem EnhancedAgentStep.fromJsonList_nil :
    EnhancedAgentStep.fromJsonList [] = .ok [] := by
  rw [EnhancedAgentStep.fromJsonList]

theorem EnhancedAgentStep.fromJsonList_cons (j : Json) (rest : List Json) :
    EnhancedAgentStep.fromJsonList (j :: rest) =
      (do
        let s ← EnhancedAgentStep.fromJson j
        let r ← EnhancedAgentStep.fromJsonList rest
        .ok (s :: r)) := by
  rw [EnhancedAgentStep.fromJsonList]

theorem EnhancedAgentStep.decSubsField_arr (items : List Json) :
    EnhancedAgentStep.decSubsField (some (.arr items)) =
      EnhancedAgentStep.fromJsonList items := by
  rw [EnhancedAgentStep.decSubsField]

theorem EnhancedAgentStep.fromJsonList_roundtrip (l : List EnhancedAgentStep)
    (h : ∀ s ∈ l, EnhancedAgentStep.fromJson s.toJson = .ok s) :
    EnhancedAgentStep.fromJsonList (EnhancedAgentStep.toJsonList l) = .ok l := by
  induction l with
  | nil => simp only [EnhancedAgentStep.toJsonList, EnhancedAgentStep.fromJsonList_nil]
  | cons a rest ih =>
    simp only [EnhancedAgentStep.toJsonList, EnhancedAgentStep.fromJsonList_cons,
      h a (by simp), ok_bind, ih (fun s hs => h s (by simp [hs]))]

theorem EnhancedAgentStep_roundtrip : ∀ (s : EnhancedAgentStep), s.wf = true →
    EnhancedAgentStep.fromJson s.toJson = .ok s := by
  intro s
  induction s using EnhancedAgentStep.strongInd with
  | h d subs ex ih =>
    intro hwf
    simp only [EnhancedAgentStep.wf, Bool.and_eq_true] at hwf
    obtain ⟨⟨⟨⟨⟨⟨⟨hex, hp⟩, hc⟩, ha⟩, hcs⟩, hi⟩, ho⟩, hsubs⟩ := hwf
    rw [EnhancedAgentStep.wfList_eq] at hsubs
    have hlist := EnhancedAgentStep.fromJsonList_roundtrip subs
      (fun t ht => ih t ht (List.all_eq_true.mp hsubs t ht))
    simp only [EnhancedAgentStep.toJson]
    rw [EnhancedAgentStep.fromJson]
    simp only [reqField,
      optField, defField, dget?, String.reduceEq, reduceIte, ok_bind, asStr,
      asInt, asTime, asRat, asDictAny, EnhancedAgentStep.decSubsField_arr,
      decOpt_str_roundtrip,
      decOpt_time_roundtrip, decOpt_rat_roundtrip,
      PerceptionSnapshot_decOpt_roundtrip _ hp,
      CognitionSnapshot_decOpt_roundtrip _ hc,
      ActionSnapshot_decOpt_roundtrip _ ha,
      CompleteState_decOpt_roundtrip _ hcs,
      InteractionSnapshot_decOpt_roundtrip _ hi,
      OversightSnapshot_decOpt_roundtrip _ ho,
      hlist]
    exact congrArg
      (fun z => (Except.ok (.mk d subs z) : Except String EnhancedAgentStep))
      (stripKeys_of_extrasOk ex _ hex)

theorem EnhancedAgentRun_roundtrip (x : EnhancedAgentRun) (h : x.wf = true) :
    EnhancedAgentRun.fromJson x.toJson = .ok x := by
  obtain ⟨f0, f1, f2, f3, f4, f5, f6, f7, f8, f9, f10, f11, f12, f13, f14, f15,
    f16, f17, f18, f19, f20, f21, f22, f23, f24, f25, f26, f27, f28, f29, ex⟩ := x
  simp only [EnhancedAgentRun.wf, Bool.and_eq_true] at h
  obtain ⟨⟨⟨⟨hex, hag⟩, hist⟩, hfst⟩, hsteps⟩ := h
  rw [EnhancedAgentStep.wfList_eq] at hsteps
  have hlist := EnhancedAgentStep.fromJsonList_roundtrip f16
    (fun t ht => EnhancedAgentStep_roundtrip t (List.all_eq_true.mp hsteps t ht))
  simp only [EnhancedAgentRun.toJson, EnhancedAgentRun.fromJson, reqField,
    optField, defField, dget?, String.reduceEq, reduceIte, ok_bind, asStr,
    asInt, asTime, asRat, asDictAny, decStepsField, decOpt_str_roundtrip,
    decOpt_time_roundtrip, decOpt_rat_roundtrip, decOpt_bool_roundtrip,
    asStrList_roundtrip, AgentInstance_roundtrip _ hag,
    CompleteState_decOpt_roundtrip _ hist, CompleteState_decOpt_roundtrip _ hfst,
    decDictOf_roundtrip asRat Json.num f23 (fun _ _ => rfl), hlist]
  exact congrArg
    (fun z => (Except.ok (⟨f0, f1, f2, f3, f4, f5, f6, f7, f8, f9, f10, f11,
      f12, f13, f14, f15, f16, f17, f18, f19, f20, f21, f22, f23, f24, f25,
      f26, f27, f28, f29, z⟩ : EnhancedAgentRun) : Except String EnhancedAgentRun))
    (stripKeys_of_extrasOk ex _ hex)


/-! ### Metrics dictionary lemmas -/

theorem dictFind?_set_self (l : List (String × Rat)) (k : String) (v : Rat) :
    dictFind? (dictSet l k v) k = some v := by
  induction l with
  | nil => simp [dictSet, dictFind?]
  | cons kv rest ih =>
    obtain ⟨k', v'⟩ := kv
    by_cases h : k' = k
    · simp [dictSet, h, dictFind?]
    · simp [dictSet, h, dictFind?, ih]

theorem dictFind?_set_ne (l : List (String × Rat)) (k k' : String) (v : Rat)
    (h : k' ≠ k) : dictFind? (dictSet l k' v) k = dictFind? l k := by
  induction l with
  | nil => simp [dictSet, dictFind?, h]
  | cons kv rest ih =>
    obtain ⟨k0, v0⟩ := kv
    by_cases h0 : k0 = k'
    · simp [dictSet, h0, dictFind?, h]
    · simp [dictSet, h0, dictFind?, ih]

theorem dictFind?_update_of_notMem (base upd : List (String × Rat)) (k : String)
    (h : ∀ kv ∈ upd, kv.1 ≠ k) :
    dictFind? (dictUpdate base upd) k = dictFind? base k := by
  unfold dictUpdate
  induction upd generalizing base with
  | nil => rfl
  | cons kv rest ih =>
    simp only [List.foldl_cons]
    rw [ih (dictSet base kv.1 kv.2) (fun x hx => h x (by simp [hx]))]
    exact dictFind?_set_ne base k kv.1 kv.2 (h kv (by simp))

theorem getMaxDepthFold_flat (l : List EnhancedAgentStep) (c : Nat) :
    ∀ m, (∀ s ∈ l, s.sub_steps = []) → EnhancedAgentStep.getMaxDepthFold l c m = m := by
  induction l with
  | nil =>
    intro m _
    rw [EnhancedAgentStep.getMaxDepthFold]
  | cons s rest ih =>
    intro m h
    rw [EnhancedAgentStep.getMaxDepthFold]
    rw [h s (by simp)]
    simp only [List.isEmpty_nil, if_true]
    exact ih m (fun t ht => h t (by simp [ht]))

theorem getMaxDepth_key (run : EnhancedAgentRun)
    (hpm : ∀ kv ∈ run.performance_metrics, kv.1 ≠ "max_nesting_depth") :
    dictFind? run.calculate_metrics "max_nesting_depth" =
      some ((EnhancedAgentStep.getMaxDepth run.steps 1 : Nat) : Rat) := by
  unfold EnhancedAgentRun.calculate_metrics
  rw [dictFind?_update_of_notMem _ _ _ hpm, dictFind?_set_self]

theorem avg_key (run : EnhancedAgentRun)
    (hpm : ∀ kv ∈ run.performance_metrics, kv.1 ≠ "average_step_duration") :
    dictFind? run.calculate_metrics "average_step_duration" =
      some (if (EnhancedAgentStep.collectDurationsList run.steps).isEmpty then 0
            else (EnhancedAgentStep.collectDurationsList run.steps).sum /
              ((EnhancedAgentStep.collectDurationsList run.steps).length : Rat)) := by
  unfold EnhancedAgentRun.calculate_metrics
  rw [dictFind?_update_of_notMem _ _ _ hpm]
  rw [dictFind?_set_ne _ _ _ _ (by decide)]
  by_cases h : (EnhancedAgentStep.collectDurationsList run.steps).isEmpty
  · simp only [h, if_true]
    rfl
  · simp only [h, if_false, Bool.false_eq_true]
    rw [dictFind?_set_self]

/-- C2: `calculate_metrics` reports `max_nesting_depth = 1` for a run with
zero steps, where the claim demands 0 (the code calls `get_max_depth(steps, 1)`
unconditionally and `get_max_depth([], 1)` returns its `current_depth` 1). -/
theorem C2_counterexample :
    dictFind? (mkTestRun []).calculate_metrics "max_nesting_depth" = some 1 ∧
    some (1 : Rat) ≠ some (0 : Rat) := by
  constructor
  · rw [getMaxDepth_key (mkTestRun []) (by intro kv h; simp [mkTestRun] at h)]
    rw [show (mkTestRun []).steps = [] from rfl]
    rw [EnhancedAgentStep.getMaxDepth]
    simp
  · simp

/-- C2 (amended): with `performance_metrics` not overriding the key,
`calculate_metrics` reports `max_nesting_depth = 1` for a non-empty run with
no sub-steps anywhere, `1` (not 0) for a run with zero steps, and `2` for a
run with exactly one step owning exactly one flat sub-step. -/
theorem C2_max_nesting_depth (run : EnhancedAgentRun)
    (hpm : ∀ kv ∈ run.performance_metrics, kv.1 ≠ "max_nesting_depth") :
    (run.steps = [] →
      dictFind? run.calculate_metrics "max_nesting_depth" = some 1) ∧
    (run.steps ≠ [] → (∀ s ∈ run.steps, s.sub_steps = []) →
      dictFind? run.calculate_metrics "max_nesting_depth" = some 1) ∧
    (∀ d ex sub, run.steps = [.mk d [sub] ex] → sub.sub_steps = [] →
      dictFind? run.calculate_metrics "max_nesting_depth" = some 2) := by
  refine ⟨?_, ?_, ?_⟩
  · intro h0
    rw [getMaxDepth_key run hpm, h0, EnhancedAgentStep.getMaxDepth]
    simp
  · intro hne hflat
    rw [getMaxDepth_key run hpm, EnhancedAgentStep.getMaxDepth]
    rw [if_neg (by simp [List.isEmpty_iff, hne])]
    rw [getMaxDepthFold_flat run.steps 1 1 hflat]
    simp
  · intro d ex sub hsteps hsub
    rw [getMaxDepth_key run hpm, hsteps, EnhancedAgentStep.getMaxDepth]
    rw [if_neg (by simp)]
    rw [EnhancedAgentStep.getMaxDepthFold]
    rw [show (EnhancedAgentStep.mk d [sub] ex).sub_steps = [sub] from rfl]
    simp only [List.isEmpty_cons, if_false, Bool.false_eq_true]
    rw [EnhancedAgentStep.getMaxDepth]
    rw [if_neg (by simp)]
    rw [getMaxDepthFold_flat [sub] (1 + 1) (1 + 1)
      (by intro t ht; simp at ht; subst ht; exact hsub)]
    rw [EnhancedAgentStep.getMaxDepthFold]
    norm_num

/-- C2 witness: the amended claim applied to the three concrete runs. -/
theorem C2_witness :
    dictFind? (mkTestRun []).calculate_metrics "max_nesting_depth" = some 1 ∧
    dictFind? (mkTestRun [flatStep "a" 0 none, flatStep "b" 1 none,
      flatStep "c" 2 none]).calculate_metrics "max_nesting_depth" = some 1 ∧
    dictFind? (mkTestRun [nestedStep "p" 0 [flatStep "q" 1 none]]).calculate_metrics
      "max_nesting_depth" = some 2 := by
  refine ⟨(C2_max_nesting_depth (mkTestRun []) (by intro kv h; simp [mkTestRun] at h)).1 rfl,
    (C2_max_nesting_depth _ (by intro kv h; simp [mkTestRun] at h)).2.1
      (by simp [mkTestRun]) ?_,
    (C2_max_nesting_depth _ (by intro kv h; simp [mkTestRun] at h)).2.2
      _ _ _ rfl rfl⟩
  intro s hs
  simp [mkTestRun, flatStep] at hs
  rcases hs with h | h | h <;> subst h <;> rfl


/-! ### C7: average step duration -/

theorem collectDurations_eq_flatten :
    ∀ s : EnhancedAgentStep,
      s.collectDurations = s.flatten.filterMap truthyDuration := by
  intro s
  induction s using EnhancedAgentStep.strongInd with
  | h d subs ex ih =>
    have hlist : EnhancedAgentStep.collectDurationsList subs =
        (EnhancedAgentStep.flattenList subs).filterMap truthyDuration := by
      induction subs with
      | nil => simp [EnhancedAgentStep.collectDurationsList,
          EnhancedAgentStep.flattenList]
      | cons a rest ihr =>
        simp only [EnhancedAgentStep.collectDurationsList,
          EnhancedAgentStep.flattenList, List.filterMap_append]
        rw [ih a (by simp), ihr (fun t ht => ih t (by simp [ht]))]
    rw [EnhancedAgentStep.collectDurations, EnhancedAgentStep.flatten]
    simp only [List.filterMap_cons]
    by_cases hempty : subs.isEmpty
    · have : subs = [] := by simpa [List.isEmpty_iff] using hempty
      subst this
      simp only [hlist, EnhancedAgentStep.flattenList]
      cases hq : (EnhancedAgentStepData.duration d) with
      | none => simp [truthyDuration, EnhancedAgentStep.duration,
          EnhancedAgentStep.data, hq]
      | some q =>
        by_cases h0 : q = 0 <;>
          simp [truthyDuration, EnhancedAgentStep.duration,
            EnhancedAgentStep.data, hq, h0]
    · rw [if_neg (by simpa using hempty), hlist]
      cases hq : (EnhancedAgentStepData.duration d) with
      | none => simp [truthyDuration, EnhancedAgentStep.duration,
          EnhancedAgentStep.data, hq]
      | some q =>
        by_cases h0 : q = 0 <;>
          simp [truthyDuration, EnhancedAgentStep.duration,
            EnhancedAgentStep.data, hq, h0]

theorem collectDurationsList_eq_flatten (l : List EnhancedAgentStep) :
    EnhancedAgentStep.collectDurationsList l =
      (EnhancedAgentStep.flattenList l).filterMap truthyDuration := by
  induction l with
  | nil => simp [EnhancedAgentStep.collectDurationsList,
      EnhancedAgentStep.flattenList]
  | cons a rest ih =>
    simp only [EnhancedAgentStep.collectDurationsList,
      EnhancedAgentStep.flattenList, List.filterMap_append]
    rw [collectDurations_eq_flatten a, ih]

/-- C7: a step with duration `0.0` is excluded from the average
(`if step.duration:` is Python truthiness, not a null check): with durations
`[0.0, 2.0]` the reported average is `2`, where the claim demands `1`. -/
theorem C7_counterexample :
    dictFind? c7run.calculate_metrics "average_step_duration" = some 2 ∧
    some (2 : Rat) ≠ some (1 : Rat) := by
  constructor
  · rw [avg_key c7run (by intro kv h; simp [c7run, mkTestRun] at h)]
    norm_num [c7run, mkTestRun, flatStep, EnhancedAgentStep.collectDurationsList,
      EnhancedAgentStep.collectDurations]
  · simp

/-- C7 (amended): with `performance_metrics` not overriding the key, the
reported `average_step_duration` is the mean of the truthy (non-null and
non-zero) durations over all steps, recursively in depth-first order, and `0`
when there is none. -/
theorem C7_average_step_duration (run : EnhancedAgentRun)
    (hpm : ∀ kv ∈ run.performance_metrics, kv.1 ≠ "average_step_duration") :
    EnhancedAgentStep.collectDurationsList run.steps =
      (EnhancedAgentStep.flattenList run.steps).filterMap truthyDuration ∧
    dictFind? run.calculate_metrics "average_step_duration" =
      some (if ((EnhancedAgentStep.flattenList run.steps).filterMap truthyDuration).isEmpty
            then 0
            else ((EnhancedAgentStep.flattenList run.steps).filterMap truthyDuration).sum /
              (((EnhancedAgentStep.flattenList run.steps).filterMap truthyDuration).length : Rat)) := by
  refine ⟨collectDurationsList_eq_flatten run.steps, ?_⟩
  rw [avg_key run hpm, collectDurationsList_eq_flatten run.steps]

/-- C7 witness: the amended claim applied to the `[0.0, 2.0]` run: mean of the
truthy durations `[2.0]` is `2`. -/
theorem C7_witness :
    dictFind? c7run.calculate_metrics "average_step_duration" = some 2 := by
  have h := (C7_average_step_duration c7run
    (by intro kv h; simp [c7run, mkTestRun] at h)).2
  rw [h]
  norm_num [c7run, mkTestRun, flatStep, EnhancedAgentStep.flattenList,
    EnhancedAgentStep.flatten, truthyDuration, EnhancedAgentStep.duration,
    EnhancedAgentStep.data, List.filterMap_cons, List.filterMap_nil]


/-! ### Connector inversion -/

theorem err_bind (e : String) (f : α → Except String β) :
    (Except.error e >>= f) = (Except.error e : Except String β) := rfl

theorem convert_ok_spec (fromIso : String → Option DateTime) (now : DateTime)
    (doc : List (String × Json)) (run : EnhancedAgentRun)
    (h : from_openai_trace_enhanced fromIso now doc = .ok run) :
    ∃ agent initial runId st et statusStr steps parsed obs act msg,
      createAgentInstance fromIso now doc = .ok agent ∧
      createInitialState fromIso now agent.id doc = .ok initial ∧
      asStr (dgetD doc "id" (.str "")) = .ok runId ∧
      parseTime fromIso (dgetD doc "started_at" .null) = .ok (some st) ∧
      parseTime fromIso (dgetD doc "ended_at" .null) = .ok et ∧
      mapStatus (dgetD doc "status" (.str "completed")) = .ok statusStr ∧
      stepsIter (dgetD doc "steps" (.arr [])) = .ok steps ∧
      parseStepsLoop fromIso now steps 0 agent.id = .ok parsed ∧
      countWhereTypeIn steps ["message", "tool"] = .ok obs ∧
      countWhereTypeIn steps ["tool"] = .ok act ∧
      countWhereTypeIn steps ["message"] = .ok msg ∧
      run = ⟨runId, "OpenAI Agent Run " ++ pyStr (dgetD doc "id" (.str "")),
             none, agent, st, et, none,
             statusStr, none, none,
             some initial, [], [],
             (match parsed.getLast? with
              | some last =>
                if last.complete_state.isSome then last.complete_state else none
              | none => none),
             [], [], parsed, (obs : Int), 0, (act : Int), (msg : Int), 0, 0,
             [], [], [], [], [], [], [], []⟩ := by
  unfold from_openai_trace_enhanced at h
  cases h1 : createAgentInstance fromIso now doc with
  | error e => rw [h1, err_bind] at h; cases h
  | ok agent =>
  rw [h1, ok_bind] at h
  cases h2 : createInitialState fromIso now agent.id doc with
  | error e => rw [h2, err_bind] at h; cases h
  | ok initial =>
  rw [h2, ok_bind] at h
  cases h3 : asStr (dgetD doc "id" (.str "")) with
  | error e => rw [h3, err_bind] at h; cases h
  | ok runId =>
  rw [h3, ok_bind] at h
  cases h4 : parseTime fromIso (dgetD doc "started_at" .null) with
  | error e => rw [h4, err_bind] at h; cases h
  | ok stOpt =>
  rw [h4, ok_bind] at h
  cases stOpt with
  | none => rw [err_bind] at h; cases h
  | some st =>
  rw [ok_bind] at h
  cases h5 : parseTime fromIso (dgetD doc "ended_at" .null) with
  | error e => rw [h5, err_bind] at h; cases h
  | ok et =>
  rw [h5, ok_bind] at h
  cases h5s : mapStatus (dgetD doc "status" (.str "completed")) with
  | error e => rw [h5s, err_bind] at h; cases h
  | ok statusStr =>
  rw [h5s, ok_bind] at h
  cases h6 : stepsIter (dgetD doc "steps" (.arr [])) with
  | error e => rw [h6, err_bind] at h; cases h
  | ok steps =>
  rw [h6, ok_bind] at h
  cases h7 : parseStepsLoop fromIso now steps 0 agent.id with
  | error e => rw [h7, err_bind] at h; cases h
  | ok parsed =>
  rw [h7, ok_bind] at h
  cases h8 : countWhereTypeIn steps ["message", "tool"] with
  | error e => rw [h8, err_bind] at h; cases h
  | ok obs =>
  rw [h8, ok_bind] at h
  cases h9 : countWhereTypeIn steps ["tool"] with
  | error e => rw [h9, err_bind] at h; cases h
  | ok act =>
  rw [h9, ok_bind] at h
  cases h10 : countWhereTypeIn steps ["message"] with
  | error e => rw [h10, err_bind] at h; cases h
  | ok msg =>
  rw [h10, ok_bind] at h
  refine ⟨agent, initial, runId, st, et, statusStr, steps, parsed, obs, act, msg,
    ?_, ?_, ?_, ?_, ?_, ?_, ?_, ?_, ?_, ?_, ?_, ?_⟩ <;>
    first
      | rfl
      | exact h1
      | exact h2
      | exact h3
      | exact h4
      | exact h5
      | exact h5s
      | exact h6
      | exact h7
      | exact h8
      | exact h9
      | exact h10
      | (cases h; rfl)


/-! ### C3: status mapping -/

theorem jeqStr_false_of_ne (v : Json) (t : String) (h : v ≠ .str t) :
    jeqStr v t = false := by
  cases v <;> simp [jeqStr]
  intro he
  exact absurd (by rw [he]) h

theorem run_status_eq (fromIso : String → Option DateTime) (now : DateTime)
    (doc : List (String × Json)) (run : EnhancedAgentRun)
    (h : from_openai_trace_enhanced fromIso now doc = .ok run) :
    mapStatus (dgetD doc "status" (.str "completed")) = .ok run.status := by
  obtain ⟨agent, initial, runId, st, et, statusStr, steps, parsed, obs, act, msg,
    _, _, _, _, _, hstat, _, _, _, _, _, hrun⟩ := convert_ok_spec fromIso now doc run h
  rw [hrun]
  exact hstat

/-- C3 (amended): the Run's status is the fixed table applied to the trace
`status`; the four table entries map to themselves, any other present value
maps to "unknown", and an absent `status` field maps to "completed" (the code
defaults the lookup to "completed", not "unknown" as claimed). -/
theorem C3_status_mapping (fromIso : String → Option DateTime) (now : DateTime)
    (doc : List (String × Json)) (run : EnhancedAgentRun)
    (h : from_openai_trace_enhanced fromIso now doc = .ok run) :
    (dget? doc "status" = none → run.status = "completed") ∧
    (dget? doc "status" = some (.str "completed") → run.status = "completed") ∧
    (dget? doc "status" = some (.str "failed") → run.status = "failed") ∧
    (dget? doc "status" = some (.str "cancelled") → run.status = "cancelled") ∧
    (dget? doc "status" = some (.str "running") → run.status = "running") ∧
    (∀ v, dget? doc "status" = some v → v ≠ .str "completed" →
      v ≠ .str "failed" → v ≠ .str "cancelled" → v ≠ .str "running" →
      run.status = "unknown") := by
  have hs := run_status_eq fromIso now doc run h
  refine ⟨?_, ?_, ?_, ?_, ?_, ?_⟩
  · intro h0; unfold dgetD at hs; rw [h0] at hs; exact (Except.ok.inj hs).symm
  · intro h0; unfold dgetD at hs; rw [h0] at hs; exact (Except.ok.inj hs).symm
  · intro h0; unfold dgetD at hs; rw [h0] at hs; exact (Except.ok.inj hs).symm
  · intro h0; unfold dgetD at hs; rw [h0] at hs; exact (Except.ok.inj hs).symm
  · intro h0; unfold dgetD at hs; rw [h0] at hs; exact (Except.ok.inj hs).symm
  · intro v h0 h1 h2 h3 h4
    unfold dgetD at hs
    rw [h0] at hs
    simp only [Option.getD_some] at hs
    unfold mapStatus at hs
    cases hv : pyHashable v with
    | false =>
      rw [hv] at hs
      simp only [Bool.false_eq_true, reduceIte] at hs
      cases hs
    | true =>
      rw [hv] at hs
      simp only [reduceIte] at hs
      simp only [jeqStr_false_of_ne v _ h1, jeqStr_false_of_ne v _ h2,
        jeqStr_false_of_ne v _ h3, jeqStr_false_of_ne v _ h4,
        Bool.false_eq_true, reduceIte] at hs
      exact (Except.ok.inj hs).symm

/-- C3 counterexample: a document with no `status` field converts to a Run
with status "completed", where the claim demands "unknown". -/
theorem C3_counterexample :
    from_openai_trace_enhanced testIso (dtv 0) c3doc = .ok c3run ∧
    c3run.status = "completed" ∧ "completed" ≠ "unknown" := by
  refine ⟨rfl, rfl, by decide⟩

/-- C3 witness: the amended claim at concrete inputs: "paused" maps to
"unknown", an absent status to "completed". -/
theorem C3_witness : c3runPaused.status = "unknown" ∧ c3run.status = "completed" := by
  constructor
  · exact (C3_status_mapping testIso (dtv 0) c3docPaused c3runPaused rfl).2.2.2.2.2
      (.str "paused") rfl (by simp) (by simp) (by simp) (by simp)
  · exact (C3_status_mapping testIso (dtv 0) c3doc c3run rfl).1 rfl

/-! ### C5: aggregate counts -/

theorem countWhereTypeIn_spec (l : List Json) (tags : List String) (n : Nat)
    (h : countWhereTypeIn l tags = .ok n) : n = l.countP (typeMatches tags) := by
  induction l generalizing n with
  | nil =>
    rw [countWhereTypeIn] at h
    cases h
    rfl
  | cons s rest ih =>
    rw [countWhereTypeIn] at h
    cases s with
    | obj fs =>
      rw [show pyGet (.obj fs) "type" = .ok (dget? fs "type") from rfl, ok_bind] at h
      cases hr : countWhereTypeIn rest tags with
      | error e => rw [hr, err_bind] at h; cases h
      | ok m =>
        rw [hr, ok_bind] at h
        cases h
        rw [List.countP_cons, ih m hr]
        simp [typeMatches]
    | null => rw [show pyGet Json.null "type" = .error "AttributeError: object has no attribute get" from rfl, err_bind] at h; cases h
    | bool b => rw [show pyGet (Json.bool b) "type" = .error "AttributeError: object has no attribute get" from rfl, err_bind] at h; cases h
    | int m => rw [show pyGet (Json.int m) "type" = .error "AttributeError: object has no attribute get" from rfl, err_bind] at h; cases h
    | num q => rw [show pyGet (Json.num q) "type" = .error "AttributeError: object has no attribute get" from rfl, err_bind] at h; cases h
    | str u => rw [show pyGet (Json.str u) "type" = .error "AttributeError: object has no attribute get" from rfl, err_bind] at h; cases h
    | time d => rw [show pyGet (Json.time d) "type" = .error "AttributeError: object has no attribute get" from rfl, err_bind] at h; cases h
    | arr items => rw [show pyGet (Json.arr items) "type" = .error "AttributeError: object has no attribute get" from rfl, err_bind] at h; cases h

/-- C5: the three aggregate counters are the counts over the raw step list:
steps with type "message" or "tool" for observations, "tool" for actions,
"message" for messages. -/
theorem C5_aggregate_counts (fromIso : String → Option DateTime)
    (now : DateTime) (doc : List (String × Json)) (run : EnhancedAgentRun)
    (steps : List Json)
    (h : from_openai_trace_enhanced fromIso now doc = .ok run)
    (hsteps : stepsIter (dgetD doc "steps" (.arr [])) = .ok steps) :
    run.total_observations = (steps.countP (typeMatches ["message", "tool"]) : Int) ∧
    run.total_actions = (steps.countP (typeMatches ["tool"]) : Int) ∧
    run.total_messages = (steps.countP (typeMatches ["message"]) : Int) := by
  obtain ⟨agent, initial, runId, st, et, statusStr, steps2, parsed, obs, act, msg,
    _, _, _, _, _, _, hst2, _, hobs, hact, hmsg, hrun⟩ :=
    convert_ok_spec fromIso now doc run h
  rw [hst2] at hsteps
  cases hsteps
  rw [hrun]
  refine ⟨?_, ?_, ?_⟩ <;>
    simp only [countWhereTypeIn_spec _ _ _ hobs, countWhereTypeIn_spec _ _ _ hact,
      countWhereTypeIn_spec _ _ _ hmsg]

/-- C5 witness: the 2-messages + 1-tool document yields
total_messages = 2, total_actions = 1, total_observations = 3. -/
theorem C5_witness :
    c5run.total_observations = 3 ∧ c5run.total_actions = 1 ∧
    c5run.total_messages = 2 := by
  have h := C5_aggregate_counts testIso (dtv 0) c5doc c5run c5steps rfl rfl
  refine ⟨h.1.trans (by rfl), h.2.1.trans (by rfl), h.2.2.trans (by rfl)⟩

/-! ### C9: determinism -/

/-- C9: with the parse function and the current-time source fixed, the
connector is a pure function: two conversions of the identical document are
field-for-field equal (the embedded pipeline has no other input; the only
Python-side ambiguity, set iteration order, is never observed since
`tools_used` is only membership-tested). -/
theorem C9_determinism (fromIso : String → Option DateTime) (now : DateTime)
    (doc doc2 : List (String × Json)) (h : doc = doc2) :
    from_openai_trace_enhanced fromIso now doc =
      from_openai_trace_enhanced fromIso now doc2 := by
  rw [h]

/-- C9 witness: the two conversions of the sample document agree. -/
theorem C9_witness :
    from_openai_trace_enhanced testIso (dtv 0) c5doc =
      from_openai_trace_enhanced testIso (dtv 0) c5doc :=
  C9_determinism testIso (dtv 0) c5doc c5doc rfl


/-! ### C10: the connector never sets end_time or duration -/

theorem parseEnhancedStep_ok (fromIso : String → Option DateTime)
    (now : DateTime) (stepJ : Json) (idx : Nat) (agentId : String)
    (e : EnhancedAgentStep)
    (h : parseEnhancedStep fromIso now stepJ idx agentId = .ok e) :
    ∃ fs st idStr nameStr branch complete,
      pyFields stepJ = .ok fs ∧
      parseTime fromIso (dgetD fs "timestamp" .null) = .ok st ∧
      asStr (dgetD fs "id" (.str ("step-" ++ toString idx))) = .ok idStr ∧
      asStr (dgetD fs "type" (.str "unknown")) = .ok nameStr ∧
      parseStepLayers fromIso now fs agentId = .ok branch ∧
      createStepState fs agentId (st.getD now) = .ok complete ∧
      e = .mk ⟨idStr, nameStr, (idx : Int), none, st.getD now, none, none,
               branch.1, none, branch.2.1, some complete, branch.2.2.1, none,
               [("original_step", stepJ)], branch.2.2.2, []⟩ [] [] := by
  unfold parseEnhancedStep at h
  cases h1 : pyFields stepJ with
  | error e0 => rw [h1, err_bind] at h; cases h
  | ok fs =>
  rw [h1, ok_bind] at h
  cases h2 : parseTime fromIso (dgetD fs "timestamp" .null) with
  | error e0 => rw [h2, err_bind] at h; cases h
  | ok st =>
  rw [h2, ok_bind] at h
  cases h3 : asStr (dgetD fs "id" (.str ("step-" ++ toString idx))) with
  | error e0 => rw [h3, err_bind] at h; cases h
  | ok idStr =>
  rw [h3, ok_bind] at h
  cases h4 : asStr (dgetD fs "type" (.str "unknown")) with
  | error e0 => rw [h4, err_bind] at h; cases h
  | ok nameStr =>
  rw [h4, ok_bind] at h
  cases h5 : parseStepLayers fromIso now fs agentId with
  | error e0 => rw [h5, err_bind] at h; cases h
  | ok branch =>
  rw [h5, ok_bind] at h
  cases h6 : createStepState fs agentId (st.getD now) with
  | error e0 => rw [h6, err_bind] at h; cases h
  | ok complete =>
  rw [h6, ok_bind] at h
  refine ⟨fs, st, idStr, nameStr, branch, complete,
    ?_, ?_, ?_, ?_, ?_, ?_, ?_⟩ <;>
    first
      | rfl
      | exact h1
      | exact h2
      | exact h3
      | exact h4
      | exact h5
      | exact h6
      | (cases h; rfl)

theorem parseEnhancedStep_shape (fromIso : String → Option DateTime)
    (now : DateTime) (stepJ : Json) (idx : Nat) (agentId : String)
    (e : EnhancedAgentStep)
    (h : parseEnhancedStep fromIso now stepJ idx agentId = .ok e) :
    e.end_time = none ∧ e.duration = none ∧ e.sub_steps = [] := by
  obtain ⟨fs, st, idStr, nameStr, branch, complete, _, _, _, _, _, _, he⟩ :=
    parseEnhancedStep_ok fromIso now stepJ idx agentId e h
  rw [he]
  exact ⟨rfl, rfl, rfl⟩

theorem parseStepsLoop_shape (fromIso : String → Option DateTime)
    (now : DateTime) :
    ∀ (l : List Json) (idx : Nat) (agentId : String)
      (parsed : List EnhancedAgentStep),
      parseStepsLoop fromIso now l idx agentId = .ok parsed →
      ∀ e ∈ parsed, e.end_time = none ∧ e.duration = none ∧ e.sub_steps = [] := by
  intro l
  induction l with
  | nil =>
    intro idx agentId parsed h e he
    rw [parseStepsLoop] at h
    injection h with h0
    subst h0
    cases he
  | cons s rest ih =>
    intro idx agentId parsed h e he
    rw [parseStepsLoop] at h
    cases h1 : parseEnhancedStep fromIso now s idx agentId with
    | error e0 => rw [h1, err_bind] at h; cases h
    | ok e1 =>
    rw [h1, ok_bind] at h
    cases h2 : parseStepsLoop fromIso now rest (idx + 1) agentId with
    | error e0 => rw [h2, err_bind] at h; cases h
    | ok r =>
    rw [h2, ok_bind] at h
    injection h with h0
    subst h0
    rcases List.mem_cons.mp he with he | he
    · rw [he]
      exact parseEnhancedStep_shape fromIso now s idx agentId e1 h1
    · exact ih (idx + 1) agentId r h2 e he

theorem mem_insertByTime (a e : TimelineEvent) (l : List TimelineEvent) :
    a ∈ insertByTime e l ↔ a = e ∨ a ∈ l := by
  induction l with
  | nil => simp [insertByTime]
  | cons x xs ih =>
    rw [insertByTime]
    split
    · simp
    · simp only [List.mem_cons, ih]
      tauto

theorem mem_sortByTime (a : TimelineEvent) (l : List TimelineEvent) :
    a ∈ sortByTime l ↔ a ∈ l := by
  induction l with
  | nil => simp [sortByTime]
  | cons x xs ih => simp [sortByTime, mem_insertByTime, ih]

theorem extractEventsList_start_only (l : List EnhancedAgentStep)
    (hl : ∀ s ∈ l, s.end_time = none ∧ s.sub_steps = []) :
    ∀ depth, ∀ e ∈ EnhancedAgentStep.extractEventsList l depth,
      e.type = "step_start" := by
  induction l with
  | nil =>
    intro depth e he
    rw [EnhancedAgentStep.extractEventsList] at he
    cases he
  | cons s rest ih =>
    intro depth e he
    rw [EnhancedAgentStep.extractEventsList] at he
    rcases List.mem_append.mp he with he | he
    · obtain ⟨d, subs, ex⟩ := s
      have h1 : EnhancedAgentStepData.end_time d = none :=
        (hl (EnhancedAgentStep.mk d subs ex) (by simp)).1
      have h2 : subs = [] :=
        (hl (EnhancedAgentStep.mk d subs ex) (by simp)).2
      subst h2
      rw [EnhancedAgentStep.extractEvents] at he
      rw [h1] at he
      rw [EnhancedAgentStep.extractEventsList] at he
      simp at he
      rw [he]
    · exact ih (fun t ht => hl t (by simp [ht])) depth e he

theorem collectDurationsList_nil_of_flat (l : List EnhancedAgentStep)
    (hl : ∀ s ∈ l, s.duration = none ∧ s.sub_steps = []) :
    EnhancedAgentStep.collectDurationsList l = [] := by
  induction l with
  | nil => rw [EnhancedAgentStep.collectDurationsList]
  | cons s rest ih =>
    rw [EnhancedAgentStep.collectDurationsList]
    obtain ⟨d, subs, ex⟩ := s
    have h1 : EnhancedAgentStepData.duration d = none :=
      (hl (EnhancedAgentStep.mk d subs ex) (by simp)).1
    have h2 : subs = [] :=
      (hl (EnhancedAgentStep.mk d subs ex) (by simp)).2
    subst h2
    rw [EnhancedAgentStep.collectDurations, h1]
    simp only [List.isEmpty_nil, if_true, List.nil_append]
    exact ih (fun t ht => hl t (by simp [ht]))

/-- C10: every step of a connector-produced run has `end_time = None` and
`duration = None` (and no sub-steps); hence its timeline holds only
`step_start` events and `calculate_metrics` reports
`average_step_duration = 0`. -/
theorem C10_connector_steps (fromIso : String → Option DateTime)
    (now : DateTime) (doc : List (String × Json)) (run : EnhancedAgentRun)
    (h : from_openai_trace_enhanced fromIso now doc = .ok run) :
    (∀ s ∈ run.steps, s.end_time = none ∧ s.duration = none ∧ s.sub_steps = []) ∧
    (∀ e ∈ run.get_timeline, e.type = "step_start") ∧
    dictFind? run.calculate_metrics "average_step_duration" = some 0 := by
  obtain ⟨agent, initial, runId, st, et, statusStr, steps, parsed, obs, act, msg,
    _, _, _, _, _, _, _, hloop, _, _, _, hrun⟩ := convert_ok_spec fromIso now doc run h
  have hsteps : run.steps = parsed := by rw [hrun]
  have hshape := parseStepsLoop_shape fromIso now steps 0 agent.id parsed hloop
  refine ⟨?_, ?_, ?_⟩
  · intro s hs
    rw [hsteps] at hs
    exact hshape s hs
  · intro e he
    unfold EnhancedAgentRun.get_timeline at he
    rw [mem_sortByTime] at he
    refine extractEventsList_start_only run.steps ?_ 0 e he
    intro s hs
    rw [hsteps] at hs
    exact ⟨(hshape s hs).1, (hshape s hs).2.2⟩
  · have hpm : ∀ kv ∈ run.performance_metrics, kv.1 ≠ "average_step_duration" := by
      rw [hrun]
      intro kv hkv
      cases hkv
    rw [avg_key run hpm]
    rw [collectDurationsList_nil_of_flat run.steps ?_]
    · rfl
    · intro s hs
      rw [hsteps] at hs
      exact ⟨(hshape s hs).2.1, (hshape s hs).2.2⟩

/-- C10 witness: the sample conversion's metrics report a zero average. -/
theorem C10_witness :
    dictFind? c5run.calculate_metrics "average_step_duration" = some 0 :=
  (C10_connector_steps testIso (dtv 0) c5doc c5run rfl).2.2


/-! ### C8: message-step mapping -/

theorem createInteraction_ok (fromIso : String → Option DateTime)
    (now : DateTime) (stepFs : List (String × Json)) (agentId : String)
    (snap : InteractionSnapshot)
    (h : createInteractionSnapshotForMessage fromIso now stepFs agentId = .ok snap) :
    ∃ st msgId,
      parseTime fromIso (dgetD stepFs "timestamp" .null) = .ok st ∧
      asStr (dgetD stepFs "id" (.str "")) = .ok msgId ∧
      snap = ⟨st.getD now, [], [],
        [⟨msgId,
          (if oeqStr (dget? stepFs "role") "assistant" then .response else .request),
          (if oeqStr (dget? stepFs "role") "assistant" then agentId else "user"),
          (if oeqStr (dget? stepFs "role") "assistant" then "user" else agentId),
          "openai-api", dgetD stepFs "content" (.str ""), [], st.getD now,
          none, none, none, []⟩],
        [], [], 0, []⟩ := by
  unfold createInteractionSnapshotForMessage at h
  cases h1 : parseTime fromIso (dgetD stepFs "timestamp" .null) with
  | error e0 => rw [h1, err_bind] at h; cases h
  | ok st =>
  rw [h1, ok_bind] at h
  cases h2 : asStr (dgetD stepFs "id" (.str "")) with
  | error e0 => rw [h2, err_bind] at h; cases h
  | ok msgId =>
  rw [h2, ok_bind] at h
  refine ⟨st, msgId, rfl, rfl, ?_⟩
  cases h
  rfl

/-- C8 (amended): for any message step, the interaction snapshot holds exactly
one Message with interface id the literal "openai-api", content the step's
content (default ""), type response with sender the agent and recipient "user"
when role is "assistant", and type request with sender "user" and recipient
the agent otherwise; the §8.5 scenario document needs a parseable `started_at`
added (without one the conversion raises on the required Run start_time), and
then yields one step whose snapshot holds the request Message
("user" → agent "r1", content "hi"). -/
theorem C8_message_step :
    (∀ (fromIso : String → Option DateTime) (now : DateTime)
       (stepFs : List (String × Json)) (agentId : String)
       (snap : InteractionSnapshot),
       createInteractionSnapshotForMessage fromIso now stepFs agentId = .ok snap →
       ∃ st msgId,
         parseTime fromIso (dgetD stepFs "timestamp" .null) = .ok st ∧
         asStr (dgetD stepFs "id" (.str "")) = .ok msgId ∧
         snap = ⟨st.getD now, [], [],
           [⟨msgId,
             (if oeqStr (dget? stepFs "role") "assistant" then .response else .request),
             (if oeqStr (dget? stepFs "role") "assistant" then agentId else "user"),
             (if oeqStr (dget? stepFs "role") "assistant" then "user" else agentId),
             "openai-api", dgetD stepFs "content" (.str ""), [], st.getD now,
             none, none, none, []⟩],
           [], [], 0, []⟩) ∧
    from_openai_trace_enhanced testIso (dtv 0) c8docFixed = .ok c8run ∧
    c8run.agent.id = "r1" ∧
    c8run.steps.map (fun s => s.interaction_state.map
      (fun i => i.recent_messages)) = [some [c8msg]] ∧
    c8msg.type = .request ∧ c8msg.sender_id = "user" ∧
    c8msg.recipient_id = "r1" ∧ c8msg.content = .str "hi" ∧
    c8msg.interface_id = "openai-api" := by
  refine ⟨createInteraction_ok, by rfl, by rfl, by rfl, by rfl, by rfl,
    by rfl, by rfl, by rfl⟩

/-- C8 counterexample: the scenario document exactly as given (no
`started_at`) makes the connector raise instead of producing a Run. -/
theorem C8_counterexample :
    exIsError (from_openai_trace_enhanced testIso (dtv 0) c8doc) = true := rfl

/-- C8 witness: the general mapping applied to the concrete scenario step. -/
theorem C8_witness :
    createInteractionSnapshotForMessage testIso (dtv 0) c8stepFs "r1" = .ok c8snap ∧
    c8snap.recent_messages = [c8msg] := by
  obtain ⟨st, msgId, h1, h2, h3⟩ :=
    C8_message_step.1 testIso (dtv 0) c8stepFs "r1" c8snap (by rfl)
  have hst : st = some (dtv 1704067200) := by
    have h0 : parseTime testIso (dgetD c8stepFs "timestamp" Json.null) =
        Except.ok (some (dtv 1704067200)) := by rfl
    rw [h0] at h1
    exact (Except.ok.inj h1).symm
  have hm : msgId = "s1" := by
    have h0 : asStr (dgetD c8stepFs "id" (.str "")) = Except.ok "s1" := by rfl
    rw [h0] at h2
    exact (Except.ok.inj h2).symm
  subst hst
  subst hm
  refine ⟨by rfl, ?_⟩
  rw [h3]
  rfl


/-! ### C1: serializer round-trip -/

theorem createPerception_wf (fromIso : String → Option DateTime)
    (now : DateTime) (stepFs : List (String × Json)) (agentId : String)
    (snap : PerceptionSnapshot)
    (h : createPerceptionSnapshotForMessage fromIso now stepFs agentId = .ok snap) :
    snap.wf = true := by
  unfold createPerceptionSnapshotForMessage at h
  cases h1 : parseTime fromIso (dgetD stepFs "timestamp" .null) with
  | error e0 => rw [h1, err_bind] at h; cases h
  | ok st =>
  rw [h1, ok_bind] at h
  cases h
  rfl

theorem createInteraction_wf (fromIso : String → Option DateTime)
    (now : DateTime) (stepFs : List (String × Json)) (agentId : String)
    (snap : InteractionSnapshot)
    (h : createInteractionSnapshotForMessage fromIso now stepFs agentId = .ok snap) :
    snap.wf = true := by
  unfold createInteractionSnapshotForMessage at h
  cases h1 : parseTime fromIso (dgetD stepFs "timestamp" .null) with
  | error e0 => rw [h1, err_bind] at h; cases h
  | ok st =>
  rw [h1, ok_bind] at h
  cases h2 : asStr (dgetD stepFs "id" (.str "")) with
  | error e0 => rw [h2, err_bind] at h; cases h
  | ok msgId =>
  rw [h2, ok_bind] at h
  cases h
  rfl

theorem createAction_wf (fromIso : String → Option DateTime)
    (now : DateTime) (stepFs : List (String × Json)) (agentId : String)
    (snap : ActionSnapshot)
    (h : createActionSnapshotForTool fromIso now stepFs agentId = .ok snap) :
    snap.wf = true := by
  unfold createActionSnapshotForTool at h
  cases h1 : parseTime fromIso (dgetD stepFs "timestamp" .null) with
  | error e0 => rw [h1, err_bind] at h; cases h
  | ok st =>
  rw [h1, ok_bind] at h
  cases h2 : asStr (dgetD stepFs "tool_name" (.str "")) with
  | error e0 => rw [h2, err_bind] at h; cases h
  | ok toolName =>
  rw [h2, ok_bind] at h
  cases h3 : asStr (dgetD stepFs "id" (.str "")) with
  | error e0 => rw [h3, err_bind] at h; cases h
  | ok execId =>
  rw [h3, ok_bind] at h
  cases h4 : asDictAny (dgetD stepFs "input" (.obj [])) with
  | error e0 => rw [h4, err_bind] at h; cases h
  | ok inputParams =>
  rw [h4, ok_bind] at h
  cases h
  rfl

theorem createAgentInstance_wf (fromIso : String → Option DateTime)
    (now : DateTime) (doc : List (String × Json)) (a : AgentInstance)
    (h : createAgentInstance fromIso now doc = .ok a) :
    a.wf = true := by
  unfold createAgentInstance at h
  cases h1 : stepsIter (dgetD doc "steps" (.arr [])) with
  | error e0 => rw [h1, err_bind] at h; cases h
  | ok steps =>
  rw [h1, ok_bind] at h
  cases h2 : anyToolE steps with
  | error e0 => rw [h2, err_bind] at h; cases h
  | ok hasTool =>
  rw [h2, ok_bind] at h
  cases h3 : collectCaps steps [] [] with
  | error e0 => rw [h3, err_bind] at h; cases h
  | ok sc =>
  rw [h3, ok_bind] at h
  cases h4 : asStr (dgetD doc "agent_id" (dgetD doc "id" (.str "unknown"))) with
  | error e0 => rw [h4, err_bind] at h; cases h
  | ok idStr =>
  rw [h4, ok_bind] at h
  cases h5 : decOpt asStr (dgetD doc "model" (.str "gpt-4")) with
  | error e0 => rw [h5, err_bind] at h; cases h
  | ok model_id =>
  rw [h5, ok_bind] at h
  cases h6 : asDictAny (dgetD doc "config" (.obj [])) with
  | error e0 => rw [h6, err_bind] at h; cases h
  | ok parameters =>
  rw [h6, ok_bind] at h
  cases h7 : parseTime fromIso (dgetD doc "started_at" .null) with
  | error e0 => rw [h7, err_bind] at h; cases h
  | ok st =>
  rw [h7, ok_bind] at h
  cases h
  rfl

theorem createInitialState_wf (fromIso : String → Option DateTime)
    (now : DateTime) (agentId : String) (doc : List (String × Json))
    (s : CompleteState)
    (h : createInitialState fromIso now agentId doc = .ok s) :
    s.wf = true := by
  unfold createInitialState at h
  cases h1 : parseTime fromIso (dgetD doc "started_at" .null) with
  | error e0 => rw [h1, err_bind] at h; cases h
  | ok st =>
  rw [h1, ok_bind] at h
  cases h
  rfl

theorem createStepState_wf (stepFs : List (String × Json)) (agentId : String)
    (timestamp : DateTime) (s : CompleteState)
    (h : createStepState stepFs agentId timestamp = .ok s) :
    s.wf = true := by
  unfold createStepState at h
  cases h1 : asStr (dgetD stepFs "id" (.str "")) with
  | error e0 => rw [h1, err_bind] at h; cases h
  | ok active_task =>
  rw [h1, ok_bind] at h
  cases h2 : asStr (dgetD stepFs "type" (.str "")) with
  | error e0 => rw [h2, err_bind] at h; cases h
  | ok attention =>
  rw [h2, ok_bind] at h
  cases h
  rfl

theorem parseStepLayers_wf (fromIso : String → Option DateTime)
    (now : DateTime) (stepFs : List (String × Json)) (agentId : String)
    (b : Option PerceptionSnapshot × Option ActionSnapshot ×
      Option InteractionSnapshot × List (String × Json))
    (h : parseStepLayers fromIso now stepFs agentId = .ok b) :
    optWf PerceptionSnapshot.wf b.1 = true ∧
    optWf ActionSnapshot.wf b.2.1 = true ∧
    optWf InteractionSnapshot.wf b.2.2.1 = true := by
  unfold parseStepLayers at h
  cases hm : oeqStr (dget? stepFs "type") "message" with
  | true =>
    rw [hm] at h
    simp only [reduceIte] at h
    cases h1 : createPerceptionSnapshotForMessage fromIso now stepFs agentId with
    | error e0 => rw [h1, err_bind] at h; cases h
    | ok ps =>
    rw [h1, ok_bind] at h
    cases h2 : createInteractionSnapshotForMessage fromIso now stepFs agentId with
    | error e0 => rw [h2, err_bind] at h; cases h
    | ok is9 =>
    rw [h2, ok_bind] at h
    injection h with h0
    subst h0
    exact ⟨createPerception_wf fromIso now stepFs agentId ps h1, rfl,
           createInteraction_wf fromIso now stepFs agentId is9 h2⟩
  | false =>
    rw [hm] at h
    simp only [Bool.false_eq_true, reduceIte] at h
    cases ht : oeqStr (dget? stepFs "type") "tool" with
    | true =>
      rw [ht] at h
      simp only [reduceIte] at h
      cases h1 : createActionSnapshotForTool fromIso now stepFs agentId with
      | error e0 => rw [h1, err_bind] at h; cases h
      | ok as9 =>
      rw [h1, ok_bind] at h
      injection h with h0
      subst h0
      exact ⟨rfl, createAction_wf fromIso now stepFs agentId as9 h1, rfl⟩
    | false =>
      rw [ht] at h
      simp only [Bool.false_eq_true, reduceIte] at h
      injection h with h0
      subst h0
      exact ⟨rfl, rfl, rfl⟩

theorem parseEnhancedStep_wf (fromIso : String → Option DateTime)
    (now : DateTime) (stepJ : Json) (idx : Nat) (agentId : String)
    (e : EnhancedAgentStep)
    (h : parseEnhancedStep fromIso now stepJ idx agentId = .ok e) :
    e.wf = true := by
  obtain ⟨fs, st, idStr, nameStr, branch, complete, h1, h2, h3, h4, h5, h6, he⟩ :=
    parseEnhancedStep_ok fromIso now stepJ idx agentId e h
  obtain ⟨hb1, hb2, hb3⟩ := parseStepLayers_wf fromIso now fs agentId branch h5
  have hc := createStepState_wf fs agentId (st.getD now) complete h6
  rw [he]
  simp only [EnhancedAgentStep.wf, EnhancedAgentStep.wfList, Bool.and_eq_true]
  refine ⟨⟨⟨⟨⟨⟨⟨?_, hb1⟩, ?_⟩, hb2⟩, hc⟩, hb3⟩, ?_⟩, ?_⟩ <;> trivial

theorem parseStepsLoop_wf (fromIso : String → Option DateTime)
    (now : DateTime) :
    ∀ (l : List Json) (idx : Nat) (agentId : String)
      (parsed : List EnhancedAgentStep),
      parseStepsLoop fromIso now l idx agentId = .ok parsed →
      ∀ e ∈ parsed, e.wf = true := by
  intro l
  induction l with
  | nil =>
    intro idx agentId parsed h e he
    rw [parseStepsLoop] at h
    injection h with h0
    subst h0
    cases he
  | cons s rest ih =>
    intro idx agentId parsed h e he
    rw [parseStepsLoop] at h
    cases h1 : parseEnhancedStep fromIso now s idx agentId with
    | error e0 => rw [h1, err_bind] at h; cases h
    | ok e1 =>
    rw [h1, ok_bind] at h
    cases h2 : parseStepsLoop fromIso now rest (idx + 1) agentId with
    | error e0 => rw [h2, err_bind] at h; cases h
    | ok r =>
    rw [h2, ok_bind] at h
    injection h with h0
    subst h0
    rcases List.mem_cons.mp he with he | he
    · rw [he]
      exact parseEnhancedStep_wf fromIso now s idx agentId e1 h1
    · exact ih (idx + 1) agentId r h2 e he

theorem connector_run_wf (fromIso : String → Option DateTime)
    (now : DateTime) (doc : List (String × Json)) (run : EnhancedAgentRun)
    (h : from_openai_trace_enhanced fromIso now doc = .ok run) :
    run.wf = true := by
  obtain ⟨agent, initial, runId, st, et, statusStr, steps, parsed, obs, act, msg,
    h1, h2, _, _, _, _, _, h7, _, _, _, hrun⟩ := convert_ok_spec fromIso now doc run h
  have hall := parseStepsLoop_wf fromIso now steps 0 agent.id parsed h7
  have hagent := createAgentInstance_wf fromIso now doc agent h1
  have hinit := createInitialState_wf fromIso now agent.id doc initial h2
  have hfinal : optWf CompleteState.wf
      (match parsed.getLast? with
       | some last =>
         if last.complete_state.isSome then last.complete_state else none
       | none => none) = true := by
    cases hl : parsed.getLast? with
    | none => rfl
    | some last =>
      have hmem : last ∈ parsed := by
        obtain ⟨hne, heq⟩ := List.mem_getLast?_eq_getLast (Option.mem_def.mpr hl)
        rw [heq]
        exact List.getLast_mem hne
      have hw := hall last hmem
      obtain ⟨d, subs, ex⟩ := last
      simp only [EnhancedAgentStep.wf, Bool.and_eq_true] at hw
      have h5c : optWf CompleteState.wf d.complete_state = true := hw.1.1.1.2
      simp only [EnhancedAgentStep.complete_state, EnhancedAgentStep.data]
      cases hcs : d.complete_state with
      | none => rfl
      | some c =>
        rw [hcs] at h5c
        simpa using h5c
  rw [hrun]
  simp only [EnhancedAgentRun.wf, Bool.and_eq_true]
  refine ⟨⟨⟨⟨?_, hagent⟩, hinit⟩, hfinal⟩, ?_⟩
  · trivial
  · rw [EnhancedAgentStep.wfList_eq]
    exact List.all_eq_true.mpr hall

/-- C1: the serializer round-trip law. For every `EnhancedAgentRun` satisfying
the open-schema invariant `wf` (the §3 data-model invariants: no stored extra
key shadows a declared field, recursively through every nested model),
deserializing the serialized document yields the run back field-for-field,
nested sub-steps and unrecognized extra fields included; and every Run the
connector produces satisfies `wf`, so the law covers connector-produced runs. -/
theorem C1_roundtrip :
    (∀ (run : EnhancedAgentRun), run.wf = true →
       EnhancedAgentRun.fromJson run.toJson = .ok run) ∧
    (∀ (fromIso : String → Option DateTime) (now : DateTime)
       (doc : List (String × Json)) (run : EnhancedAgentRun),
       from_openai_trace_enhanced fromIso now doc = .ok run →
       run.wf = true ∧ EnhancedAgentRun.fromJson run.toJson = .ok run) :=
  ⟨fun run h => EnhancedAgentRun_roundtrip run h,
   fun fromIso now doc run h =>
     ⟨connector_run_wf fromIso now doc run h,
      EnhancedAgentRun_roundtrip run (connector_run_wf fromIso now doc run h)⟩⟩

/-- C1 witness: the round-trip law applied to the concrete connector output
of the sample trace document. -/
theorem C1_witness :
    from_openai_trace_enhanced testIso (dtv 0) c5doc = .ok c5run ∧
    c5run.wf = true ∧
    EnhancedAgentRun.fromJson c5run.toJson = .ok c5run :=
  ⟨rfl, C1_roundtrip.2 testIso (dtv 0) c5doc c5run rfl⟩


/-! ### C6: timeline ordering -/

theorem mem_insertLex (a p : TimelineEvent × Nat)
    (m : List (TimelineEvent × Nat)) :
    a ∈ insertLex p m ↔ a = p ∨ a ∈ m := by
  induction m with
  | nil => simp [insertLex]
  | cons q qs ih =>
    rw [insertLex]
    by_cases hc : p.1.timestamp.t < q.1.timestamp.t ∨
        (p.1.timestamp.t = q.1.timestamp.t ∧ p.2 ≤ q.2)
    · rw [if_pos hc]
      simp
    · rw [if_neg hc]
      simp only [List.mem_cons, ih]
      tauto

theorem mem_lexSort (a : TimelineEvent × Nat)
    (m : List (TimelineEvent × Nat)) :
    a ∈ lexSort m ↔ a ∈ m := by
  induction m with
  | nil => simp [lexSort]
  | cons q qs ih =>
    rw [lexSort]
    rw [mem_insertLex]
    simp [ih]

theorem indexFrom_idx_ge : ∀ (n : Nat) (l : List TimelineEvent),
    ∀ p ∈ indexFrom n l, n ≤ p.2
  | n, [] => by intro p hp; cases hp
  | n, x :: xs => by
    intro p hp
    rw [indexFrom] at hp
    rcases List.mem_cons.mp hp with hp | hp
    · rw [hp]
    · have := indexFrom_idx_ge (n + 1) xs p hp
      omega

theorem map_fst_insertLex (x : TimelineEvent) (n : Nat)
    (m : List (TimelineEvent × Nat)) (hm : ∀ p ∈ m, n < p.2) :
    (insertLex (x, n) m).map Prod.fst = insertByTime x (m.map Prod.fst) := by
  induction m with
  | nil => rfl
  | cons q qs ih =>
    have hq : n < q.2 := hm q (by simp)
    rw [insertLex]
    by_cases hle : x.timestamp.t ≤ q.1.timestamp.t
    · have hcond : (x, n).1.timestamp.t < q.1.timestamp.t ∨
          ((x, n).1.timestamp.t = q.1.timestamp.t ∧ (x, n).2 ≤ q.2) := by
        rcases lt_or_eq_of_le hle with h | h
        · exact Or.inl h
        · exact Or.inr ⟨h, Nat.le_of_lt hq⟩
      have hbool : DateTime.le x.timestamp q.1.timestamp = true := by
        simp only [DateTime.le, decide_eq_true_eq]
        exact hle
      rw [if_pos hcond]
      simp only [List.map_cons, insertByTime, hbool, if_true]
    · have hcond : ¬(x.timestamp.t < q.1.timestamp.t ∨
          (x.timestamp.t = q.1.timestamp.t ∧ n ≤ q.2)) := by
        intro hcon
        rcases hcon with hcon | ⟨hcon, _⟩ <;> exact hle (by omega)
      have hbool : DateTime.le x.timestamp q.1.timestamp = false := by
        simp only [DateTime.le, decide_eq_false_iff_not]
        exact hle
      rw [if_neg hcond]
      simp only [List.map_cons, insertByTime, hbool, Bool.false_eq_true, if_false]
      rw [ih (fun p hp => hm p (by simp [hp]))]

theorem sortByTime_eq_lexSort : ∀ (l : List TimelineEvent) (n : Nat),
    sortByTime l = (lexSort (indexFrom n l)).map Prod.fst
  | [], _ => rfl
  | x :: xs, n => by
    rw [sortByTime, indexFrom, lexSort]
    rw [sortByTime_eq_lexSort xs (n + 1)]
    refine (map_fst_insertLex x n (lexSort (indexFrom (n + 1) xs)) ?_).symm
    intro p hp
    have h1 : p ∈ indexFrom (n + 1) xs := (mem_lexSort p _).mp hp
    have h2 := indexFrom_idx_ge (n + 1) xs p h1
    omega

theorem pairwise_insertByTime (e : TimelineEvent) (l : List TimelineEvent)
    (h : l.Pairwise (fun a b => a.timestamp.t ≤ b.timestamp.t)) :
    (insertByTime e l).Pairwise (fun a b => a.timestamp.t ≤ b.timestamp.t) := by
  induction l with
  | nil => simp [insertByTime]
  | cons q qs ih =>
    rw [insertByTime]
    rcases List.pairwise_cons.mp h with ⟨hq, hqs⟩
    by_cases hle : DateTime.le e.timestamp q.timestamp = true
    · rw [if_pos hle]
      have he : e.timestamp.t ≤ q.timestamp.t := by
        simpa only [DateTime.le, decide_eq_true_eq] using hle
      refine List.pairwise_cons.mpr ⟨?_, h⟩
      intro b hb
      rcases List.mem_cons.mp hb with hb | hb
      · rw [hb]; exact he
      · exact le_trans he (hq b hb)
    · rw [if_neg hle]
      have hgt : q.timestamp.t ≤ e.timestamp.t := by
        simp only [DateTime.le, decide_eq_true_eq] at hle
        omega
      refine List.pairwise_cons.mpr ⟨?_, ih hqs⟩
      intro b hb
      rcases (mem_insertByTime b e qs).mp hb with hb | hb
      · rw [hb]; exact hgt
      · exact hq b hb

theorem sortByTime_pairwise (l : List TimelineEvent) :
    (sortByTime l).Pairwise (fun a b => a.timestamp.t ≤ b.timestamp.t) := by
  induction l with
  | nil => simp [sortByTime]
  | cons x xs ih =>
    rw [sortByTime]
    exact pairwise_insertByTime x (sortByTime xs) ih

theorem insertByTime_perm (e : TimelineEvent) (l : List TimelineEvent) :
    (insertByTime e l).Perm (e :: l) := by
  induction l with
  | nil => exact List.Perm.refl _
  | cons q qs ih =>
    rw [insertByTime]
    by_cases hle : DateTime.le e.timestamp q.timestamp = true
    · rw [if_pos hle]
    · rw [if_neg hle]
      exact List.Perm.trans (List.Perm.cons q ih) (List.Perm.swap e q qs)

theorem sortByTime_perm (l : List TimelineEvent) : (sortByTime l).Perm l := by
  induction l with
  | nil => exact List.Perm.refl _
  | cons x xs ih =>
    rw [sortByTime]
    exact List.Perm.trans (insertByTime_perm x (sortByTime xs))
      (List.Perm.cons x ih)

/-- C6: `get_timeline` is exactly the depth-first emission (per step a
`step_start` event at its start time and, when `end_time` is present, a
`step_end` event, each carrying the step id, name and depth with root depth 0)
sorted stably ascending by timestamp: it equals the emission sorted by the
lexicographic key (timestamp, emission index), it is pairwise ascending in
timestamp, and it is a permutation of the emission; the §8.5 scenario with
(start, end) times T0 < T1 < T2 < T3 yields
[start@T0, end@T1, start@T2, end@T3]. -/
theorem C6_timeline_ordering :
    (∀ (run : EnhancedAgentRun),
       run.get_timeline =
         (lexSort (indexFrom 0
           (EnhancedAgentStep.extractEventsList run.steps 0))).map Prod.fst ∧
       run.get_timeline.Pairwise
         (fun a b => a.timestamp.t ≤ b.timestamp.t) ∧
       run.get_timeline.Perm
         (EnhancedAgentStep.extractEventsList run.steps 0)) ∧
    c6run.get_timeline =
      [⟨dtv 0, "step_start", "s1", "step", 0⟩,
       ⟨dtv 1, "step_end", "s1", "step", 0⟩,
       ⟨dtv 2, "step_start", "s2", "step", 0⟩,
       ⟨dtv 3, "step_end", "s2", "step", 0⟩] := by
  refine ⟨?_, by rfl⟩
  intro run
  exact ⟨sortByTime_eq_lexSort (EnhancedAgentStep.extractEventsList run.steps 0) 0,
         sortByTime_pairwise (EnhancedAgentStep.extractEventsList run.steps 0),
         sortByTime_perm (EnhancedAgentStep.extractEventsList run.steps 0)⟩


/-! ### C4: the raises-iff error policy of the connector -/

theorem exIsError_asStr_dgetD (fs : List (String × Json)) (k d : String) :
    exIsError (asStr (dgetD fs k (.str d))) =
      (match dget? fs k with
       | some v => exIsError (asStr v)
       | none => false) := by
  unfold dgetD
  cases hx : dget? fs k with
  | none => rfl
  | some v => rfl

theorem oeqStr_ne (v : Option Json) (s t : String) (h : oeqStr v s = true)
    (hst : t ≠ s) : oeqStr v t = false := by
  cases v with
  | none => cases h
  | some u =>
    cases u
    case str x =>
      simp only [oeqStr, jeqStr, decide_eq_true_eq] at h
      simp only [oeqStr, jeqStr, decide_eq_false_iff_not]
      intro he
      exact hst (he ▸ h)
    all_goals simp [oeqStr, jeqStr] at h

theorem anyToolE_err (steps : List Json) (e : String)
    (h : anyToolE steps = .error e) : steps.any capFail = true := by
  induction steps with
  | nil => rw [anyToolE] at h; cases h
  | cons s rest ih =>
    rw [anyToolE] at h
    cases s
    case obj fs =>
      rw [show pyGet (.obj fs) "type" = .ok (dget? fs "type") from rfl,
        ok_bind] at h
      cases ht : oeqStr (dget? fs "type") "tool" with
      | true => rw [ht] at h; simp only [reduceIte] at h; cases h
      | false =>
        rw [ht] at h
        simp only [Bool.false_eq_true, reduceIte] at h
        simp [List.any_cons, ih h]
    all_goals simp [List.any_cons, capFail]

theorem collectCaps_err (steps : List Json) :
    ∀ (seen : List Json) (caps : List AgentCapability),
    exIsError (collectCaps steps seen caps) = steps.any capFail := by
  induction steps with
  | nil => intro seen caps; rfl
  | cons s rest ih =>
    intro seen caps
    rw [collectCaps]
    cases s
    case obj fs =>
      rw [show pyGet (.obj fs) "type" = .ok (dget? fs "type") from rfl, ok_bind]
      cases ht : oeqStr (dget? fs "type") "tool" with
      | true =>
        simp only [reduceIte]
        rw [show pyGetD (.obj fs) "tool_name" (.str "") =
          .ok (dgetD fs "tool_name" (.str "")) from rfl, ok_bind]
        cases htr : pyTruthy (dgetD fs "tool_name" (.str "")) with
        | true =>
          simp only [reduceIte]
          cases hh : pyHashable (dgetD fs "tool_name" (.str "")) with
          | true =>
            simp only [Bool.not_true, Bool.false_eq_true, reduceIte]
            cases hseen : seen.any (fun x => pyScalarEq x (dgetD fs "tool_name" (.str ""))) with
            | true =>
              simp only [reduceIte, ih]
              simp [List.any_cons, capFail, ht, htr, hh]
            | false =>
              simp only [Bool.false_eq_true, reduceIte, ih]
              simp [List.any_cons, capFail, ht, htr, hh]
          | false =>
            simp only [Bool.not_false, reduceIte]
            simp [List.any_cons, capFail, ht, htr, hh, exIsError]
        | false =>
          simp only [Bool.false_eq_true, reduceIte, ih]
          simp [List.any_cons, capFail, ht, htr]
      | false =>
        simp only [Bool.false_eq_true, reduceIte, ih]
        simp [List.any_cons, capFail, ht]
    all_goals simp [List.any_cons, capFail, pyGet, err_bind, exIsError]

theorem createAgentInstance_err (fromIso : String → Option DateTime)
    (now : DateTime) (doc : List (String × Json)) (steps : List Json)
    (hs : stepsIter (dgetD doc "steps" (.arr [])) = .ok steps) :
    exIsError (createAgentInstance fromIso now doc) =
      (steps.any capFail ||
       exIsError (asStr (dgetD doc "agent_id" (dgetD doc "id" (.str "unknown")))) ||
       exIsError (decOpt asStr (dgetD doc "model" (.str "gpt-4"))) ||
       exIsError (asDictAny (dgetD doc "config" (.obj []))) ||
       exIsError (parseTime fromIso (dgetD doc "started_at" .null))) := by
  unfold createAgentInstance
  rw [hs, ok_bind]
  cases h2 : anyToolE steps with
  | error e =>
    rw [err_bind, anyToolE_err steps e h2]
    rfl
  | ok hasTool =>
  rw [ok_bind]
  cases h3 : collectCaps steps [] [] with
  | error e =>
    rw [err_bind]
    have hany : steps.any capFail = true := by
      rw [← collectCaps_err steps [] [], h3]; rfl
    rw [hany]
    rfl
  | ok sc =>
  rw [ok_bind]
  have hany : steps.any capFail = false := by
    rw [← collectCaps_err steps [] [], h3]; rfl
  rw [hany]
  simp only [Bool.false_or]
  cases h4 : asStr (dgetD doc "agent_id" (dgetD doc "id" (.str "unknown"))) with
  | error e => rw [err_bind]; rfl
  | ok idStr =>
  rw [ok_bind]
  cases h5 : decOpt asStr (dgetD doc "model" (.str "gpt-4")) with
  | error e => rw [err_bind]; rfl
  | ok model_id =>
  rw [ok_bind]
  cases h6 : asDictAny (dgetD doc "config" (.obj [])) with
  | error e => rw [err_bind]; rfl
  | ok parameters =>
  rw [ok_bind]
  cases h7 : parseTime fromIso (dgetD doc "started_at" .null) with
  | error e => rw [err_bind]; rfl
  | ok st => rw [ok_bind]; rfl

theorem createInitialState_err (fromIso : String → Option DateTime)
    (now : DateTime) (agentId : String) (doc : List (String × Json)) :
    exIsError (createInitialState fromIso now agentId doc) =
      exIsError (parseTime fromIso (dgetD doc "started_at" .null)) := by
  unfold createInitialState
  cases h1 : parseTime fromIso (dgetD doc "started_at" .null) with
  | error e => rw [err_bind]; rfl
  | ok st => rw [ok_bind]; rfl

theorem createPerception_err (fromIso : String → Option DateTime)
    (now : DateTime) (stepFs : List (String × Json)) (agentId : String) :
    exIsError (createPerceptionSnapshotForMessage fromIso now stepFs agentId) =
      exIsError (parseTime fromIso (dgetD stepFs "timestamp" .null)) := by
  unfold createPerceptionSnapshotForMessage
  cases h1 : parseTime fromIso (dgetD stepFs "timestamp" .null) with
  | error e => rw [err_bind]; rfl
  | ok st => rw [ok_bind]; rfl

theorem createInteraction_err (fromIso : String → Option DateTime)
    (now : DateTime) (stepFs : List (String × Json)) (agentId : String) :
    exIsError (createInteractionSnapshotForMessage fromIso now stepFs agentId) =
      (exIsError (parseTime fromIso (dgetD stepFs "timestamp" .null)) ||
       exIsError (asStr (dgetD stepFs "id" (.str "")))) := by
  unfold createInteractionSnapshotForMessage
  cases h1 : parseTime fromIso (dgetD stepFs "timestamp" .null) with
  | error e => rw [err_bind]; rfl
  | ok st =>
  rw [ok_bind]
  cases h2 : asStr (dgetD stepFs "id" (.str "")) with
  | error e => rw [err_bind]; rfl
  | ok msgId => rw [ok_bind]; rfl

theorem createAction_err (fromIso : String → Option DateTime)
    (now : DateTime) (stepFs : List (String × Json)) (agentId : String) :
    exIsError (createActionSnapshotForTool fromIso now stepFs agentId) =
      (exIsError (parseTime fromIso (dgetD stepFs "timestamp" .null)) ||
       exIsError (asStr (dgetD stepFs "tool_name" (.str ""))) ||
       exIsError (asStr (dgetD stepFs "id" (.str ""))) ||
       exIsError (asDictAny (dgetD stepFs "input" (.obj [])))) := by
  unfold createActionSnapshotForTool
  cases h1 : parseTime fromIso (dgetD stepFs "timestamp" .null) with
  | error e => rw [err_bind]; rfl
  | ok st =>
  rw [ok_bind]
  cases h2 : asStr (dgetD stepFs "tool_name" (.str "")) with
  | error e => rw [err_bind]; rfl
  | ok toolName =>
  rw [ok_bind]
  cases h3 : asStr (dgetD stepFs "id" (.str "")) with
  | error e => rw [err_bind]; rfl
  | ok execId =>
  rw [ok_bind]
  cases h4 : asDictAny (dgetD stepFs "input" (.obj [])) with
  | error e => rw [err_bind]; rfl
  | ok inputParams => rw [ok_bind]; rfl

theorem createStepState_err (stepFs : List (String × Json)) (agentId : String)
    (timestamp : DateTime) :
    exIsError (createStepState stepFs agentId timestamp) =
      (exIsError (asStr (dgetD stepFs "id" (.str ""))) ||
       exIsError (asStr (dgetD stepFs "type" (.str "")))) := by
  unfold createStepState
  cases h1 : asStr (dgetD stepFs "id" (.str "")) with
  | error e => rw [err_bind]; rfl
  | ok active_task =>
  rw [ok_bind]
  cases h2 : asStr (dgetD stepFs "type" (.str "")) with
  | error e => rw [err_bind]; rfl
  | ok attention => rw [ok_bind]; rfl

theorem parseStepLayers_err (fromIso : String → Option DateTime)
    (now : DateTime) (fs : List (String × Json)) (agentId : String)
    (st : Option DateTime)
    (hts : parseTime fromIso (dgetD fs "timestamp" .null) = .ok st)
    (hid : exIsError (asStr (dgetD fs "id" (.str ""))) = false) :
    exIsError (parseStepLayers fromIso now fs agentId) =
      (oeqStr (dget? fs "type") "tool" &&
       (exIsError (asStr (dgetD fs "tool_name" (.str ""))) ||
        exIsError (asDictAny (dgetD fs "input" (.obj []))))) := by
  unfold parseStepLayers
  cases hm : oeqStr (dget? fs "type") "message" with
  | true =>
    simp only [reduceIte]
    have htool : oeqStr (dget? fs "type") "tool" = false :=
      oeqStr_ne (dget? fs "type") "message" "tool" hm (by decide)
    rw [htool]
    simp only [Bool.false_and]
    cases hp : createPerceptionSnapshotForMessage fromIso now fs agentId with
    | error e =>
      have hpe := createPerception_err fromIso now fs agentId
      rw [hp, hts] at hpe
      simp [exIsError] at hpe
    | ok ps =>
    rw [ok_bind]
    cases hi : createInteractionSnapshotForMessage fromIso now fs agentId with
    | error e =>
      have hie := createInteraction_err fromIso now fs agentId
      rw [hi, hts, hid] at hie
      simp [exIsError] at hie
    | ok is9 => rw [ok_bind]; rfl
  | false =>
    simp only [Bool.false_eq_true, reduceIte]
    cases ht : oeqStr (dget? fs "type") "tool" with
    | true =>
      simp only [reduceIte, Bool.true_and]
      have hae := createAction_err fromIso now fs agentId
      rw [hts, hid] at hae
      cases ha : createActionSnapshotForTool fromIso now fs agentId with
      | error e =>
        rw [ha] at hae
        rw [err_bind]
        simp only [exIsError] at hae ⊢
        simp only [Bool.false_or, Bool.or_false] at hae
        exact hae
      | ok as9 =>
        rw [ha] at hae
        rw [ok_bind]
        simp only [exIsError] at hae ⊢
        simp only [Bool.false_or, Bool.or_false] at hae
        exact hae
    | false =>
      simp only [Bool.false_eq_true, reduceIte, Bool.false_and]
      rfl

theorem parseEnhancedStep_err (fromIso : String → Option DateTime)
    (now : DateTime) (stepJ : Json) (idx : Nat) (agentId : String) :
    exIsError (parseEnhancedStep fromIso now stepJ idx agentId) =
      stepParseFail fromIso stepJ := by
  unfold parseEnhancedStep
  cases stepJ
  case obj fs =>
    rw [show pyFields (.obj fs) = .ok fs from rfl, ok_bind]
    simp only [stepParseFail]
    cases h2 : parseTime fromIso (dgetD fs "timestamp" .null) with
    | error e =>
      rw [err_bind]
      rfl
    | ok st =>
    rw [ok_bind,
      show exIsError (Except.ok st : Except String (Option DateTime)) = false
        from rfl]
    simp only [Bool.false_or]
    cases h3 : asStr (dgetD fs "id" (.str ("step-" ++ toString idx))) with
    | error e =>
      have hm : (match dget? fs "id" with
          | some v => exIsError (asStr v)
          | none => false) = true := by
        rw [← exIsError_asStr_dgetD fs "id" ("step-" ++ toString idx), h3]; rfl
      rw [err_bind, hm]
      rfl
    | ok idStr =>
    have hidm : (match dget? fs "id" with
        | some v => exIsError (asStr v)
        | none => false) = false := by
      rw [← exIsError_asStr_dgetD fs "id" ("step-" ++ toString idx), h3]; rfl
    have hid : exIsError (asStr (dgetD fs "id" (.str ""))) = false := by
      rw [exIsError_asStr_dgetD]; exact hidm
    rw [ok_bind, hidm]
    simp only [Bool.false_or]
    cases h4 : asStr (dgetD fs "type" (.str "unknown")) with
    | error e =>
      have hm : (match dget? fs "type" with
          | some v => exIsError (asStr v)
          | none => false) = true := by
        rw [← exIsError_asStr_dgetD fs "type" "unknown", h4]; rfl
      rw [err_bind, hm]
      rfl
    | ok nameStr =>
    have htym : (match dget? fs "type" with
        | some v => exIsError (asStr v)
        | none => false) = false := by
      rw [← exIsError_asStr_dgetD fs "type" "unknown", h4]; rfl
    have hty : exIsError (asStr (dgetD fs "type" (.str ""))) = false := by
      rw [exIsError_asStr_dgetD]; exact htym
    rw [ok_bind, htym]
    simp only [Bool.false_or]
    have hbr := parseStepLayers_err fromIso now fs agentId st h2 hid
    cases h5 : parseStepLayers fromIso now fs agentId with
    | error e =>
      rw [h5] at hbr
      rw [err_bind]
      exact hbr
    | ok branch =>
    rw [h5] at hbr
    rw [ok_bind]
    have hss := createStepState_err fs agentId (st.getD now)
    rw [hid, hty] at hss
    cases h6 : createStepState fs agentId (st.getD now) with
    | error e =>
      rw [h6] at hss
      simp [exIsError] at hss
    | ok complete =>
      rw [ok_bind]
      exact hbr
  all_goals simp [pyFields, err_bind, stepParseFail, exIsError]

theorem parseStepsLoop_err (fromIso : String → Option DateTime)
    (now : DateTime) :
    ∀ (l : List Json) (idx : Nat) (agentId : String),
      exIsError (parseStepsLoop fromIso now l idx agentId) =
        l.any (stepParseFail fromIso) := by
  intro l
  induction l with
  | nil => intro idx agentId; rfl
  | cons s rest ih =>
    intro idx agentId
    rw [parseStepsLoop]
    have h1e := parseEnhancedStep_err fromIso now s idx agentId
    cases h1 : parseEnhancedStep fromIso now s idx agentId with
    | error e =>
      rw [h1] at h1e
      rw [err_bind]
      simp only [exIsError] at h1e
      simp [List.any_cons, ← h1e, exIsError]
    | ok e1 =>
      rw [h1] at h1e
      rw [ok_bind]
      simp only [exIsError] at h1e
      have h2e := ih (idx + 1) agentId
      cases h2 : parseStepsLoop fromIso now rest (idx + 1) agentId with
      | error e0 =>
        rw [h2] at h2e
        rw [err_bind]
        simp only [exIsError] at h2e
        simp [List.any_cons, ← h1e, ← h2e, exIsError]
      | ok r =>
        rw [h2] at h2e
        rw [ok_bind]
        simp only [exIsError] at h2e
        simp [List.any_cons, ← h1e, ← h2e, exIsError]

theorem countWhereTypeIn_ok (fromIso : String → Option DateTime) :
    ∀ (l : List Json) (tags : List String),
      l.any (stepParseFail fromIso) = false →
      exIsError (countWhereTypeIn l tags) = false := by
  intro l
  induction l with
  | nil => intro tags h; rfl
  | cons s rest ih =>
    intro tags h
    simp only [List.any_cons, Bool.or_eq_false_iff] at h
    rw [countWhereTypeIn]
    cases s
    case obj fs =>
      rw [show pyGet (.obj fs) "type" = .ok (dget? fs "type") from rfl, ok_bind]
      have hr := ih tags h.2
      cases h2 : countWhereTypeIn rest tags with
      | error e =>
        rw [h2] at hr
        simp [exIsError] at hr
      | ok n => rw [ok_bind]; rfl
    all_goals simp [stepParseFail] at h

theorem mapStatus_err (v : Json) :
    exIsError (mapStatus v) = !pyHashable v := by
  unfold mapStatus
  cases hv : pyHashable v with
  | true => rfl
  | false => rfl

theorem connectorFails_err (fromIso : String → Option DateTime)
    (doc : List (String × Json)) (e : String)
    (hs : stepsIter (dgetD doc "steps" (.arr [])) = .error e) :
    connectorFails fromIso doc = true := by
  unfold connectorFails
  rw [hs]

theorem connectorFails_ok (fromIso : String → Option DateTime)
    (doc : List (String × Json)) (steps : List Json)
    (hs : stepsIter (dgetD doc "steps" (.arr [])) = .ok steps) :
    connectorFails fromIso doc =
      (steps.any (fun s => stepParseFail fromIso s || capFail s) ||
       exIsError (asStr (dgetD doc "agent_id" (dgetD doc "id" (.str "unknown")))) ||
       exIsError (decOpt asStr (dgetD doc "model" (.str "gpt-4"))) ||
       exIsError (asDictAny (dgetD doc "config" (.obj []))) ||
       exIsError (parseTime fromIso (dgetD doc "started_at" .null)) ||
       exIsError (asStr (dgetD doc "id" (.str ""))) ||
       startedAtNone fromIso doc ||
       exIsError (parseTime fromIso (dgetD doc "ended_at" .null)) ||
       !pyHashable (dgetD doc "status" (.str "completed"))) := by
  unfold connectorFails
  rw [hs]

theorem convert_err_spec (fromIso : String → Option DateTime) (now : DateTime)
    (doc : List (String × Json)) :
    exIsError (from_openai_trace_enhanced fromIso now doc) =
      connectorFails fromIso doc := by
  unfold from_openai_trace_enhanced
  cases h1 : stepsIter (dgetD doc "steps" (.arr [])) with
  | error e0 =>
    rw [connectorFails_err fromIso doc e0 h1]
    have hca : exIsError (createAgentInstance fromIso now doc) = true := by
      unfold createAgentInstance
      rw [h1, err_bind]
      rfl
    cases hca2 : createAgentInstance fromIso now doc with
    | error e2 => rw [err_bind]; rfl
    | ok a =>
      rw [hca2] at hca
      simp [exIsError] at hca
  | ok steps =>
    rw [connectorFails_ok fromIso doc steps h1]
    have hcaE := createAgentInstance_err fromIso now doc steps h1
    cases hca : createAgentInstance fromIso now doc with
    | error e2 =>
      rw [err_bind,
        show exIsError (Except.error e2 : Except String EnhancedAgentRun) = true
          from rfl]
      rw [hca,
        show exIsError (Except.error e2 : Except String AgentInstance) = true
          from rfl] at hcaE
      have h5d := hcaE.symm
      simp only [Bool.or_eq_true] at h5d
      rcases h5d with (((ha | hb) | hc) | hd) | he
      · have : steps.any (fun s => stepParseFail fromIso s || capFail s) = true := by
          rcases List.any_eq_true.mp ha with ⟨x, hmem, hcap⟩
          refine List.any_eq_true.mpr ⟨x, hmem, ?_⟩
          rw [hcap]
          simp
        simp [this]
      · simp [hb]
      · simp [hc]
      · simp [hd]
      · simp [he]
    | ok agent =>
    rw [ok_bind]
    rw [hca, show exIsError (Except.ok agent) = false from rfl] at hcaE
    have h5d := hcaE.symm
    simp only [Bool.or_eq_false_iff] at h5d
    obtain ⟨⟨⟨⟨hanyCap, hAg⟩, hMo⟩, hCo⟩, hSt⟩ := h5d
    cases hcs : createInitialState fromIso now agent.id doc with
    | error e2 =>
      rw [err_bind]
      have hcse := createInitialState_err fromIso now agent.id doc
      rw [hcs, hSt] at hcse
      simp [exIsError] at hcse
    | ok initial =>
    rw [ok_bind]
    cases hid : asStr (dgetD doc "id" (.str "")) with
    | error e2 =>
      rw [err_bind]
      simp [hid, exIsError]
    | ok runId =>
    rw [ok_bind]
    cases hst : parseTime fromIso (dgetD doc "started_at" .null) with
    | error e2 =>
      rw [err_bind]
      simp [hst, exIsError]
    | ok stOpt =>
    rw [ok_bind]
    cases stOpt with
    | none =>
      rw [err_bind]
      have hsa : startedAtNone fromIso doc = true := by
        unfold startedAtNone
        rw [hst]
      simp [hsa, exIsError]
    | some t =>
    rw [ok_bind]
    have hsa : startedAtNone fromIso doc = false := by
      unfold startedAtNone
      rw [hst]
    cases het : parseTime fromIso (dgetD doc "ended_at" .null) with
    | error e2 =>
      rw [err_bind]
      simp [het, exIsError]
    | ok et =>
    rw [ok_bind]
    have hmsE := mapStatus_err (dgetD doc "status" (.str "completed"))
    cases hms : mapStatus (dgetD doc "status" (.str "completed")) with
    | error e2 =>
      rw [err_bind]
      have h9 : (!pyHashable (dgetD doc "status" (.str "completed"))) = true := by
        rw [← hmsE, hms]; rfl
      simp [h9, exIsError]
    | ok statusStr =>
    rw [ok_bind, ok_bind]
    have h9 : (!pyHashable (dgetD doc "status" (.str "completed"))) = false := by
      rw [← hmsE, hms]; rfl
    have hloopE := parseStepsLoop_err fromIso now steps 0 agent.id
    cases hloop : parseStepsLoop fromIso now steps 0 agent.id with
    | error e2 =>
      rw [err_bind]
      rw [hloop] at hloopE
      have hsp : steps.any (stepParseFail fromIso) = true := by
        rw [← hloopE]; rfl
      have hone : steps.any (fun s => stepParseFail fromIso s || capFail s) = true := by
        rcases List.any_eq_true.mp hsp with ⟨x, hmem, hx⟩
        refine List.any_eq_true.mpr ⟨x, hmem, ?_⟩
        rw [hx]
        simp
      simp [hone, exIsError]
    | ok parsed =>
    rw [ok_bind]
    rw [hloop] at hloopE
    have hsp : steps.any (stepParseFail fromIso) = false := by
      rw [← hloopE]; rfl
    have hcnt1 := countWhereTypeIn_ok fromIso steps ["message", "tool"] hsp
    cases hc1 : countWhereTypeIn steps ["message", "tool"] with
    | error e2 =>
      rw [hc1] at hcnt1
      simp [exIsError] at hcnt1
    | ok obs =>
    rw [ok_bind]
    have hcnt2 := countWhereTypeIn_ok fromIso steps ["tool"] hsp
    cases hc2 : countWhereTypeIn steps ["tool"] with
    | error e2 =>
      rw [hc2] at hcnt2
      simp [exIsError] at hcnt2
    | ok act =>
    rw [ok_bind]
    have hcnt3 := countWhereTypeIn_ok fromIso steps ["message"] hsp
    cases hc3 : countWhereTypeIn steps ["message"] with
    | error e2 =>
      rw [hc3] at hcnt3
      simp [exIsError] at hcnt3
    | ok msg =>
    rw [ok_bind]
    have hboth : steps.any (fun s => stepParseFail fromIso s || capFail s) = false := by
      cases hB : steps.any (fun s => stepParseFail fromIso s || capFail s) with
      | false => rfl
      | true =>
        rcases List.any_eq_true.mp hB with ⟨x, hmem, hor⟩
        simp only [Bool.or_eq_true] at hor
        rcases hor with hx | hx
        · have hcon : steps.any (stepParseFail fromIso) = true :=
            List.any_eq_true.mpr ⟨x, hmem, hx⟩
          rw [hsp] at hcon
          simp at hcon
        · have hcon : steps.any capFail = true :=
            List.any_eq_true.mpr ⟨x, hmem, hx⟩
          rw [hanyCap] at hcon
          simp at hcon
    rw [hboth, hAg, hMo, hCo, hsa, h9]
    rfl

/-- C4 (amended): the connector raises exactly when `connectorFails` holds: an
unparseable (after Z-normalization) `started_at`, `ended_at` or step
`timestamp` string is one cause, but the connector also raises on a missing or
null `started_at` (the Run's required `start_time` rejects None), a
non-iterable `steps` value, a non-dict step entry, a non-string-coercible
`id`, `agent_id`, `model`, step `id`, step `type` or `tool_name`, a non-dict
`config` or tool `input`, an unhashable truthy `tool_name`, and an unhashable
(list/dict) trace `status` (`status_map.get` hashes its key). An absent or
null `ended_at` is not an error and leaves the Run's `end_time` null. -/
theorem C4_error_policy :
    (∀ (fromIso : String → Option DateTime) (now : DateTime)
       (doc : List (String × Json)),
       exIsError (from_openai_trace_enhanced fromIso now doc) =
         connectorFails fromIso doc) ∧
    (∀ (fromIso : String → Option DateTime) (now : DateTime)
       (doc : List (String × Json)) (run : EnhancedAgentRun),
       from_openai_trace_enhanced fromIso now doc = .ok run →
       dgetD doc "ended_at" .null = .null →
       run.end_time = none) := by
  constructor
  · exact convert_err_spec
  · intro fromIso now doc run h hnull
    obtain ⟨agent, initial, runId, st, et, statusStr, steps, parsed, obs, act, msg,
      _, _, _, _, h5, _, _, _, _, _, _, hrun⟩ := convert_ok_spec fromIso now doc run h
    rw [hnull] at h5
    have het : et = none := by
      rw [show parseTime fromIso Json.null =
        Except.ok (none : Option DateTime) from rfl] at h5
      exact (Except.ok.inj h5).symm
    rw [hrun]
    exact het

/-- C4 counterexample: the empty trace document holds no timestamp string at
all (so nothing is malformed), yet the connector raises — `started_at` is
absent, and the Run model rejects the resulting None `start_time`. Likewise a
document with a valid `started_at` and `status: []` has no malformed
timestamp, yet raises — `status_map.get` cannot hash the list. -/
theorem C4_counterexample :
    exIsError (from_openai_trace_enhanced testIso (dtv 0)
      ([] : List (String × Json))) = true ∧
    startedAtNone testIso [] = true ∧
    exIsError (from_openai_trace_enhanced testIso (dtv 0) c4statusDoc) = true ∧
    connectorFails testIso c4statusDoc = true := ⟨rfl, rfl, rfl, rfl⟩

/-- C4 witness: both parts applied to the concrete sample document (converted
successfully, with no `ended_at` key and a null `end_time`). -/
theorem C4_witness :
    from_openai_trace_enhanced testIso (dtv 0) c5doc = .ok c5run ∧
    dgetD c5doc "ended_at" .null = .null ∧
    c5run.end_time = none ∧
    exIsError (from_openai_trace_enhanced testIso (dtv 0) c5doc) =
      connectorFails testIso c5doc :=
  ⟨rfl, rfl, C4_error_policy.2 testIso (dtv 0) c5doc c5run rfl rfl,
   C4_error_policy.1 testIso (dtv 0) c5doc⟩

end ALO
